import Mathlib

/-!
# PiShot: sensing and prediction core

A shallow embedding of `pishot/src/object_vector.c` and `pishot/src/sonic.c`.

C `float` values are modelled by an arbitrary linearly ordered field `α`
(exact arithmetic, no rounding); `ℚ` gives executable instances and `ℝ` the
intended reading.  Where the rounding of the type decides a property, the 3D
position module is embedded a second time with the result of every `float`
operation rounded (`pos_from_dists_float`, with `round_f32` for IEEE 754
binary32).  A division whose divisor is zero has no value in exact
arithmetic and is reported as a `Fault`; so is an array read outside the
entries that were written.  `unsigned` values are natural numbers below
`2 ^ 32` and wrap explicitly.
-/

namespace PiShot

/-! ## `utils.h` -/

section utils

variable {α : Type} [LinearOrderedField α]

/-- The macro `min(X, Y) ((X) < (Y) ? (X) : (Y))`. -/
def cmin (X Y : α) : α := if X < Y then X else Y

/-- The macro `max(X, Y) ((X) > (Y) ? (X) : (Y))`. -/
def cmax (X Y : α) : α := if X > Y then X else Y

/-- The macro `abs(X) ((X) < 0 ? -(X) : (X))`. -/
def cabs (X : α) : α := if X < 0 then -X else X

/-- The macro `square(X) ((X) * (X))`. -/
def square (X : α) : α := X * X

end utils

/-- Modelled from the spec: `utils.h` declares `float sqrt(float f)` and
documents it as "returns sqrt of float value (-1 if f < 0)"; its body is not
among the sources.  This rational stand-in returns `-1` below zero, the exact
root of the square of a rational, and the quotient of the integer roots of
numerator and denominator elsewhere. -/
def sqrtQ (f : ℚ) : ℚ :=
  if f < 0 then -1 else (Nat.sqrt f.num.natAbs : ℚ) / (Nat.sqrt f.den : ℚ)

/-! ## Faults -/

/-- What the exact-arithmetic model cannot give a value to. -/
inductive Fault where
  /-- A division whose divisor is zero. -/
  | div_by_zero
  /-- An array access outside the array. -/
  | index_out_of_range
  /-- A read of an array entry that was never written. -/
  | uninitialised_read
  /-- The bound the model puts on a C loop was reached; the C loop runs on. -/
  | out_of_fuel
  deriving DecidableEq, Repr

/-- Read of `arr[i]` for a C `int` index; the list holds the entries of the
array that have been written. -/
def aget {β : Type} (arr : List β) (i : Int) : Except Fault β :=
  if 0 ≤ i then
    match arr.get? i.toNat with
    | some v => Except.ok v
    | none => Except.error Fault.index_out_of_range
  else Except.error Fault.index_out_of_range

/-- Write of `arr[i] = v` for a C `int` index. -/
def aset {β : Type} (arr : List β) (i : Int) (v : β) : Except Fault (List β) :=
  if 0 ≤ i ∧ i.toNat < arr.length then Except.ok (arr.set i.toNat v)
  else Except.error Fault.index_out_of_range

/-- A `for (int i = 0; i < n; i++)` loop that produces one array entry per
iteration: entry `i` is `body i`. -/
def for_collect {β : Type} (body : Nat → Except Fault β) : Nat → Except Fault (List β)
  | 0 => Except.ok []
  | n + 1 =>
    match for_collect body n with
    | Except.error e => Except.error e
    | Except.ok xs =>
      match body n with
      | Except.error e => Except.error e
      | Except.ok x => Except.ok (xs ++ [x])

/-- Subtraction of two `unsigned` (32-bit) values. -/
def usub (a b : Nat) : Nat := (a % 2 ^ 32 + 2 ^ 32 - b % 2 ^ 32) % 2 ^ 32

/-- Conversion `unsigned` to `int` (32-bit two's complement). -/
def int_of_unsigned (u : Nat) : Int :=
  if u % 2 ^ 32 < 2 ^ 31 then ((u % 2 ^ 32 : Nat) : Int) else ((u % 2 ^ 32 : Nat) : Int) - 2 ^ 32

/-- Conversion `int` to `unsigned` (32-bit). -/
def unsigned_of_int (i : Int) : Nat := (i % 2 ^ 32).toNat

/-! ## `sonic.h` and `hoop.h` data -/

/-- The record `sonic_data_t`: one sensor's result for one cycle. -/
structure sonic_data_t where
  distance : Int
  timestamp : Int
  deriving DecidableEq, Repr

/-- The value `SONIC_INVALID_READING`. -/
def SONIC_INVALID_READING : Int := -1

/-- The record `board_pos_t`. -/
structure board_pos_t (α : Type) where
  x : α
  y : α
  deriving DecidableEq, Repr

/-! ## `object_vector.c`: 3D position module -/

/-- The record `vec_3d_t`. -/
structure vec_3d_t (α : Type) where
  x : α
  y : α
  z : α
  deriving DecidableEq, Repr

/-- The record `circle_t`. -/
structure circle_t (α : Type) where
  displacement : α
  radius : α
  deriving DecidableEq, Repr

/-- The record `kinematic_t`. -/
structure kinematic_t (α : Type) where
  pos : vec_3d_t α
  vel : vec_3d_t α
  accel : vec_3d_t α
  deriving DecidableEq, Repr

/-- The value `N_SENSORS`. -/
def N_SENSORS : Nat := 4

/-- The value `RECT_WIDTH`, an `int` constant in mm. -/
def RECT_WIDTH : Int := 1219

/-- The value `RECT_HEIGHT`, an `int` constant in mm. -/
def RECT_HEIGHT : Int := 1219

/-- The value `MAX_SENSE_DEPTH`. -/
def MAX_SENSE_DEPTH : Int := 3000

/-- The value `N_BURST_SAMPLES`. -/
def N_BURST_SAMPLES : Nat := 7

/-- The enumerators `SENSOR_TOP_LEFT` .. `SENSOR_BOTTOM_LEFT`. -/
def SENSOR_TOP_LEFT : Fin 4 := 0
/-- See `SENSOR_TOP_LEFT`. -/
def SENSOR_TOP_RIGHT : Fin 4 := 1
/-- See `SENSOR_TOP_LEFT`. -/
def SENSOR_BOTTOM_RIGHT : Fin 4 := 2
/-- See `SENSOR_TOP_LEFT`. -/
def SENSOR_BOTTOM_LEFT : Fin 4 := 3

section geometry

variable {α : Type} [LinearOrderedField α]

/-- The value `NO_INTERSECTION`, as a float. -/
def NO_INTERSECTION : α := -1

/-- `xy_sphere_intersect`: the circle in which two spheres meet. -/
def xy_sphere_intersect (sqrt : α → α) (r_offzero r_onzero centers_dist : α) : circle_t α :=
  if r_onzero + r_offzero ≥ centers_dist then
    let displacement :=
      (square centers_dist - square r_offzero + square r_onzero) / (2 * centers_dist)
    let radius := sqrt (square r_onzero - square displacement)
    if radius < 0 then { displacement := 0, radius := -1 }
    else { displacement := displacement, radius := radius }
  else
    { displacement := ((centers_dist - r_offzero) + r_onzero) / 2, radius := 0 }

/-- `sphere_circle_hit`. -/
def sphere_circle_hit (r_sphere r_circle offset_perpedic offset_parallel : α) : Bool :=
  if cabs offset_perpedic > r_sphere then false
  else
    let parallel_dist := cabs offset_parallel
    decide (parallel_dist - r_circle < r_sphere) && decide (parallel_dist + r_circle > r_sphere)

/-- `z_circle_sphere_intersect`. -/
def z_circle_sphere_intersect (sqrt : α → α)
    (r_sphere r_circle offset_perpendic offset_parallel : α) : α :=
  let r_circ_intersec := r_sphere - offset_perpendic
  let intersec_dist_xyplane :=
    (square offset_parallel - square r_circ_intersec + square r_circle) / (2 * offset_parallel)
  let z := sqrt (square r_circle - square intersec_dist_xyplane)
  if z < 0 then NO_INTERSECTION else z

/-- The `y` stage of `pos_from_dists` (lines 156-160): `none` is the
`return false`. -/
def pos_y (left right : circle_t α) : Option α :=
  if left.radius ≠ NO_INTERSECTION ∧ right.radius ≠ NO_INTERSECTION then
    some ((left.displacement + right.displacement) / 2)
  else if left.radius ≠ NO_INTERSECTION then some left.displacement
  else if right.radius ≠ NO_INTERSECTION then some right.displacement
  else none

/-- The `x` stage of `pos_from_dists` (lines 162-166). -/
def pos_x (top bottom : circle_t α) : Option α :=
  if top.radius ≠ NO_INTERSECTION ∧ bottom.radius ≠ NO_INTERSECTION then
    some ((top.displacement + bottom.displacement) / 2)
  else if top.radius ≠ NO_INTERSECTION then some top.displacement
  else if bottom.radius ≠ NO_INTERSECTION then some bottom.displacement
  else none

/-- The fallback of `pos_from_dists` (lines 222-227): the least valid circle
radius, at most `MAX_SENSE_DEPTH`. -/
def z_guess (left right top bottom : circle_t α) : α :=
  let g0 : α := (MAX_SENSE_DEPTH : α)
  let g1 := if left.radius ≠ NO_INTERSECTION then cmin left.radius g0 else g0
  let g2 := if right.radius ≠ NO_INTERSECTION then cmin right.radius g1 else g1
  let g3 := if top.radius ≠ NO_INTERSECTION then cmin top.radius g2 else g2
  if bottom.radius ≠ NO_INTERSECTION then cmin bottom.radius g3 else g3

/-- The `z` stage of `pos_from_dists` (lines 179-229).  The offsets
`RECT_HEIGHT / 2` and `RECT_WIDTH / 2` are `int` divisions. -/
def pos_z (sqrt : α → α) (dTL dTR dBR dBL : α) (left right top bottom : circle_t α) : α :=
  let half_h : α := ((RECT_HEIGHT / 2 : Int) : α)
  let half_w : α := ((RECT_WIDTH / 2 : Int) : α)
  let w : α := (RECT_WIDTH : α)
  let h : α := (RECT_HEIGHT : α)
  let hit1 := sphere_circle_hit dTL right.radius half_h w
  let z1 := if hit1 then z_circle_sphere_intersect sqrt dTL right.radius half_h w
            else NO_INTERSECTION
  let height2 := z_circle_sphere_intersect sqrt dTR bottom.radius half_w h
  let height3 := z_circle_sphere_intersect sqrt dBR left.radius half_h w
  let height4 := z_circle_sphere_intersect sqrt dBL top.radius half_w h
  if sphere_circle_hit dTR bottom.radius half_w h then
    if hit1 then (z1 + height2) / 2
    else if sphere_circle_hit dBR left.radius half_h w then (height2 + height3) / 2
    else if sphere_circle_hit dBL top.radius half_w h then (height2 + height4) / 2
    else height2
  else if sphere_circle_hit dBR left.radius half_h w then
    if hit1 then (z1 + height3) / 2
    else if sphere_circle_hit dBL top.radius half_w h then (height3 + height4) / 2
    else height3
  else if sphere_circle_hit dBL top.radius half_w h then
    if hit1 then (z1 + height4) / 2
    else height4
  else if hit1 then z1
  else z_guess left right top bottom

/-- `pos_from_dists`: the returned `bool` and the final content of `*pos`. -/
def pos_from_dists (sqrt : α → α) (dists : Fin 4 → sonic_data_t) : Bool × vec_3d_t α :=
  let dTL : α := ((dists SENSOR_TOP_LEFT).distance : α)
  let dTR : α := ((dists SENSOR_TOP_RIGHT).distance : α)
  let dBR : α := ((dists SENSOR_BOTTOM_RIGHT).distance : α)
  let dBL : α := ((dists SENSOR_BOTTOM_LEFT).distance : α)
  let left := xy_sphere_intersect sqrt dTL dBL (RECT_HEIGHT : α)
  let right := xy_sphere_intersect sqrt dTR dBR (RECT_HEIGHT : α)
  let top := xy_sphere_intersect sqrt dTR dTL (RECT_WIDTH : α)
  let bottom := xy_sphere_intersect sqrt dBR dBL (RECT_WIDTH : α)
  match pos_y left right with
  | none => (false, { x := NO_INTERSECTION, y := NO_INTERSECTION, z := NO_INTERSECTION })
  | some y =>
    match pos_x top bottom with
    | none => (false, { x := NO_INTERSECTION, y := y, z := NO_INTERSECTION })
    | some x => (true, { x := x, y := y, z := pos_z sqrt dTL dTR dBR dBL left right top bottom })

end geometry

/-! ## `object_vector.c`: hit prediction module -/

section kinematics

variable {α : Type} [LinearOrderedField α]

/-- `vec_add`. -/
def vec_add (v1 v2 : vec_3d_t α) : vec_3d_t α :=
  { x := v1.x + v2.x, y := v1.y + v2.y, z := v1.z + v2.z }

/-- `vec_sub`. -/
def vec_sub (pos_v neg_v : vec_3d_t α) : vec_3d_t α :=
  { x := pos_v.x - neg_v.x, y := pos_v.y - neg_v.y, z := pos_v.z - neg_v.z }

/-- A float division `a / b`; a zero divisor is a fault. -/
def fdiv (a b : α) : Except Fault α :=
  if b = 0 then Except.error Fault.div_by_zero else Except.ok (a / b)

/-- `vec_div`: three float divisions by `scalar`. -/
def vec_div (v : vec_3d_t α) (scalar : α) : Except Fault (vec_3d_t α) :=
  if scalar = 0 then Except.error Fault.div_by_zero
  else Except.ok { x := v.x / scalar, y := v.y / scalar, z := v.z / scalar }

/-- Body of the first loop of `trajec_from_positions` (lines 275-276). -/
def vel_at (positions : List (vec_3d_t α)) (timestamps : List Nat) (i : Nat) :
    Except Fault (vec_3d_t α) := do
  let t1 ← aget timestamps ((i : Int) + 1)
  let t0 ← aget timestamps (i : Int)
  let dt_micros := usub t1 t0
  let p1 ← aget positions ((i : Int) + 1)
  let p0 ← aget positions (i : Int)
  vec_div (vec_sub p1 p0) (dt_micros : α)

/-- Body of the second loop of `trajec_from_positions` (lines 281-282). -/
def accel_at (vels : List (vec_3d_t α)) (timestamps : List Nat) (i : Nat) :
    Except Fault (vec_3d_t α) := do
  let t2 ← aget timestamps ((i : Int) + 2)
  let t0 ← aget timestamps (i : Int)
  let dt_micros := usub t2 t0
  let v1 ← aget vels ((i : Int) + 1)
  let v0 ← aget vels (i : Int)
  vec_div (vec_sub v1 v0) (dt_micros : α)

/-- The summing loops of `trajec_from_positions` (lines 286-289, 292-295);
`vs` has one entry per iteration. -/
def vec_sum (vs : List (vec_3d_t α)) : vec_3d_t α :=
  vs.foldl vec_add { x := 0, y := 0, z := 0 }

/-- `trajec_from_positions`. -/
def trajec_from_positions (positions : List (vec_3d_t α)) (timestamps : List Nat)
    (n_positions : Int) : Except Fault (kinematic_t α) := do
  let n_vels : Int := n_positions - 1
  let n_accels : Int := n_positions - 2
  let vels ← for_collect (vel_at positions timestamps) n_vels.toNat
  let accels ← for_collect (accel_at vels timestamps) n_accels.toNat
  let vels_avg ← vec_div (vec_sum vels) (n_vels : α)
  let accels_avg ← vec_div (vec_sum accels) (n_accels : α)
  let pos ← aget positions (Int.tdiv n_positions 2)
  pure { pos := pos, vel := vels_avg, accel := accels_avg }

/-- `intersec_from_trajec`: `Except.ok none` is `return false` (`*intersec`
untouched), `Except.ok (some board)` is `return true` with `*intersec = board`. -/
def intersec_from_trajec (sqrt : α → α) (obj_trajec : kinematic_t α) :
    Except Fault (Option (board_pos_t α)) :=
  let v_z := obj_trajec.vel.z
  let a_z := obj_trajec.accel.z
  let z := obj_trajec.pos.z
  if (v_z * v_z - 2 * a_z * z) > 0 then do
    let t1 ← fdiv (-v_z + sqrt (v_z * v_z - 2 * a_z * z)) a_z
    let t2 ← fdiv (-v_z - sqrt (v_z * v_z - 2 * a_z * z)) a_z
    let t1 := cmax 0 t1
    let t2 := cmax 0 t2
    let time_earlier := cmin t1 t2
    pure (some
      { x := obj_trajec.pos.x + obj_trajec.vel.x * time_earlier
              + (1 / 2) * obj_trajec.accel.x * square time_earlier,
        y := obj_trajec.pos.y + obj_trajec.vel.y * time_earlier
              + (1 / 2) * obj_trajec.accel.y * square time_earlier })
  else pure none

/-- An array of four readings: entries 0 (top left), 1 (top right),
2 (bottom right), 3 (bottom left). -/
def quad (d0 d1 d2 d3 : sonic_data_t) : Fin 4 → sonic_data_t :=
  fun i => if i = 0 then d0 else if i = 1 then d1 else if i = 2 then d2 else d3

/-- The four entries `pos_from_dists` reads of one array reading. -/
def dists_of_reading (reading : List sonic_data_t) : Except Fault (Fin 4 → sonic_data_t) := do
  let d0 ← aget reading 0
  let d1 ← aget reading 1
  let d2 ← aget reading 2
  let d3 ← aget reading 3
  pure (quad d0 d1 d2 d3)

/-- The first loop of `object_vector_predict` (lines 363-365): the written
entries of `positions` and `n_positions`, over the readings that remain.
Each call writes `positions[n_positions]`, also when it fails. -/
def keep_positions (sqrt : α → α) :
    List (List sonic_data_t) → List (vec_3d_t α) → Nat → Except Fault (List (vec_3d_t α) × Nat)
  | [], positions, n_positions => Except.ok (positions, n_positions)
  | reading :: rest, positions, n_positions =>
    match dists_of_reading reading with
    | Except.error e => Except.error e
    | Except.ok dists =>
      let r := pos_from_dists sqrt dists
      let positions := positions.take n_positions ++ [r.2]
      keep_positions sqrt rest positions (if r.1 then n_positions + 1 else n_positions)

/-- The second loop of `object_vector_predict` (lines 369-372):
`timestamps[i] = array_readings[i][N_SENSORS / 2].timestamp` for `i < n_positions`. -/
def assemble_timestamps (array_readings : List (List sonic_data_t)) (n_positions : Nat) :
    Except Fault (List Nat) :=
  for_collect (fun i => do
    let reading ← aget array_readings (i : Int)
    let d ← aget reading ((N_SENSORS / 2 : Nat) : Int)
    pure (unsigned_of_int d.timestamp)) n_positions

/-- Lines 360-376 of `object_vector_predict`: the kinematic estimate fitted to
the burst that `sonic_read_sync_multiple` stored in `array_readings`. -/
def burst_trajec (sqrt : α → α) (array_readings : List (List sonic_data_t)) :
    Except Fault (kinematic_t α) := do
  let (positions, n_positions) ← keep_positions sqrt array_readings [] 0
  let timestamps ← assemble_timestamps array_readings n_positions
  trajec_from_positions positions timestamps (n_positions : Int)

/-- `object_vector_predict` from line 360 on: `Except.ok none` is
`return false`, `Except.ok (some p)` is `return true` with `*prediction = p`.
`RECT_WIDTH / 2` and `RECT_HEIGHT / 2` are `int` divisions. -/
def predict_from_burst (sqrt : α → α) (array_readings : List (List sonic_data_t)) :
    Except Fault (Option (board_pos_t α)) := do
  let trajec ← burst_trajec sqrt array_readings
  match (← intersec_from_trajec sqrt trajec) with
  | none => pure none
  | some prediction =>
    pure (some { x := prediction.x - ((RECT_WIDTH / 2 : Int) : α),
                 y := prediction.y - ((RECT_HEIGHT / 2 : Int) : α) })

end kinematics

/-! ## Hardware collaborators (`gpio.h`, `timer.h`, `interrupts.h`) -/

/-- The interrupt sources the code names.  `interrupts.h` is not among the
sources; only the names are used, as labels in the call log. -/
inductive interrupt_source where
  | INTERRUPTS_GPIO3
  | INTERRUPTS_BASIC_ARM_TIMER_IRQ
  deriving DecidableEq, Repr

/-- One call into the pin, tick or interrupt collaborators, with the value
it returned where it returns one. -/
inductive IOEvent where
  | gpio_write (pin val : Nat)
  | gpio_read (pin val : Nat)
  | gpio_set_output (pin : Nat)
  | gpio_set_input (pin : Nat)
  | gpio_set_pulldown (pin : Nat)
  | gpio_enable_event_detection (pin : Nat)
  | gpio_disable_event_detection (pin : Nat)
  | gpio_clear_event (pin : Nat)
  | timer_get_ticks (val : Nat)
  | timer_delay_us (usecs : Nat)
  | interrupts_attach_handler (source : interrupt_source)
  deriving DecidableEq, Repr

/-- The hardware as the code sees it: `input k` is what the `k`-th read
(`gpio_read` or `timer_get_ticks`) returns, `cursor` counts the reads made and
`log` records every call in order. -/
structure Hardware where
  input : Nat → Nat
  cursor : Nat
  log : List IOEvent

/-- `gpio_write(pin, val)`. -/
def gpio_write (pin val : Nat) (hw : Hardware) : Hardware :=
  { hw with log := hw.log ++ [IOEvent.gpio_write pin val] }

/-- `gpio_read(pin)`: a level, `0` or `1`. -/
def gpio_read (pin : Nat) (hw : Hardware) : Nat × Hardware :=
  (hw.input hw.cursor % 2,
   { hw with cursor := hw.cursor + 1,
             log := hw.log ++ [IOEvent.gpio_read pin (hw.input hw.cursor % 2)] })

/-- `gpio_clear_event(pin)`. -/
def gpio_clear_event (pin : Nat) (hw : Hardware) : Hardware :=
  { hw with log := hw.log ++ [IOEvent.gpio_clear_event pin] }

/-- `timer_get_ticks()`: an `unsigned` tick count. -/
def timer_get_ticks (hw : Hardware) : Nat × Hardware :=
  (hw.input hw.cursor % 2 ^ 32,
   { hw with cursor := hw.cursor + 1,
             log := hw.log ++ [IOEvent.timer_get_ticks (hw.input hw.cursor % 2 ^ 32)] })

/-- `timer_delay_us(usecs)`. -/
def timer_delay_us (usecs : Nat) (hw : Hardware) : Hardware :=
  { hw with log := hw.log ++ [IOEvent.timer_delay_us usecs] }

/-- `gpio_set_output(pin)`. -/
def gpio_set_output (pin : Nat) (hw : Hardware) : Hardware :=
  { hw with log := hw.log ++ [IOEvent.gpio_set_output pin] }

/-- `gpio_set_input(pin)`. -/
def gpio_set_input (pin : Nat) (hw : Hardware) : Hardware :=
  { hw with log := hw.log ++ [IOEvent.gpio_set_input pin] }

/-- `gpio_set_pulldown(pin)`. -/
def gpio_set_pulldown (pin : Nat) (hw : Hardware) : Hardware :=
  { hw with log := hw.log ++ [IOEvent.gpio_set_pulldown pin] }

/-- `gpio_enable_event_detection(pin, GPIO_DETECT_FALLING_EDGE)`, the only
event the code asks for. -/
def gpio_enable_event_detection (pin : Nat) (hw : Hardware) : Hardware :=
  { hw with log := hw.log ++ [IOEvent.gpio_enable_event_detection pin] }

/-- `gpio_disable_event_detection(pin, GPIO_DETECT_FALLING_EDGE)`. -/
def gpio_disable_event_detection (pin : Nat) (hw : Hardware) : Hardware :=
  { hw with log := hw.log ++ [IOEvent.gpio_disable_event_detection pin] }

/-- `interrupts_attach_handler(fn, source)`. -/
def interrupts_attach_handler (source : interrupt_source) (hw : Hardware) : Hardware :=
  { hw with log := hw.log ++ [IOEvent.interrupts_attach_handler source] }

/-! ## `countdown.c` -/

/-- The functions installed as countdown handlers: the three callbacks of
`sonic.c`, or any other function of the client. -/
inductive handler_fn_t where
  | start_trigger
  | finish_trigger
  | timeout
  | client (id : Nat)
  deriving DecidableEq, Repr

/-- The module state `struct countdown_state`; `handler = none` is `NULL`. -/
structure countdown_state where
  is_discontinuous : Bool
  handler : Option handler_fn_t
  deriving DecidableEq, Repr

/-- The registers `struct countdown_t` that the code writes; each 32-bit
register stores what is written to it. -/
structure countdown_t where
  load : Nat
  value : Nat
  timer_is_32_bit : Bool
  enable_timer_interrupt : Bool
  enable_timer : Bool
  clear_event : Nat
  overflow : Nat
  irq : Nat
  reload : Nat
  prescale : Nat
  deriving DecidableEq, Repr

/-- `countdown_enable`. -/
def countdown_enable (c : countdown_t) : countdown_t := { c with enable_timer := true }

/-- `countdown_disable`. -/
def countdown_disable (c : countdown_t) : countdown_t := { c with enable_timer := false }

/-- `countdown_set_ticks`: `ticks - 1` in `unsigned` arithmetic. -/
def countdown_set_ticks (ticks : Nat) (c : countdown_t) : countdown_t :=
  { c with reload := usub ticks 1, load := usub ticks 1 }

/-- `countdown_set_handler`. -/
def countdown_set_handler (handler : Option handler_fn_t) (cs : countdown_state) :
    countdown_state :=
  { cs with handler := handler }

/-- The type `countdown_mode_t` of `countdown.h`. -/
inductive countdown_mode_t where
  | COUNTDOWN_MODE_CONTINUOUS
  | COUNTDOWN_MODE_DISCONTINUOUS
  deriving DecidableEq, Repr

/-- `countdown_is_enabled`. -/
def countdown_is_enabled (c : countdown_t) : Bool := c.enable_timer

/-- `countdown_enable_interrupts`. -/
def countdown_enable_interrupts (c : countdown_t) : countdown_t :=
  { c with enable_timer_interrupt := true }

/-- `countdown_disable_interrupts`. -/
def countdown_disable_interrupts (c : countdown_t) : countdown_t :=
  { c with enable_timer_interrupt := false }

/-- `countdown_get_load`: `load + 1` in `unsigned` arithmetic. -/
def countdown_get_load (c : countdown_t) : Nat := (c.load + 1) % 2 ^ 32

/-- `countdown_get_reload`: `reload + 1` in `unsigned` arithmetic. -/
def countdown_get_reload (c : countdown_t) : Nat := (c.reload + 1) % 2 ^ 32

/-- `countdown_reset`. -/
def countdown_reset (ticks : Nat) (c : countdown_t) : countdown_t :=
  countdown_set_ticks ticks (countdown_disable c)

/-- `countdown_check_interrupt`. -/
def countdown_check_interrupt (c : countdown_t) : Bool := decide (c.irq ≠ 0)

/-- `countdown_clear_event`. -/
def countdown_clear_event (c : countdown_t) : countdown_t := { c with clear_event := 1 }

/-- `countdown_check_and_clear_interrupt`. -/
def countdown_check_and_clear_interrupt (c : countdown_t) : Bool × countdown_t :=
  let had_event := countdown_check_interrupt c
  (had_event, if had_event then countdown_clear_event c else c)

/-- `countdown_get_mode`. -/
def countdown_get_mode (cs : countdown_state) : countdown_mode_t :=
  if cs.is_discontinuous then countdown_mode_t.COUNTDOWN_MODE_DISCONTINUOUS
  else countdown_mode_t.COUNTDOWN_MODE_CONTINUOUS

/-! ## `sonic_rb.h` -/

/-- Modelled from the spec: `sonic_rb.c` is not among the sources; the ring
buffer is a "fixed capacity circular queue" of array readings, oldest first.
The capacity is a field because its value is not given. -/
structure sonic_rb_t where
  capacity : Nat
  queue : List (List (Option sonic_data_t))
  deriving DecidableEq, Repr

/-- Modelled from the spec: `sonic_rb_enqueue` "fails and leaves the buffer
unchanged if full", and otherwise adds the element at the back. -/
def sonic_rb_enqueue (rb : sonic_rb_t) (elem : List (Option sonic_data_t)) : Bool × sonic_rb_t :=
  if rb.queue.length ≥ rb.capacity then (false, rb)
  else (true, { rb with queue := rb.queue ++ [elem] })

/-! ## `sonic.c` -/

/-- The record `sonic_sensor_t`. -/
structure sonic_sensor_t where
  trigger : Nat
  echo : Nat
  deriving DecidableEq, Repr

/-- The value `SONIC_MIN_DELAY`. -/
def SONIC_MIN_DELAY : Nat := 1

/-- The value `TRIGGER_DELAY`. -/
def TRIGGER_DELAY : Nat := 10

/-- The module state `struct sonic_config`.  An entry of `curr_data` is `none`
until it is written. -/
structure sonic_config where
  sensors : List sonic_sensor_t
  n_sensors : Int
  arr_readings : sonic_rb_t
  curr_data : List (Option sonic_data_t)
  curr_sensor : Int
  curr_trigger_timestamp : Nat
  awaiting_echo : Bool
  is_active : Bool
  handler_attached : Bool
  cycle_delay : Nat
  unit_delay : Nat
  timeout : Nat
  deriving DecidableEq, Repr

/-- Everything the interrupt-driven read loop touches: the state of
`sonic.c`, the state and registers of `countdown.c`, and the hardware. -/
structure System where
  state : sonic_config
  cd_state : countdown_state
  countdown : countdown_t
  hw : Hardware

/-- `start_timer`. -/
def start_timer (micros : Nat) (callback : handler_fn_t) (s : System) : System :=
  { s with countdown := countdown_enable (countdown_set_ticks micros s.countdown),
           cd_state := countdown_set_handler (some callback) s.cd_state }

/-- `next_sensor`. -/
def next_sensor (s : System) : System :=
  if !s.state.is_active then s
  else if s.state.curr_sensor = s.state.n_sensors - 1 then
    let complete_cycle := s.state.curr_data.take s.state.n_sensors.toNat
    let r := sonic_rb_enqueue s.state.arr_readings complete_cycle
    let delay :=
      if s.state.cycle_delay < SONIC_MIN_DELAY then s.state.unit_delay else s.state.cycle_delay
    start_timer delay handler_fn_t.start_trigger
      { s with state := { s.state with arr_readings := r.2, curr_sensor := 0 } }
  else
    start_timer s.state.unit_delay handler_fn_t.start_trigger
      { s with state := { s.state with curr_sensor := s.state.curr_sensor + 1 } }

/-- `start_trigger`. -/
def start_trigger (s : System) : Except Fault System :=
  if !s.state.is_active then Except.ok s
  else do
    let sensor ← aget s.state.sensors s.state.curr_sensor
    pure (start_timer TRIGGER_DELAY handler_fn_t.finish_trigger
      { s with hw := gpio_write sensor.trigger 1 s.hw })

/-- `finish_trigger`. -/
def finish_trigger (s : System) : Except Fault System :=
  if !s.state.is_active then Except.ok s
  else do
    let sensor ← aget s.state.sensors s.state.curr_sensor
    let hw := gpio_write sensor.trigger 0 s.hw
    let t := timer_get_ticks hw
    pure (start_timer s.state.timeout handler_fn_t.timeout
      { s with hw := t.2,
               state := { s.state with curr_trigger_timestamp := t.1, awaiting_echo := true } })

/-- `timeout`, the callback. -/
def timeout (s : System) : Except Fault System :=
  if !s.state.awaiting_echo then Except.ok s
  else do
    let curr_data ← aset s.state.curr_data s.state.curr_sensor
      (some { distance := SONIC_INVALID_READING,
              timestamp := int_of_unsigned s.state.curr_trigger_timestamp })
    pure (next_sensor
      { s with state := { s.state with awaiting_echo := false, curr_data := curr_data } })

/-- The conversion `(int) ((elapsed * SPEED_MM_MICRO) / 2)` with
`SPEED_MM_MICRO = .343`, in exact arithmetic: `elapsed * 343 / 2000` rounded
toward zero. -/
def distance_of_elapsed (elapsed : Nat) : Int := ((elapsed * 343 / 2000 : Nat) : Int)

/-- `did_timeout`. -/
def did_timeout (start timeout : Nat) (hw : Hardware) : Bool × Hardware :=
  let t := timer_get_ticks hw
  (decide (usub t.1 start ≥ timeout), t.2)

/-- The busy wait `while (gpio_read(echo) == level && !did_timeout(start, timeout)) ;`
of `sonic_read_sync`, for at most `fuel` iterations. -/
def wait_while_level (level echo start timeout : Nat) : Nat → Hardware → Except Fault Hardware
  | 0, _ => Except.error Fault.out_of_fuel
  | fuel + 1, hw =>
    let r := gpio_read echo hw
    if r.1 = level then
      let d := did_timeout start timeout r.2
      if !d.1 then wait_while_level level echo start timeout fuel d.2
      else Except.ok d.2
    else Except.ok r.2

/-- What one iteration of the `for` loop of `sonic_read_sync` finds for
sensor `i`, before it stores it. -/
structure measurement where
  /-- The tick read right after the trigger pin went low. -/
  start : Nat
  /-- The value of `elapsed` on line 237, the measured round-trip time. -/
  elapsed : Nat
  /-- The value of `timer_get_ticks() - start` inside the `did_timeout` call
  on line 239. -/
  check_elapsed : Nat
  /-- The outcome of `did_timeout(start, state.timeout)` on line 239. -/
  timed_out : Bool
  /-- The reading stored in `result[i]`. -/
  reading : sonic_data_t
  deriving DecidableEq, Repr

/-- Lines 229-247 of `sonic_read_sync`: trigger sensor `i`, await its echo
and compute its reading. -/
def sync_measure (fuel : Nat) (st : sonic_config) (i : Nat) (hw : Hardware) :
    Except Fault (measurement × Hardware) := do
  let sensor ← aget st.sensors (i : Int)
  let hw := gpio_write sensor.trigger 1 hw
  let hw := timer_delay_us TRIGGER_DELAY hw
  let hw := gpio_write sensor.trigger 0 hw
  let t := timer_get_ticks hw
  let start := t.1
  let hw ← wait_while_level 0 sensor.echo start st.timeout fuel t.2
  let hw ← wait_while_level 1 sensor.echo start st.timeout fuel hw
  let t := timer_get_ticks hw
  let elapsed := usub t.1 start
  let d := did_timeout start st.timeout t.2
  let check_elapsed := usub (timer_get_ticks t.2).1 start
  if d.1 then
    pure ({ start := start, elapsed := elapsed, check_elapsed := check_elapsed,
            timed_out := true,
            reading := { distance := SONIC_INVALID_READING,
                         timestamp := int_of_unsigned start } }, d.2)
  else
    pure ({ start := start, elapsed := elapsed, check_elapsed := check_elapsed,
            timed_out := false,
            reading := { distance := distance_of_elapsed elapsed,
                         timestamp := int_of_unsigned (start + elapsed / 2) } }, d.2)

/-- The `for` loop of `sonic_read_sync` (lines 228-250) from index `i` with
`remaining = n_sensors - i` iterations to go: the array `result`, the value of
`valid_readings` and the hardware when the loop is left. -/
def sync_pass (fuel : Nat) (st : sonic_config) (min_valid : Int) :
    Nat → Nat → List (Option sonic_data_t) → Int → Hardware →
    Except Fault (List (Option sonic_data_t) × Int × Hardware)
  | 0, _, result, valid_readings, hw => Except.ok (result, valid_readings, hw)
  | remaining + 1, i, result, valid_readings, hw =>
    match sync_measure fuel st i hw with
    | Except.error e => Except.error e
    | Except.ok (m, hw) =>
      match aset result (i : Int) (some m.reading) with
      | Except.error e => Except.error e
      | Except.ok result =>
        if m.timed_out then
          if valid_readings - 1 < min_valid then Except.ok (result, valid_readings - 1, hw)
          else
            sync_pass fuel st min_valid remaining (i + 1) result (valid_readings - 1)
              (timer_delay_us st.unit_delay hw)
        else
          sync_pass fuel st min_valid remaining (i + 1) result valid_readings
            (timer_delay_us st.unit_delay hw)

/-- The `do ... while (valid_readings < min_valid)` loop of `sonic_read_sync`,
for at most `tries` passes. -/
def sync_retry (fuel : Nat) (st : sonic_config) (min_valid : Int) :
    Nat → List (Option sonic_data_t) → Hardware →
    Except Fault (List (Option sonic_data_t) × Hardware)
  | 0, _, _ => Except.error Fault.out_of_fuel
  | tries + 1, result, hw =>
    match sync_pass fuel st min_valid st.n_sensors.toNat 0 result st.n_sensors hw with
    | Except.error e => Except.error e
    | Except.ok (result, valid_readings, hw) =>
      if valid_readings < min_valid then sync_retry fuel st min_valid tries result hw
      else Except.ok (result, hw)

/-- `sonic_read_sync`: the returned `bool`, the array stored in `*read_dest`
(`none` when nothing is stored) and the hardware afterwards.  The fresh array
from `malloc` has `n_sensors` unwritten entries. -/
def sonic_read_sync (fuel : Nat) (st : sonic_config) (min_valid : Int) (hw : Hardware) :
    Except Fault (Bool × Option (List (Option sonic_data_t)) × Hardware) :=
  if st.is_active then Except.ok (false, none, hw)
  else
    match sync_retry fuel st min_valid fuel (List.replicate st.n_sensors.toNat none) hw with
    | Except.error e => Except.error e
    | Except.ok (result, hw) => Except.ok (true, some result, hw)

/-- The `for` loop of `sonic_read_sync_multiple` with `remaining` iterations to
go: the entries written to `read_dests` (`none` where `sonic_read_sync` stored
nothing) and the hardware afterwards. -/
def sync_multiple_loop (fuel : Nat) (st : sonic_config) (min_valid : Int) :
    Nat → Hardware → Except Fault (List (Option (List (Option sonic_data_t))) × Hardware)
  | 0, hw => Except.ok ([], hw)
  | remaining + 1, hw =>
    match sonic_read_sync fuel st min_valid hw with
    | Except.error e => Except.error e
    | Except.ok (_, read_dest, hw) =>
      match sync_multiple_loop fuel st min_valid remaining (timer_delay_us st.cycle_delay hw) with
      | Except.error e => Except.error e
      | Except.ok (rest, hw) => Except.ok (read_dest :: rest, hw)

/-- `sonic_read_sync_multiple`. -/
def sonic_read_sync_multiple (fuel : Nat) (st : sonic_config) (n_readings : Int)
    (min_valid : Int) (hw : Hardware) :
    Except Fault (Bool × List (Option (List (Option sonic_data_t))) × Hardware) :=
  if st.is_active then Except.ok (false, [], hw)
  else
    match sync_multiple_loop fuel st min_valid n_readings.toNat hw with
    | Except.error e => Except.error e
    | Except.ok (read_dests, hw) => Except.ok (true, read_dests, hw)

/-- The content of one array reading as the prediction code reads it; an
entry that was never written is a fault. -/
def written_reading : Option (List (Option sonic_data_t)) → Except Fault (List sonic_data_t)
  | none => Except.error Fault.uninitialised_read
  | some reading =>
    reading.mapM (fun entry =>
      match entry with
      | none => Except.error Fault.uninitialised_read
      | some d => Except.ok d)

/-- `object_vector_predict`: the prediction (`none` is `return false`) and the
hardware afterwards. -/
def object_vector_predict {α : Type} [LinearOrderedField α] (fuel : Nat) (sqrt : α → α)
    (st : sonic_config) (hw : Hardware) : Except Fault (Option (board_pos_t α) × Hardware) :=
  match sonic_read_sync_multiple fuel st (N_BURST_SAMPLES : Int) 3 hw with
  | Except.error e => Except.error e
  | Except.ok (false, _, hw) => Except.ok (none, hw)
  | Except.ok (true, array_readings, hw) =>
    match array_readings.mapM written_reading with
    | Except.error e => Except.error e
    | Except.ok burst =>
      match predict_from_burst sqrt burst with
      | Except.error e => Except.error e
      | Except.ok prediction => Except.ok (prediction, hw)

/-- One complete pass in the words of the spec ("one pass through all
registered sensors"): each of the sensors `i, i + 1, ...` is measured once, in
registration order, with the unit delay after each; no early exit.  It returns
what was measured for each sensor. -/
def complete_pass (fuel : Nat) (st : sonic_config) :
    Nat → Nat → Hardware → Except Fault (List measurement × Hardware)
  | 0, _, hw => Except.ok ([], hw)
  | remaining + 1, i, hw =>
    match sync_measure fuel st i hw with
    | Except.error e => Except.error e
    | Except.ok (m, hw) =>
      match complete_pass fuel st remaining (i + 1) (timer_delay_us st.unit_delay hw) with
      | Except.error e => Except.error e
      | Except.ok (ms, hw) => Except.ok (m :: ms, hw)

/-! ## `countdown.c`: the functions that touch the module state -/

/-- `countdown_init`. -/
def countdown_init (mode : countdown_mode_t) (handler : Option handler_fn_t) (s : System) :
    System :=
  let is_discontinuous := decide (mode = countdown_mode_t.COUNTDOWN_MODE_DISCONTINUOUS)
  { s with
    cd_state := { is_discontinuous := is_discontinuous,
                  handler := if is_discontinuous then handler else none },
    hw := interrupts_attach_handler interrupt_source.INTERRUPTS_BASIC_ARM_TIMER_IRQ s.hw,
    countdown := { s.countdown with
                   enable_timer := false,
                   enable_timer_interrupt := is_discontinuous,
                   clear_event := 0,
                   timer_is_32_bit := true,
                   prescale := 250 - 1,
                   load := usub 0 1,
                   reload := usub 0 1 } }

/-- `countdown_set_mode`. -/
def countdown_set_mode (mode : countdown_mode_t) (s : System) : System :=
  let is_discontinuous := decide (mode = countdown_mode_t.COUNTDOWN_MODE_DISCONTINUOUS)
  let s := { s with cd_state := { s.cd_state with is_discontinuous := is_discontinuous } }
  if is_discontinuous then { s with countdown := countdown_enable_interrupts s.countdown }
  else s

/-- `countdown_done`, the function attached to the timer interrupt, up to the
call `state.handler()`: the returned `bool`, the function it calls (`none`
when it calls none) and the system at the moment of the call. -/
def countdown_done (s : System) : Bool × Option handler_fn_t × System :=
  match s.cd_state.handler with
  | none => (false, none, s)
  | some handler =>
    let c := if s.cd_state.is_discontinuous then countdown_disable s.countdown else s.countdown
    (true, some handler, { s with countdown := (countdown_check_and_clear_interrupt c).2 })

/-! ## `sonic.c`: set-up and tear-down -/

/-- The value `SONIC_MAX_SENSORS`. -/
def SONIC_MAX_SENSORS : Int := 10

/-- The value `SONIC_DEFAULT_TIMEOUT`. -/
def SONIC_DEFAULT_TIMEOUT : Nat := 17492

/-- Modelled from the spec: `sonic_rb_new` gives a new empty buffer; its
"fixed capacity" is not given and is an argument here. -/
def sonic_rb_new (capacity : Nat) : sonic_rb_t := { capacity := capacity, queue := [] }

/-- Modelled from the spec: `sonic_rb_dequeue` "fails and leaves the buffer
unchanged if empty; otherwise removes and returns the oldest entry". -/
def sonic_rb_dequeue (rb : sonic_rb_t) : Option (List (Option sonic_data_t)) × sonic_rb_t :=
  match rb.queue with
  | [] => (none, rb)
  | elem :: rest => (some elem, { rb with queue := rest })

/-- The static `state` before any function of the module has run: every
field zero.  An array that is not allocated (a null or a freed pointer) is the
empty list, and a buffer that is not allocated is the empty buffer of
capacity 0. -/
def initial_state : sonic_config :=
  { sensors := [],
    n_sensors := 0,
    arr_readings := { capacity := 0, queue := [] },
    curr_data := [],
    curr_sensor := 0,
    curr_trigger_timestamp := 0,
    awaiting_echo := false,
    is_active := false,
    handler_attached := false,
    cycle_delay := 0,
    unit_delay := 0,
    timeout := 0 }

/-- A loop `for (int i = 0; i < n; i++)` whose body makes hardware calls for
the sensor `sensors[i]`, from index `i` with `remaining` iterations to go. -/
def sensor_loop (sensors : List sonic_sensor_t) (body : sonic_sensor_t → Hardware → Hardware) :
    Nat → Nat → Hardware → Except Fault Hardware
  | 0, _, hw => Except.ok hw
  | remaining + 1, i, hw =>
    match aget sensors (i : Int) with
    | Except.error e => Except.error e
    | Except.ok sensor => sensor_loop sensors body remaining (i + 1) (body sensor hw)

/-- `sonic_init`: the returned `bool` and the system afterwards.  `sensors` is
the caller's array; `rb_capacity` is the capacity of the buffer that
`sonic_rb_new` makes. -/
def sonic_init (rb_capacity : Nat) (sensors : List sonic_sensor_t) (n_sensors : Int)
    (s : System) : Except Fault (Bool × System) :=
  if n_sensors > SONIC_MAX_SENSORS ∨ n_sensors ≤ 0 then Except.ok (false, s)
  else do
    let s :=
      if !s.state.handler_attached then
        { s with hw := interrupts_attach_handler interrupt_source.INTERRUPTS_GPIO3 s.hw,
                 state := { s.state with handler_attached := true } }
      else s
    let hw ← sensor_loop sensors
      (fun sensor hw =>
        gpio_set_pulldown sensor.echo (gpio_set_input sensor.echo
          (gpio_set_output sensor.trigger hw)))
      n_sensors.toNat 0 s.hw
    let copied ← for_collect (fun i => aget sensors (i : Int)) n_sensors.toNat
    pure (true,
      { s with hw := hw,
               state := { s.state with
                          sensors := copied,
                          curr_data := List.replicate n_sensors.toNat none,
                          arr_readings := sonic_rb_new rb_capacity,
                          n_sensors := n_sensors,
                          timeout := SONIC_DEFAULT_TIMEOUT,
                          unit_delay := SONIC_MIN_DELAY } })

/-- `sonic_sensor_count`. -/
def sonic_sensor_count (st : sonic_config) : Int := st.n_sensors

/-- `sonic_set_unit_delay`. -/
def sonic_set_unit_delay (micros : Nat) (st : sonic_config) : sonic_config :=
  if micros ≥ SONIC_MIN_DELAY then { st with unit_delay := micros } else st

/-- `sonic_set_cycle_delay`. -/
def sonic_set_cycle_delay (micros : Nat) (st : sonic_config) : sonic_config :=
  { st with cycle_delay := micros }

/-- `sonic_set_timeout`. -/
def sonic_set_timeout (micros : Nat) (st : sonic_config) : sonic_config :=
  { st with timeout := micros }

/-- `sonic_on`. -/
def sonic_on (s : System) : Except Fault System := do
  let s := { s with state := { s.state with is_active := true, curr_sensor := 0 } }
  let s := { s with countdown := countdown_reset TRIGGER_DELAY s.countdown }
  let s := countdown_set_mode countdown_mode_t.COUNTDOWN_MODE_DISCONTINUOUS s
  let hw ← sensor_loop s.state.sensors (fun sensor hw => gpio_enable_event_detection sensor.echo hw)
    s.state.n_sensors.toNat 0 s.hw
  start_trigger { s with hw := hw }

/-- `sonic_off`. -/
def sonic_off (s : System) : Except Fault System := do
  let s := { s with countdown := countdown_disable_interrupts (countdown_disable s.countdown),
                    cd_state := countdown_set_handler none s.cd_state }
  let hw ← sensor_loop s.state.sensors
    (fun sensor hw => gpio_disable_event_detection sensor.echo hw)
    s.state.n_sensors.toNat 0 s.hw
  pure { s with hw := hw, state := { s.state with is_active := false } }

/-- `sonic_is_active`. -/
def sonic_is_active (st : sonic_config) : Bool := st.is_active

/-- `sonic_read_async`: the dequeued array reading (`none` is `return false`)
and the module state afterwards. -/
def sonic_read_async (st : sonic_config) : Option (List (Option sonic_data_t)) × sonic_config :=
  let r := sonic_rb_dequeue st.arr_readings
  (r.1, { st with arr_readings := r.2 })

/-- The loop `while (sonic_read_async(&to_free)) free(to_free);` of
`sonic_deinit`, for at most `fuel` iterations. -/
def free_readings : Nat → sonic_config → Except Fault sonic_config
  | 0, _ => Except.error Fault.out_of_fuel
  | fuel + 1, st =>
    match sonic_read_async st with
    | (none, st) => Except.ok st
    | (some _, st) => free_readings fuel st

/-- `sonic_deinit`.  The freed arrays and the freed buffer are left as
not allocated; no other field is written. -/
def sonic_deinit (fuel : Nat) (s : System) : Except Fault System := do
  let s ← sonic_off s
  let st := { s.state with sensors := [], curr_data := [] }
  let st ← free_readings fuel st
  pure { s with state := { st with arr_readings := { capacity := 0, queue := [] } } }

/-! ## `motor.c` -/

/-- The record `motor_t` of `motor.h`. -/
structure motor_t where
  id : Int
  step_pin : Int
  dir_pin : Int
  direction : Int
  deriving DecidableEq, Repr

/-- The value `CW`. -/
def CW : Int := 1

/-- The value `CCW`. -/
def CCW : Int := 0

/-- `motor_init`. -/
def motor_init (motor : motor_t) (hw : Hardware) : Hardware :=
  gpio_set_output (unsigned_of_int motor.dir_pin)
    (gpio_set_output (unsigned_of_int motor.step_pin) hw)

/-- Division of two `int` values, rounding toward zero. -/
def cdiv (a b : Int) : Except Fault Int :=
  if b = 0 then Except.error Fault.div_by_zero else Except.ok (Int.tdiv a b)

/-- The first loop of `motor_turn_multiple` (lines 17-19), from index `i`
with `remaining` iterations to go. -/
def write_directions (motors : List motor_t) : Nat → Nat → Hardware → Except Fault Hardware
  | 0, _, hw => Except.ok hw
  | remaining + 1, i, hw =>
    match aget motors (i : Int) with
    | Except.error e => Except.error e
    | Except.ok motor =>
      write_directions motors remaining (i + 1)
        (gpio_write (unsigned_of_int motor.dir_pin) (unsigned_of_int motor.direction) hw)

/-- The value given to `skips[i]` on lines 30-33 of `motor_turn_multiple`. -/
def skip_of (steps_i max_steps : Int) : Except Fault Int :=
  if steps_i < max_steps then
    if steps_i * 2 > max_steps then do
      let q ← cdiv steps_i (max_steps - steps_i)
      pure (q + 1)
    else do
      let q ← cdiv (max_steps - steps_i) steps_i
      pure (-(q + 1))
  else pure (max_steps + 1)

/-- The test on line 38 of `motor_turn_multiple` for iteration `i` of the
outer loop.  The remainder is taken only when the divisor is positive. -/
def fires (skip : Int) (i : Nat) : Bool :=
  (decide (skip < 0) && decide (Int.tmod ((i : Int) + 1) (-skip) = 0)) ||
  (decide (skip > 0) && decide (Int.tmod ((i : Int) + 1) skip ≠ 0))

/-- One step pulse (lines 39-42 of `motor_turn_multiple`). -/
def step_pulse (motor : motor_t) (cycle_time_us : Int) (hw : Hardware) : Hardware :=
  timer_delay_us (unsigned_of_int cycle_time_us)
    (gpio_write (unsigned_of_int motor.step_pin) 0
      (timer_delay_us (unsigned_of_int cycle_time_us)
        (gpio_write (unsigned_of_int motor.step_pin) 1 hw)))

/-- The inner loop of `motor_turn_multiple` (lines 37-44) in iteration `i` of
the outer one, from motor `j` with `remaining` motors to go. -/
def pulse_motors (motors : List motor_t) (skips : List Int) (cycle_time_us : Int) (i : Nat) :
    Nat → Nat → Hardware → Except Fault Hardware
  | 0, _, hw => Except.ok hw
  | remaining + 1, j, hw =>
    match aget skips (j : Int) with
    | Except.error e => Except.error e
    | Except.ok skip =>
      if fires skip i then
        match aget motors (j : Int) with
        | Except.error e => Except.error e
        | Except.ok motor =>
          pulse_motors motors skips cycle_time_us i remaining (j + 1)
            (step_pulse motor cycle_time_us hw)
      else pulse_motors motors skips cycle_time_us i remaining (j + 1) hw

/-- The outer loop of `motor_turn_multiple` (lines 36-45), from iteration `i`
with `remaining` iterations to go. -/
def pulse_steps (motors : List motor_t) (skips : List Int) (cycle_time_us : Int) :
    Nat → Nat → Hardware → Except Fault Hardware
  | 0, _, hw => Except.ok hw
  | remaining + 1, i, hw =>
    match pulse_motors motors skips cycle_time_us i 4 0 hw with
    | Except.error e => Except.error e
    | Except.ok hw => pulse_steps motors skips cycle_time_us remaining (i + 1) hw

section motor

variable {α : Type} [LinearOrderedField α] [FloorRing α]

/-- The value `STEP_ANGLE`, 1.8 degrees. -/
def STEP_ANGLE : α := 18 / 10

/-- The conversion `(int) x` of a float: rounding toward zero. -/
def int_of_float (x : α) : Int := if 0 ≤ x then ⌊x⌋ else ⌈x⌉

/-- The array `steps` of `motor_turn_multiple` (lines 20-23). -/
def motor_steps (speeds_rpms : List α) (time_ms : α) : Except Fault (List Int) :=
  for_collect (fun i => do
    let speed ← aget speeds_rpms (i : Int)
    pure (int_of_float (speed * time_ms * 360 / STEP_ANGLE))) 4

/-- The value of `max_steps` after the loop on lines 24-27. -/
def max_of_steps (steps : List Int) : Except Fault Int := do
  let steps0 ← aget steps 0
  pure (steps.foldl (fun max_steps s => if s > max_steps then s else max_steps) steps0)

/-- `motor_turn_multiple`. -/
def motor_turn_multiple (motors : List motor_t) (speeds_rpms : List α) (time_ms : α)
    (hw : Hardware) : Except Fault Hardware := do
  let hw ← write_directions motors 4 0 hw
  let steps ← motor_steps speeds_rpms time_ms
  let max_steps ← max_of_steps steps
  let skips ← for_collect (fun i => do
    let s ← aget steps (i : Int)
    skip_of s max_steps) 4
  let q ← fdiv (time_ms * 1000) (max_steps : α)
  let cycle_time_us := int_of_float (q / 2)
  pulse_steps motors skips cycle_time_us max_steps.toNat 0 hw

end motor

/-! ## `hoop.c` -/

/-- The record `motor_init_t` of `hoop.h`. -/
structure motor_init_t where
  step_pin : Nat
  dir_pin : Nat
  deriving DecidableEq, Repr

/-- The statics of `hoop.c`: the array `motors` and the current hoop
position `cur`. -/
structure hoop_state (α : Type) where
  motors : List motor_t
  cur : board_pos_t α

/-- The value `N_MOTORS`. -/
def N_MOTORS : Nat := 4

/-- The value `X1`. -/
def X1 : Int := -560

/-- The value `Y1`. -/
def Y1 : Int := 550

/-- The value `X2`. -/
def X2 : Int := 560

/-- The value `Y2`. -/
def Y2 : Int := 550

/-- The value `X3`. -/
def X3 : Int := -560

/-- The value `Y3`. -/
def Y3 : Int := -550

/-- The value `X4`. -/
def X4 : Int := 560

/-- The value `Y4`. -/
def Y4 : Int := -550

/-- The value `NUM_STEPS`. -/
def NUM_STEPS : Nat := 20

/-- The value `HOOP_BOUND_WIDTH` of `hoop.h`. -/
def HOOP_BOUND_WIDTH : Int := 100

/-- The value `HOOP_BOUND_HEIGHT` of `hoop.h`. -/
def HOOP_BOUND_HEIGHT : Int := 100

/-- The loop of `hoop_init`, from index `i` with `remaining` iterations to
go. -/
def hoop_init_loop (motors_init : List motor_init_t) :
    Nat → Nat → List motor_t → Hardware → Except Fault (List motor_t × Hardware)
  | 0, _, motors, hw => Except.ok (motors, hw)
  | remaining + 1, i, motors, hw =>
    match aget motors_init (i : Int), aget motors (i : Int) with
    | Except.ok init, Except.ok old =>
      let motor : motor_t :=
        { old with id := (i : Int), step_pin := int_of_unsigned init.step_pin,
                   dir_pin := int_of_unsigned init.dir_pin }
      match aset motors (i : Int) motor with
      | Except.error e => Except.error e
      | Except.ok motors =>
        hoop_init_loop motors_init remaining (i + 1) motors (motor_init motor hw)
    | Except.error e, _ => Except.error e
    | _, Except.error e => Except.error e

/-- The motor table as `hoop_init` leaves it, whatever the pins and
directions: the entry at index `i` has id `i`, for the four motors. -/
def motors_in_order (motors : List motor_t) : Prop :=
  ∀ i : Nat, i < 4 → ∃ motor, aget motors (i : Int) = Except.ok motor ∧ motor.id = (i : Int)

section hoop

variable {α : Type} [LinearOrderedField α]

/-- The value `MOTOR_DIAMETER`. -/
def MOTOR_DIAMETER : α := 23

/-- The value `PI`, 3.1415. -/
def PI : α := 31415 / 10000

/-- The value `MAX_SPEED`, 0.0016. -/
def MAX_SPEED : α := 16 / 10000

/-- The statics of `hoop.c` before `hoop_init`: every field zero. -/
def hoop_initial : hoop_state α :=
  { motors := List.replicate 4 { id := 0, step_pin := 0, dir_pin := 0, direction := 0 },
    cur := { x := 0, y := 0 } }

/-- `hoop_init`. -/
def hoop_init (motors_init : List motor_init_t) (s : hoop_state α) (hw : Hardware) :
    Except Fault (hoop_state α × Hardware) :=
  match hoop_init_loop motors_init N_MOTORS 0 s.motors hw with
  | Except.error e => Except.error e
  | Except.ok (motors, hw) =>
    Except.ok ({ motors := motors, cur := { x := 0, y := (Y3 : α) } }, hw)

/-- The `switch` of `get_delta` (lines 54-65): the offset of the motor with
the given `id` from the origin. -/
def motor_offset (id : Int) : α × α :=
  if id = 0 then ((X1 : α), (Y1 : α))
  else if id = 1 then ((X2 : α), (Y2 : α))
  else if id = 2 then ((X3 : α), (Y3 : α))
  else if id = 3 then ((X4 : α), (Y4 : α))
  else (0, 0)

/-- `get_delta`: the returned length and the statics afterwards (it writes
`motors[motor.id].direction`). -/
def get_delta (sqrt : α → α) (s : hoop_state α) (motor : motor_t) (x1 y1 x2 y2 : α) :
    Except Fault (α × hoop_state α) := do
  let mx := (motor_offset motor.id : α × α).1
  let my := (motor_offset motor.id : α × α).2
  let z1 := sqrt ((x1 - mx) * (x1 - mx) + (y1 - my) * (y1 - my))
  let z2 := sqrt ((x2 - mx) * (x2 - mx) + (y2 - my) * (y2 - my))
  let delta := z2 - z1
  let direction :=
    if (delta < 0 ∧ Int.tmod motor.id 2 = 0) ∨ (delta ≥ 0 ∧ Int.tmod motor.id 2 = 1) then CCW
    else CW
  let old ← aget s.motors motor.id
  let motors ← aset s.motors motor.id { old with direction := direction }
  pure (if delta < 0 then -delta else delta, { s with motors := motors })

/-- The length that `get_delta` returns for the motor with the given `id`
(lines 54-68 and 74-75): the absolute change of its distance to the hoop. -/
def delta_value (sqrt : α → α) (id : Int) (x1 y1 x2 y2 : α) : α :=
  let mx := (motor_offset id : α × α).1
  let my := (motor_offset id : α × α).2
  let z1 := sqrt ((x1 - mx) * (x1 - mx) + (y1 - my) * (y1 - my))
  let z2 := sqrt ((x2 - mx) * (x2 - mx) + (y2 - my) * (y2 - my))
  if z2 - z1 < 0 then -(z2 - z1) else z2 - z1

/-- The loops `deltas[i] = get_delta(motors[i], ...)` of `get_time` and
`hoop_move`, from index `i` with `remaining` iterations to go. -/
def get_deltas (sqrt : α → α) (x1 y1 x2 y2 : α) :
    Nat → Nat → hoop_state α → Except Fault (List α × hoop_state α)
  | 0, _, s => Except.ok ([], s)
  | remaining + 1, i, s =>
    match aget s.motors (i : Int) with
    | Except.error e => Except.error e
    | Except.ok motor =>
      match get_delta sqrt s motor x1 y1 x2 y2 with
      | Except.error e => Except.error e
      | Except.ok (delta, s) =>
        match get_deltas sqrt x1 y1 x2 y2 remaining (i + 1) s with
        | Except.error e => Except.error e
        | Except.ok (deltas, s) => Except.ok (delta :: deltas, s)

/-- The `while` loop of `get_time` (lines 90-94), for at most `fuel` tests of
its condition. -/
def get_time_loop (max_delta : α) : Nat → α → Except Fault α
  | 0, _ => Except.error Fault.out_of_fuel
  | fuel + 1, time =>
    match fdiv (max_delta / (MOTOR_DIAMETER * PI)) time with
    | Except.error e => Except.error e
    | Except.ok max_speed =>
      if max_speed > MAX_SPEED then get_time_loop max_delta fuel (time + 100)
      else Except.ok time

/-- The destination after lines 79-80 of `get_time`: each coordinate brought
into the permissible bounds. -/
def constrain (destination : board_pos_t α) : board_pos_t α :=
  { x := cmin (HOOP_BOUND_WIDTH : α) (cmax (-(HOOP_BOUND_WIDTH : α)) destination.x),
    y := cmin (HOOP_BOUND_HEIGHT : α) (cmax (-(HOOP_BOUND_HEIGHT : α)) destination.y) }

/-- `get_time`: the returned time and the statics afterwards.  The parameter
`destination` is a copy of the caller's record; the assignments on lines 79-80
change the copy only. -/
def get_time (fuel : Nat) (sqrt : α → α) (s : hoop_state α) (destination : board_pos_t α) :
    Except Fault (α × hoop_state α) :=
  let destination := constrain destination
  match get_deltas sqrt s.cur.x s.cur.y destination.x destination.y N_MOTORS 0 s with
  | Except.error e => Except.error e
  | Except.ok (deltas, s) =>
    match aget deltas 0 with
    | Except.error e => Except.error e
    | Except.ok deltas0 =>
      let max_delta := deltas.foldl (fun m d => if d > m then d else m) deltas0
      match get_time_loop max_delta fuel 100 with
      | Except.error e => Except.error e
      | Except.ok time => Except.ok (time, s)

end hoop

section hoop_move

variable {α : Type} [LinearOrderedField α] [FloorRing α]

/-- The array `speeds` of `hoop_move` (lines 109-112). -/
def hoop_speeds (deltas : List α) (time_step : α) : Except Fault (List α) :=
  for_collect (fun i => do
    let delta ← aget deltas (i : Int)
    fdiv (delta / (MOTOR_DIAMETER * PI)) time_step) N_MOTORS

/-- The outer loop of `hoop_move` (lines 104-118) with `remaining` iterations
to go. -/
def hoop_move_loop (sqrt : α → α) (time_step x_step y_step : α) :
    Nat → α → α → hoop_state α → Hardware → Except Fault (hoop_state α × Hardware)
  | 0, _, _, s, hw => Except.ok (s, hw)
  | remaining + 1, new_x, new_y, s, hw =>
    match get_deltas sqrt s.cur.x s.cur.y new_x new_y N_MOTORS 0 s with
    | Except.error e => Except.error e
    | Except.ok (deltas, s) =>
      match hoop_speeds deltas time_step with
      | Except.error e => Except.error e
      | Except.ok speeds =>
        match motor_turn_multiple s.motors speeds time_step hw with
        | Except.error e => Except.error e
        | Except.ok hw =>
          hoop_move_loop sqrt time_step x_step y_step remaining (new_x + x_step)
            (new_y + y_step) { s with cur := { x := new_x, y := new_y } } hw

/-- `hoop_move`: the statics and the hardware afterwards. -/
def hoop_move (fuel : Nat) (sqrt : α → α) (s : hoop_state α) (destination : board_pos_t α)
    (hw : Hardware) : Except Fault (hoop_state α × Hardware) :=
  match get_time fuel sqrt s destination with
  | Except.error e => Except.error e
  | Except.ok (time, s) =>
    let time_step := time / (NUM_STEPS : α)
    let x_step := (destination.x - s.cur.x) / (NUM_STEPS : α)
    let y_step := (destination.y - s.cur.y) / (NUM_STEPS : α)
    hoop_move_loop sqrt time_step x_step y_step NUM_STEPS (s.cur.x + x_step)
      (s.cur.y + y_step) s hw

end hoop_move

/-! ## `sonic.c`: the echo handler and sequences of events -/

/-- `process_echo`, the handler of the echo pins: the returned `bool` and the
system afterwards. -/
def process_echo (s : System) : Except Fault (Bool × System) :=
  if !s.state.is_active then Except.ok (false, s)
  else if !s.state.awaiting_echo then do
    let hw ← sensor_loop s.state.sensors (fun sensor hw => gpio_clear_event sensor.echo hw)
      s.state.n_sensors.toNat 0 s.hw
    pure (true, { s with hw := hw })
  else do
    let t := timer_get_ticks s.hw
    let echo_timestamp := t.1
    let elapsed := usub echo_timestamp s.state.curr_trigger_timestamp
    let curr_data ← aset s.state.curr_data s.state.curr_sensor
      (some { distance := distance_of_elapsed elapsed,
              timestamp := int_of_unsigned (s.state.curr_trigger_timestamp + elapsed / 2) })
    let sensor ← aget s.state.sensors s.state.curr_sensor
    pure (true, next_sensor
      { s with hw := gpio_clear_event sensor.echo t.2,
               state := { s.state with curr_data := curr_data, awaiting_echo := false } })

/-- What can happen to the module once it is set up: one of the four
handlers runs, a setter is called, or ranging is turned off or on. -/
inductive sonic_event where
  | start_trigger
  | finish_trigger
  | timeout
  | process_echo
  | sonic_set_unit_delay (micros : Nat)
  | sonic_set_cycle_delay (micros : Nat)
  | sonic_set_timeout (micros : Nat)
  | sonic_off
  | sonic_on
  deriving DecidableEq, Repr

/-- The system after one event. -/
def apply_event (s : System) : sonic_event → Except Fault System
  | sonic_event.start_trigger => start_trigger s
  | sonic_event.finish_trigger => finish_trigger s
  | sonic_event.timeout => timeout s
  | sonic_event.process_echo =>
    match process_echo s with
    | Except.error e => Except.error e
    | Except.ok (_, s) => Except.ok s
  | sonic_event.sonic_set_unit_delay micros =>
    Except.ok { s with state := sonic_set_unit_delay micros s.state }
  | sonic_event.sonic_set_cycle_delay micros =>
    Except.ok { s with state := sonic_set_cycle_delay micros s.state }
  | sonic_event.sonic_set_timeout micros =>
    Except.ok { s with state := sonic_set_timeout micros s.state }
  | sonic_event.sonic_off => sonic_off s
  | sonic_event.sonic_on => sonic_on s

/-- The system after a sequence of events, first to last. -/
def run_events : List sonic_event → System → Except Fault System
  | [], s => Except.ok s
  | event :: rest, s =>
    match apply_event s event with
    | Except.error e => Except.error e
    | Except.ok s => run_events rest s

/-! ## Counting step pulses -/

/-- The number of step pulses a pin has received: the calls
`gpio_write(pin, 1)` in the call log. -/
def step_pulses (pin : Nat) (hw : Hardware) : Nat :=
  (hw.log.filter (fun e => decide (e = IOEvent.gpio_write pin 1))).length

/-! ## `object_vector.c`: 3D position module in the arithmetic of the C type `float` -/

section float_geometry

variable {α : Type} [LinearOrderedField α]

/-- `xy_sphere_intersect`, with the result of each `float` operation passed
through the rounding `fl`; `sqrt` returns a `float`. -/
def xy_sphere_intersect_float (fl : α → α) (sqrt : α → α)
    (r_offzero r_onzero centers_dist : α) : circle_t α :=
  if fl (r_onzero + r_offzero) ≥ centers_dist then
    let displacement :=
      fl (fl (fl (fl (centers_dist * centers_dist) - fl (r_offzero * r_offzero)) +
        fl (r_onzero * r_onzero)) / fl (2 * centers_dist))
    let radius := sqrt (fl (fl (r_onzero * r_onzero) - fl (displacement * displacement)))
    if radius < 0 then { displacement := 0, radius := -1 }
    else { displacement := displacement, radius := radius }
  else
    { displacement := fl (fl (fl (centers_dist - r_offzero) + r_onzero) / 2), radius := 0 }

/-- `sphere_circle_hit`, with each `float` operation rounded by `fl`. -/
def sphere_circle_hit_float (fl : α → α)
    (r_sphere r_circle offset_perpedic offset_parallel : α) : Bool :=
  if cabs offset_perpedic > r_sphere then false
  else
    let parallel_dist := cabs offset_parallel
    decide (fl (parallel_dist - r_circle) < r_sphere) &&
      decide (fl (parallel_dist + r_circle) > r_sphere)

/-- `z_circle_sphere_intersect`, with each `float` operation rounded by `fl`. -/
def z_circle_sphere_intersect_float (fl : α → α) (sqrt : α → α)
    (r_sphere r_circle offset_perpendic offset_parallel : α) : α :=
  let r_circ_intersec := fl (r_sphere - offset_perpendic)
  let intersec_dist_xyplane :=
    fl (fl (fl (fl (offset_parallel * offset_parallel) - fl (r_circ_intersec * r_circ_intersec)) +
      fl (r_circle * r_circle)) / fl (2 * offset_parallel))
  let z := sqrt (fl (fl (r_circle * r_circle) -
    fl (intersec_dist_xyplane * intersec_dist_xyplane)))
  if z < 0 then NO_INTERSECTION else z

/-- The `y` stage of `pos_from_dists` (lines 156-160) in `float` arithmetic. -/
def pos_y_float (fl : α → α) (left right : circle_t α) : Option α :=
  if left.radius ≠ NO_INTERSECTION ∧ right.radius ≠ NO_INTERSECTION then
    some (fl (fl (left.displacement + right.displacement) / 2))
  else if left.radius ≠ NO_INTERSECTION then some left.displacement
  else if right.radius ≠ NO_INTERSECTION then some right.displacement
  else none

/-- The `x` stage of `pos_from_dists` (lines 162-166) in `float` arithmetic. -/
def pos_x_float (fl : α → α) (top bottom : circle_t α) : Option α :=
  if top.radius ≠ NO_INTERSECTION ∧ bottom.radius ≠ NO_INTERSECTION then
    some (fl (fl (top.displacement + bottom.displacement) / 2))
  else if top.radius ≠ NO_INTERSECTION then some top.displacement
  else if bottom.radius ≠ NO_INTERSECTION then some bottom.displacement
  else none

/-- The fallback of `pos_from_dists` (lines 222-227) with `MAX_SENSE_DEPTH`
converted to `float`. -/
def z_guess_float (fl : α → α) (left right top bottom : circle_t α) : α :=
  let g0 : α := fl (MAX_SENSE_DEPTH : α)
  let g1 := if left.radius ≠ NO_INTERSECTION then cmin left.radius g0 else g0
  let g2 := if right.radius ≠ NO_INTERSECTION then cmin right.radius g1 else g1
  let g3 := if top.radius ≠ NO_INTERSECTION then cmin top.radius g2 else g2
  if bottom.radius ≠ NO_INTERSECTION then cmin bottom.radius g3 else g3

/-- The `z` stage of `pos_from_dists` (lines 179-229) in `float` arithmetic.
The offsets `RECT_HEIGHT / 2` and `RECT_WIDTH / 2` are `int` divisions whose
result is converted to `float`. -/
def pos_z_float (fl : α → α) (sqrt : α → α) (dTL dTR dBR dBL : α)
    (left right top bottom : circle_t α) : α :=
  let half_h : α := fl ((RECT_HEIGHT / 2 : Int) : α)
  let half_w : α := fl ((RECT_WIDTH / 2 : Int) : α)
  let w : α := fl (RECT_WIDTH : α)
  let h : α := fl (RECT_HEIGHT : α)
  let hit1 := sphere_circle_hit_float fl dTL right.radius half_h w
  let z1 := if hit1 then z_circle_sphere_intersect_float fl sqrt dTL right.radius half_h w
            else NO_INTERSECTION
  let height2 := z_circle_sphere_intersect_float fl sqrt dTR bottom.radius half_w h
  let height3 := z_circle_sphere_intersect_float fl sqrt dBR left.radius half_h w
  let height4 := z_circle_sphere_intersect_float fl sqrt dBL top.radius half_w h
  if sphere_circle_hit_float fl dTR bottom.radius half_w h then
    if hit1 then fl (fl (z1 + height2) / 2)
    else if sphere_circle_hit_float fl dBR left.radius half_h w then fl (fl (height2 + height3) / 2)
    else if sphere_circle_hit_float fl dBL top.radius half_w h then fl (fl (height2 + height4) / 2)
    else height2
  else if sphere_circle_hit_float fl dBR left.radius half_h w then
    if hit1 then fl (fl (z1 + height3) / 2)
    else if sphere_circle_hit_float fl dBL top.radius half_w h then fl (fl (height3 + height4) / 2)
    else height3
  else if sphere_circle_hit_float fl dBL top.radius half_w h then
    if hit1 then fl (fl (z1 + height4) / 2)
    else height4
  else if hit1 then z1
  else z_guess_float fl left right top bottom

/-- `pos_from_dists` in `float` arithmetic: each `int` distance and each `int`
constant is converted to `float` where it is passed as one, and the result of
each `float` operation is rounded by `fl`.  With `fl` the identity this is
`pos_from_dists`. -/
def pos_from_dists_float (fl : α → α) (sqrt : α → α) (dists : Fin 4 → sonic_data_t) :
    Bool × vec_3d_t α :=
  let dTL : α := fl ((dists SENSOR_TOP_LEFT).distance : α)
  let dTR : α := fl ((dists SENSOR_TOP_RIGHT).distance : α)
  let dBR : α := fl ((dists SENSOR_BOTTOM_RIGHT).distance : α)
  let dBL : α := fl ((dists SENSOR_BOTTOM_LEFT).distance : α)
  let left := xy_sphere_intersect_float fl sqrt dTL dBL (fl (RECT_HEIGHT : α))
  let right := xy_sphere_intersect_float fl sqrt dTR dBR (fl (RECT_HEIGHT : α))
  let top := xy_sphere_intersect_float fl sqrt dTR dTL (fl (RECT_WIDTH : α))
  let bottom := xy_sphere_intersect_float fl sqrt dBR dBL (fl (RECT_WIDTH : α))
  match pos_y_float fl left right with
  | none => (false, { x := NO_INTERSECTION, y := NO_INTERSECTION, z := NO_INTERSECTION })
  | some y =>
    match pos_x_float fl top bottom with
    | none => (false, { x := NO_INTERSECTION, y := y, z := NO_INTERSECTION })
    | some x =>
      (true, { x := x, y := y,
               z := pos_z_float fl sqrt dTL dTR dBR dBL left right top bottom })

end float_geometry

/-! ## The tick source as a run saw it -/

/-- The values that the calls of `timer_get_ticks` recorded in a call log
returned, in call order. -/
def ticks_read (log : List IOEvent) : List Nat :=
  log.filterMap (fun e =>
    match e with
    | IOEvent.timer_get_ticks val => some val
    | _ => none)

/-- The tick source was monotonic and did not wrap while the hardware went
from `hw` to `hw'`: of the calls of `timer_get_ticks` logged in between, none
returned less than an earlier one. -/
def ticks_monotonic_between (hw hw' : Hardware) : Prop :=
  (ticks_read (hw'.log.drop hw.log.length)).Pairwise (fun a b => a ≤ b)

/-! ## Example inputs -/

/-- Hardware whose successive reads return `answers` (and `0` afterwards). -/
def example_hardware (answers : List Nat) : Hardware :=
  { input := fun k => answers.getD k 0, cursor := 0, log := [] }

/-- A module state as `sonic_init` leaves it for the given sensors, ranging
off. -/
def example_config (sensors : List sonic_sensor_t) : sonic_config :=
  { sensors := sensors,
    n_sensors := (sensors.length : Int),
    arr_readings := { capacity := 4, queue := [] },
    curr_data := sensors.map (fun _ => none),
    curr_sensor := 0,
    curr_trigger_timestamp := 0,
    awaiting_echo := false,
    is_active := false,
    handler_attached := true,
    cycle_delay := 0,
    unit_delay := SONIC_MIN_DELAY,
    timeout := 17492 }

/-- The four sensors of `main.c`: top left, top right, bottom right, bottom
left. -/
def main_sensors : List sonic_sensor_t :=
  [{ trigger := 24, echo := 23 }, { trigger := 27, echo := 17 },
   { trigger := 19, echo := 13 }, { trigger := 1, echo := 7 }]

/-- The answers of the hardware to one synchronous measurement that is
triggered at tick `start` and whose echo pulse ends `elapsed` ticks later: the
start tick, echo high, echo low, the end tick, and the tick of the timeout
check. -/
def echo_answers (start elapsed : Nat) : List Nat :=
  [start, 1, 0, start + elapsed, start + elapsed + 1]

/-- The answers to one pass over four sensors triggered from tick `start` on,
2000 ticks apart, each echo pulse ending after `elapsed` ticks. -/
def cycle_answers (start elapsed : Nat) : List Nat :=
  echo_answers start elapsed ++ echo_answers (start + 2000) elapsed ++
  echo_answers (start + 4000) elapsed ++ echo_answers (start + 6000) elapsed

/-- A system around a module state, with the countdown timer as
`countdown_init` leaves it in discontinuous mode. -/
def example_system (st : sonic_config) (answers : List Nat) : System :=
  { state := st,
    cd_state := { is_discontinuous := true, handler := none },
    countdown := { load := 4294967295, value := 4294967295, timer_is_32_bit := true,
                   enable_timer_interrupt := true, enable_timer := false, clear_event := 0,
                   overflow := 0, irq := 0, reload := 4294967295, prescale := 249 },
    hw := example_hardware answers }

/-- A system in which no function of `sonic.c` or `countdown.c` has run yet:
the static module states are zero. -/
def fresh_system (answers : List Nat) : System :=
  { state := initial_state,
    cd_state := { is_discontinuous := false, handler := none },
    countdown := { load := 0, value := 0, timer_is_32_bit := false,
                   enable_timer_interrupt := false, enable_timer := false, clear_event := 0,
                   overflow := 0, irq := 0, reload := 0, prescale := 0 },
    hw := example_hardware answers }

/-- The motor pins of `main.c`: top left, top right, bottom left, bottom
right. -/
def main_motors : List motor_init_t :=
  [{ step_pin := 2, dir_pin := 3 }, { step_pin := 10, dir_pin := 9 },
   { step_pin := 25, dir_pin := 8 }, { step_pin := 5, dir_pin := 6 }]

/-- The statics of `hoop.c` as `hoop_init` leaves them for the pins of
`main.c`: the hoop at the centre bottom `(0, -550)`. -/
def example_hoop : hoop_state ℚ :=
  { motors := [{ id := 0, step_pin := 2, dir_pin := 3, direction := 0 },
               { id := 1, step_pin := 10, dir_pin := 9, direction := 0 },
               { id := 2, step_pin := 25, dir_pin := 8, direction := 0 },
               { id := 3, step_pin := 5, dir_pin := 6, direction := 0 }],
    cur := { x := 0, y := -550 } }

/-- Four sensors with ranging active, the sensor `curr_sensor` just
completed, and a buffer of capacity 1 that already holds one cycle. -/
def cycle_end_config (curr_sensor : Int) (cycle_delay unit_delay : Nat) : sonic_config :=
  { example_config main_sensors with
    is_active := true,
    curr_sensor := curr_sensor,
    arr_readings :=
      { capacity := 1,
        queue := [[some { distance := 100, timestamp := 1 },
                   some { distance := 100, timestamp := 2 },
                   some { distance := 100, timestamp := 3 },
                   some { distance := 100, timestamp := 4 }]] },
    curr_data := [some { distance := 200, timestamp := 11 },
                  some { distance := 200, timestamp := 12 },
                  some { distance := 200, timestamp := 13 },
                  some { distance := 200, timestamp := 14 }],
    cycle_delay := cycle_delay,
    unit_delay := unit_delay }

/-- Four sensors, with sensor `curr_sensor` triggered at tick 1000 and its
echo awaited; ranging on or off. -/
def awaiting_config (active : Bool) (curr_sensor : Int) : sonic_config :=
  { example_config main_sensors with
    is_active := active,
    awaiting_echo := true,
    curr_sensor := curr_sensor,
    curr_trigger_timestamp := 1000,
    curr_data := [some { distance := 200, timestamp := 11 },
                  some { distance := 200, timestamp := 12 },
                  some { distance := 200, timestamp := 13 },
                  some { distance := 200, timestamp := 14 }] }

/-- A burst of seven array readings whose first cycle has no position (top
sensors at 2000 mm, bottom sensors at 100 mm) and whose other six cycles have
all four distances 100 mm; the cycles are 10000 ticks apart. -/
def dropped_cycle_burst : List (List sonic_data_t) :=
  [[⟨2000, 1292⟩, ⟨2000, 3292⟩, ⟨100, 5292⟩, ⟨100, 7292⟩],
   [⟨100, 11292⟩, ⟨100, 13292⟩, ⟨100, 15292⟩, ⟨100, 17292⟩],
   [⟨100, 21292⟩, ⟨100, 23292⟩, ⟨100, 25292⟩, ⟨100, 27292⟩],
   [⟨100, 31292⟩, ⟨100, 33292⟩, ⟨100, 35292⟩, ⟨100, 37292⟩],
   [⟨100, 41292⟩, ⟨100, 43292⟩, ⟨100, 45292⟩, ⟨100, 47292⟩],
   [⟨100, 51292⟩, ⟨100, 53292⟩, ⟨100, 55292⟩, ⟨100, 57292⟩],
   [⟨100, 61292⟩, ⟨100, 63292⟩, ⟨100, 65292⟩, ⟨100, 67292⟩]]

/-- The sensor-index invariant for a module set up with `n` sensors: the
sensor table and the array of in-progress readings have `n` entries and
`0 <= curr_sensor < n`. -/
def index_in_range (n : Int) (s : System) : Prop :=
  s.state.n_sensors = n ∧ s.state.sensors.length = n.toNat ∧
  s.state.curr_data.length = n.toNat ∧
  0 ≤ s.state.curr_sensor ∧ s.state.curr_sensor < n

/-! # Properties -/

section triangulation

variable {α : Type} [LinearOrderedField α]

theorem quad_top_left (d0 d1 d2 d3 : sonic_data_t) : quad d0 d1 d2 d3 SENSOR_TOP_LEFT = d0 := rfl

theorem quad_top_right (d0 d1 d2 d3 : sonic_data_t) : quad d0 d1 d2 d3 SENSOR_TOP_RIGHT = d1 := rfl

theorem quad_bottom_right (d0 d1 d2 d3 : sonic_data_t) :
    quad d0 d1 d2 d3 SENSOR_BOTTOM_RIGHT = d2 := rfl

theorem quad_bottom_left (d0 d1 d2 d3 : sonic_data_t) :
    quad d0 d1 d2 d3 SENSOR_BOTTOM_LEFT = d3 := rfl

/-- When the spheres are large enough to meet and the radicand is not
negative, `xy_sphere_intersect` yields the textbook circle. -/
theorem xy_sphere_intersect_valid (sqrt : α → α) (hsqrt : ∀ d : α, 0 ≤ d → 0 ≤ sqrt d)
    (r_off r_on c : α) (hmeet : c ≤ r_on + r_off)
    (hrad : 0 ≤ square r_on - square ((square c - square r_off + square r_on) / (2 * c))) :
    xy_sphere_intersect sqrt r_off r_on c =
      { displacement := (square c - square r_off + square r_on) / (2 * c),
        radius := sqrt (square r_on - square ((square c - square r_off + square r_on) / (2 * c))) } := by
  unfold xy_sphere_intersect
  have h := hsqrt _ hrad
  simp only [ge_iff_le, hmeet, if_true, not_lt.mpr h, if_false]

/-- The circle of two spheres through a common point `(u, _)`, `u` measured
from the on-axis centre along the line of centres and `w` the squared distance
from that line. -/
theorem xy_sphere_intersect_true_point (sqrt : α → α) (hsqrt : ∀ d : α, 0 ≤ d → 0 ≤ sqrt d)
    (r_off r_on c u w : α) (hc : 0 < c) (hw : 0 ≤ w) (hon : 0 ≤ r_on) (hoff : 0 ≤ r_off)
    (e_on : r_on ^ 2 = u ^ 2 + w) (e_off : r_off ^ 2 = (u - c) ^ 2 + w) :
    xy_sphere_intersect sqrt r_off r_on c = { displacement := u, radius := sqrt w } := by
  have hdisp : (square c - square r_off + square r_on) / (2 * c) = u := by
    have e1 : r_on * r_on = u ^ 2 + w := by rw [← e_on]; ring
    have e2 : r_off * r_off = (u - c) ^ 2 + w := by rw [← e_off]; ring
    unfold square
    rw [e1, e2]
    field_simp
    ring
  have hmeet : c ≤ r_on + r_off := by
    have h1 : |u| ≤ r_on := abs_le_of_sq_le_sq (by rw [e_on]; linarith) hon
    have h2 : |u - c| ≤ r_off := abs_le_of_sq_le_sq (by rw [e_off]; linarith) hoff
    have h3 := neg_abs_le (u - c)
    have h4 := le_abs_self u
    linarith
  have hradeq : square r_on - square ((square c - square r_off + square r_on) / (2 * c)) = w := by
    rw [hdisp]
    unfold square
    have e1 : r_on * r_on = u ^ 2 + w := by rw [← e_on]; ring
    rw [e1]; ring
  rw [xy_sphere_intersect_valid sqrt hsqrt r_off r_on c hmeet (by rw [hradeq]; exact hw), hradeq, hdisp]

/-- A circle with a non-negative radius is not the sentinel. -/
theorem radius_valid_of_nonneg (r : α) (h : 0 ≤ r) : r ≠ (NO_INTERSECTION : α) := by
  unfold NO_INTERSECTION
  intro e
  rw [e] at h
  linarith

/-- Two valid circles with the same displacement give that displacement. -/
theorem pos_y_of_valid (c1 c2 : circle_t α) (h1 : 0 ≤ c1.radius) (h2 : 0 ≤ c2.radius) :
    pos_y c1 c2 = some ((c1.displacement + c2.displacement) / 2) := by
  unfold pos_y
  rw [if_pos ⟨radius_valid_of_nonneg _ h1, radius_valid_of_nonneg _ h2⟩]

/-- Same as `pos_y_of_valid` for the `x` stage. -/
theorem pos_x_of_valid (c1 c2 : circle_t α) (h1 : 0 ≤ c1.radius) (h2 : 0 ≤ c2.radius) :
    pos_x c1 c2 = some ((c1.displacement + c2.displacement) / 2) := by
  unfold pos_x
  rw [if_pos ⟨radius_valid_of_nonneg _ h1, radius_valid_of_nonneg _ h2⟩]

/-- C1: in the corner-anchored frame of the 1219 x 1219 mm board, exact
Euclidean distances from a point `(x, y, z)` to the four sensors make
`pos_from_dists` succeed with `X = x` and `Y = y`; and the whole-millimetre
distances of the point `(0, 0, 500)` (bottom left 500, top left 1317, bottom
right 1317, top right 1794) give `X = Y = 1743 / 2438`, within 1 mm of 0. -/
theorem pos_from_dists_recovers_planar_position (sqrt : α → α)
    (hsqrt : ∀ d : α, 0 ≤ d → 0 ≤ sqrt d) :
    (∀ (x y z : α) (dists : Fin 4 → sonic_data_t),
      0 ≤ (dists SENSOR_BOTTOM_LEFT).distance →
      0 ≤ (dists SENSOR_TOP_LEFT).distance →
      0 ≤ (dists SENSOR_TOP_RIGHT).distance →
      0 ≤ (dists SENSOR_BOTTOM_RIGHT).distance →
      ((dists SENSOR_BOTTOM_LEFT).distance : α) ^ 2 = x ^ 2 + y ^ 2 + z ^ 2 →
      ((dists SENSOR_TOP_LEFT).distance : α) ^ 2 = x ^ 2 + (y - 1219) ^ 2 + z ^ 2 →
      ((dists SENSOR_TOP_RIGHT).distance : α) ^ 2 = (x - 1219) ^ 2 + (y - 1219) ^ 2 + z ^ 2 →
      ((dists SENSOR_BOTTOM_RIGHT).distance : α) ^ 2 = (x - 1219) ^ 2 + y ^ 2 + z ^ 2 →
      (pos_from_dists sqrt dists).1 = true ∧
        (pos_from_dists sqrt dists).2.x = x ∧ (pos_from_dists sqrt dists).2.y = y) ∧
    (∀ t0 t1 t2 t3 : Int,
      (pos_from_dists sqrt (quad ⟨1317, t0⟩ ⟨1794, t1⟩ ⟨1317, t2⟩ ⟨500, t3⟩)).1 = true ∧
      (pos_from_dists sqrt (quad ⟨1317, t0⟩ ⟨1794, t1⟩ ⟨1317, t2⟩ ⟨500, t3⟩)).2.x = 1743 / 2438 ∧
      (pos_from_dists sqrt (quad ⟨1317, t0⟩ ⟨1794, t1⟩ ⟨1317, t2⟩ ⟨500, t3⟩)).2.y = 1743 / 2438 ∧
      |(pos_from_dists sqrt (quad ⟨1317, t0⟩ ⟨1794, t1⟩ ⟨1317, t2⟩ ⟨500, t3⟩)).2.x - 0| < 1 ∧
      |(pos_from_dists sqrt (quad ⟨1317, t0⟩ ⟨1794, t1⟩ ⟨1317, t2⟩ ⟨500, t3⟩)).2.y - 0| < 1) := by
  constructor
  · intro x y z dists nBL nTL nTR nBR eBL eTL eTR eBR
    have cBL : (0 : α) ≤ ((dists SENSOR_BOTTOM_LEFT).distance : α) := by exact_mod_cast nBL
    have cTL : (0 : α) ≤ ((dists SENSOR_TOP_LEFT).distance : α) := by exact_mod_cast nTL
    have cTR : (0 : α) ≤ ((dists SENSOR_TOP_RIGHT).distance : α) := by exact_mod_cast nTR
    have cBR : (0 : α) ≤ ((dists SENSOR_BOTTOM_RIGHT).distance : α) := by exact_mod_cast nBR
    have hH : ((RECT_HEIGHT : Int) : α) = 1219 := by simp [RECT_HEIGHT]
    have hW : ((RECT_WIDTH : Int) : α) = 1219 := by simp [RECT_WIDTH]
    have hl := xy_sphere_intersect_true_point sqrt hsqrt _ _ (1219 : α) y (x ^ 2 + z ^ 2)
      (by norm_num) (by positivity) cBL cTL (by rw [eBL]; ring) (by rw [eTL]; ring)
    have hr := xy_sphere_intersect_true_point sqrt hsqrt _ _ (1219 : α) y ((x - 1219) ^ 2 + z ^ 2)
      (by norm_num) (by positivity) cBR cTR (by rw [eBR]; ring) (by rw [eTR]; ring)
    have ht := xy_sphere_intersect_true_point sqrt hsqrt _ _ (1219 : α) x ((y - 1219) ^ 2 + z ^ 2)
      (by norm_num) (by positivity) cTL cTR (by rw [eTL]; ring) (by rw [eTR]; ring)
    have hb := xy_sphere_intersect_true_point sqrt hsqrt _ _ (1219 : α) x (y ^ 2 + z ^ 2)
      (by norm_num) (by positivity) cBL cBR (by rw [eBL]; ring) (by rw [eBR]; ring)
    have hy := pos_y_of_valid (⟨y, sqrt (x ^ 2 + z ^ 2)⟩ : circle_t α)
      ⟨y, sqrt ((x - 1219) ^ 2 + z ^ 2)⟩
      (hsqrt _ (by positivity)) (hsqrt _ (by positivity))
    have hx := pos_x_of_valid (⟨x, sqrt ((y - 1219) ^ 2 + z ^ 2)⟩ : circle_t α)
      ⟨x, sqrt (y ^ 2 + z ^ 2)⟩
      (hsqrt _ (by positivity)) (hsqrt _ (by positivity))
    have ey : (y + y) / 2 = y := by ring
    have ex : (x + x) / 2 = x := by ring
    simp only [ey] at hy
    simp only [ex] at hx
    simp only [pos_from_dists, hH, hW, hl, hr, ht, hb, hy, hx, and_self]
  · intro t0 t1 t2 t3
    have hH : ((RECT_HEIGHT : Int) : α) = 1219 := by simp [RECT_HEIGHT]
    have hW : ((RECT_WIDTH : Int) : α) = 1219 := by simp [RECT_WIDTH]
    have hl := xy_sphere_intersect_valid sqrt hsqrt (1317 : α) 500 1219
      (by norm_num) (by unfold square; norm_num)
    have hr := xy_sphere_intersect_valid sqrt hsqrt (1794 : α) 1317 1219
      (by norm_num) (by unfold square; norm_num)
    have ht := xy_sphere_intersect_valid sqrt hsqrt (1794 : α) 1317 1219
      (by norm_num) (by unfold square; norm_num)
    have hb := xy_sphere_intersect_valid sqrt hsqrt (1317 : α) 500 1219
      (by norm_num) (by unfold square; norm_num)
    have nl : (0 : α) ≤ (xy_sphere_intersect sqrt (1317 : α) 500 1219).radius := by
      rw [hl]; exact hsqrt _ (by unfold square; norm_num)
    have nr : (0 : α) ≤ (xy_sphere_intersect sqrt (1794 : α) 1317 1219).radius := by
      rw [hr]; exact hsqrt _ (by unfold square; norm_num)
    have hy := pos_y_of_valid _ _ nl nr
    have hx := pos_x_of_valid _ _ nr nl
    have dl : (xy_sphere_intersect sqrt (1317 : α) 500 1219).displacement = 736 / 1219 := by
      rw [hl]; unfold square; norm_num
    have dr : (xy_sphere_intersect sqrt (1794 : α) 1317 1219).displacement = 1007 / 1219 := by
      rw [hr]; unfold square; norm_num
    rw [dl, dr] at hy hx
    have ey : ((736 : α) / 1219 + 1007 / 1219) / 2 = 1743 / 2438 := by norm_num
    have ex : ((1007 : α) / 1219 + 736 / 1219) / 2 = 1743 / 2438 := by norm_num
    rw [ey] at hy
    rw [ex] at hx
    have hp : pos_from_dists sqrt (quad ⟨1317, t0⟩ ⟨1794, t1⟩ ⟨1317, t2⟩ ⟨500, t3⟩) =
        (true, { x := (1743 : α) / 2438, y := 1743 / 2438,
                 z := pos_z sqrt 1317 1794 1317 500
                   (xy_sphere_intersect sqrt (1317 : α) 500 1219)
                   (xy_sphere_intersect sqrt (1794 : α) 1317 1219)
                   (xy_sphere_intersect sqrt (1794 : α) 1317 1219)
                   (xy_sphere_intersect sqrt (1317 : α) 500 1219) }) := by
      simp only [pos_from_dists, quad_top_left, quad_top_right, quad_bottom_left,
        quad_bottom_right, hH, hW, Int.cast_ofNat, hy, hx]
    rw [hp]
    refine ⟨rfl, rfl, rfl, ?_, ?_⟩ <;>
    · simp only [sub_zero]
      rw [abs_lt]
      constructor <;> norm_num

/-- Witness of C1: the real point `(609.5, 609.5, sqrt 257019.5)` lies at
distance 1000 from each of the four sensors. -/
theorem pos_from_dists_recovers_planar_position_witness :
    (pos_from_dists Real.sqrt (quad ⟨1000, 0⟩ ⟨1000, 0⟩ ⟨1000, 0⟩ ⟨1000, 0⟩)).1 = true ∧
    (pos_from_dists Real.sqrt (quad ⟨1000, 0⟩ ⟨1000, 0⟩ ⟨1000, 0⟩ ⟨1000, 0⟩)).2.x = 1219 / 2 ∧
    (pos_from_dists Real.sqrt (quad ⟨1000, 0⟩ ⟨1000, 0⟩ ⟨1000, 0⟩ ⟨1000, 0⟩)).2.y = 1219 / 2 := by
  have hz : Real.sqrt (5140390 / 20) ^ 2 = 5140390 / 20 := Real.sq_sqrt (by norm_num)
  exact (pos_from_dists_recovers_planar_position Real.sqrt (fun d _ => Real.sqrt_nonneg d)).1
    (1219 / 2) (1219 / 2) (Real.sqrt (5140390 / 20))
    (quad ⟨1000, 0⟩ ⟨1000, 0⟩ ⟨1000, 0⟩ ⟨1000, 0⟩)
    (by decide) (by decide) (by decide) (by decide)
    (by rw [hz, quad_bottom_left]; norm_num)
    (by rw [hz, quad_top_left]; norm_num)
    (by rw [hz, quad_top_right]; norm_num)
    (by rw [hz, quad_bottom_right]; norm_num)

end triangulation

section prediction

variable {α : Type} [LinearOrderedField α]

/-- What `intersec_from_trajec` computes when the discriminant is positive
and `a_z` is not zero. -/
theorem intersec_from_trajec_pos_disc (sqrt : α → α) (k : kinematic_t α)
    (hd : 0 < k.vel.z * k.vel.z - 2 * k.accel.z * k.pos.z) (ha : k.accel.z ≠ 0) :
    intersec_from_trajec sqrt k =
      Except.ok (some
        { x := k.pos.x + k.vel.x *
              cmin (cmax 0 ((-k.vel.z + sqrt (k.vel.z * k.vel.z - 2 * k.accel.z * k.pos.z)) / k.accel.z))
                (cmax 0 ((-k.vel.z - sqrt (k.vel.z * k.vel.z - 2 * k.accel.z * k.pos.z)) / k.accel.z))
              + (1 / 2) * k.accel.x * square
              (cmin (cmax 0 ((-k.vel.z + sqrt (k.vel.z * k.vel.z - 2 * k.accel.z * k.pos.z)) / k.accel.z))
                (cmax 0 ((-k.vel.z - sqrt (k.vel.z * k.vel.z - 2 * k.accel.z * k.pos.z)) / k.accel.z))),
          y := k.pos.y + k.vel.y *
              cmin (cmax 0 ((-k.vel.z + sqrt (k.vel.z * k.vel.z - 2 * k.accel.z * k.pos.z)) / k.accel.z))
                (cmax 0 ((-k.vel.z - sqrt (k.vel.z * k.vel.z - 2 * k.accel.z * k.pos.z)) / k.accel.z))
              + (1 / 2) * k.accel.y * square
              (cmin (cmax 0 ((-k.vel.z + sqrt (k.vel.z * k.vel.z - 2 * k.accel.z * k.pos.z)) / k.accel.z))
                (cmax 0 ((-k.vel.z - sqrt (k.vel.z * k.vel.z - 2 * k.accel.z * k.pos.z)) / k.accel.z))) }) := by
  unfold intersec_from_trajec
  simp only [gt_iff_lt, hd, if_true, fdiv, ha, if_false]
  rfl

/-- C2 (the code at the claim's example): for `z0 = 500`, `v_z = 0`,
`a_z = -10`, whose roots are `-10` and `+10`, `intersec_from_trajec` returns
true with the position extrapolated to time `0`, that is `(x0, y0)`, and not
to time `10`: the past root is clamped to `0` and then wins the minimum. -/
theorem intersec_from_trajec_past_root_wins (sqrt : α → α) (hs : sqrt 10000 = 100)
    (x0 y0 vx vy ax ay : α) :
    intersec_from_trajec sqrt
      { pos := { x := x0, y := y0, z := 500 }, vel := { x := vx, y := vy, z := 0 },
        accel := { x := ax, y := ay, z := -10 } } =
      Except.ok (some { x := x0, y := y0 }) := by
  rw [intersec_from_trajec_pos_disc sqrt _ (by norm_num) (by norm_num)]
  have e : (0 : α) * 0 - 2 * (-10) * 500 = 10000 := by norm_num
  simp only [e, hs]
  norm_num [cmax, cmin, square]

/-- Witness of C2: from `(3, 4, 500)` with
velocity `(1, 2, 0)` the code answers `(3, 4)`; the root `t = 10` would give
`(13, 24)`. -/
theorem intersec_from_trajec_past_root_wins_witness :
    sqrtQ 10000 = 100 ∧
    intersec_from_trajec sqrtQ
      { pos := { x := 3, y := 4, z := 500 }, vel := { x := 1, y := 2, z := 0 },
        accel := { x := 0, y := 0, z := -10 } } =
      Except.ok (some { x := 3, y := 4 }) :=
  ⟨by norm_num [sqrtQ],
   intersec_from_trajec_past_root_wins sqrtQ (by norm_num [sqrtQ]) 3 4 1 2 0 0⟩

/-- C3 (the code at the claim's example): for `z0 = 500`, `v_z = 100`,
`a_z = 5`, whose roots `(-100 ± sqrt 5000) / 5` are both strictly negative,
`intersec_from_trajec` does not return false: both roots are clamped to `0`
and it returns true with the current position `(x0, y0)`. -/
theorem intersec_from_trajec_both_roots_past (sqrt : α → α)
    (hlo : -100 < sqrt 5000) (hhi : sqrt 5000 < 100) (x0 y0 vx vy ax ay : α) :
    intersec_from_trajec sqrt
      { pos := { x := x0, y := y0, z := 500 }, vel := { x := vx, y := vy, z := 100 },
        accel := { x := ax, y := ay, z := 5 } } =
      Except.ok (some { x := x0, y := y0 }) := by
  rw [intersec_from_trajec_pos_disc sqrt _ (by norm_num) (by norm_num)]
  have e : (100 : α) * 100 - 2 * 5 * 500 = 5000 := by norm_num
  simp only [e]
  have h1 : ¬ (0 : α) < (-100 + sqrt 5000) / 5 := by
    rw [not_lt]
    apply div_nonpos_of_nonpos_of_nonneg <;> linarith
  have h2 : ¬ (0 : α) < (-100 - sqrt 5000) / 5 := by
    rw [not_lt]
    apply div_nonpos_of_nonpos_of_nonneg <;> linarith
  have c1 : cmax (0 : α) ((-100 + sqrt 5000) / 5) = 0 := by
    unfold cmax
    rcases lt_or_eq_of_le (not_lt.mp h1) with h | h
    · rw [if_pos h]
    · rw [h]; simp
  have c2 : cmax (0 : α) ((-100 - sqrt 5000) / 5) = 0 := by
    unfold cmax
    rcases lt_or_eq_of_le (not_lt.mp h2) with h | h
    · rw [if_pos h]
    · rw [h]; simp
  rw [c1, c2]
  norm_num [cmin, square]

/-- Witness of C3 with the rational stand-in for `sqrt`, which gives
`sqrt 5000 = 70`. -/
theorem intersec_from_trajec_both_roots_past_witness :
    (-100 < sqrtQ 5000 ∧ sqrtQ 5000 < 100) ∧
    intersec_from_trajec sqrtQ
      { pos := { x := 3, y := 4, z := 500 }, vel := { x := 1, y := 2, z := 100 },
        accel := { x := 0, y := 0, z := 5 } } =
      Except.ok (some { x := 3, y := 4 }) :=
  ⟨⟨by norm_num [sqrtQ], by norm_num [sqrtQ]⟩,
   intersec_from_trajec_both_roots_past sqrtQ (by norm_num [sqrtQ]) (by norm_num [sqrtQ])
     3 4 1 2 0 0⟩

/-- C4 (the code on a zero discriminant): whenever `v_z^2 - 2 a_z z0 = 0`
the test `> 0` fails and `intersec_from_trajec` returns false without taking
any root. -/
theorem intersec_from_trajec_zero_disc (sqrt : α → α) (k : kinematic_t α)
    (hd : k.vel.z * k.vel.z - 2 * k.accel.z * k.pos.z = 0) :
    intersec_from_trajec sqrt k = Except.ok none := by
  unfold intersec_from_trajec
  simp only [hd, gt_iff_lt, lt_self_iff_false, if_false]
  rfl

/-- Witness of C4: the estimate `z0 = 0`, `v_z = 0`, `a_z = 0` of the claim. -/
theorem intersec_from_trajec_zero_disc_witness :
    intersec_from_trajec sqrtQ
      { pos := { x := 3, y := 4, z := 0 }, vel := { x := 1, y := 2, z := 0 },
        accel := { x := 0, y := 0, z := 0 } } = Except.ok none :=
  intersec_from_trajec_zero_disc sqrtQ _ (by norm_num)

/-- C5 (the code at the claim's input): for `z0 = 500`, `v_z = -100`,
`a_z = 0` the discriminant is `10000 > 0` and the root formula divides by
`a_z = 0`; no time `5` is produced. -/
theorem intersec_from_trajec_linear_divides_by_zero (sqrt : α → α) (x0 y0 vx vy : α) :
    intersec_from_trajec sqrt
      { pos := { x := x0, y := y0, z := 500 }, vel := { x := vx, y := vy, z := -100 },
        accel := { x := 0, y := 0, z := 0 } } =
      Except.error Fault.div_by_zero := by
  unfold intersec_from_trajec
  have e : (0 : α) < -100 * -100 - 2 * 0 * 500 := by norm_num
  simp only [gt_iff_lt, e, if_true, fdiv]
  rfl

/-- C6 (the code on a known parabola): the 7 samples at ticks `1000 .. 1006`
of `p(t) = (100 + 10 t, 200 + 5 t, 72 - t - t^2)` (`a_z = -2`; `z` reaches `0`
at `t = 8`, after the middle sample `t = 3`) have the landing point `(180, 240)`.
The fit gives the middle position `(130, 215, 60)`, velocity `(10, 5, -7)` and
`a_z = -1` (half the true value, as each velocity difference is divided by the
two-step time); its roots are `-20` and `6`, and the prediction is `(130, 215)`,
the position at time `0`. -/
theorem parabola_end_to_end_misses_landing_point :
    trajec_from_positions
      [({ x := 100, y := 200, z := 72 } : vec_3d_t ℚ), { x := 110, y := 205, z := 70 },
       { x := 120, y := 210, z := 66 }, { x := 130, y := 215, z := 60 },
       { x := 140, y := 220, z := 52 }, { x := 150, y := 225, z := 42 },
       { x := 160, y := 230, z := 30 }]
      [1000, 1001, 1002, 1003, 1004, 1005, 1006] 7 =
      Except.ok { pos := { x := 130, y := 215, z := 60 }, vel := { x := 10, y := 5, z := -7 },
                  accel := { x := 0, y := 0, z := -1 } } ∧
    intersec_from_trajec sqrtQ
      { pos := { x := 130, y := 215, z := 60 }, vel := { x := 10, y := 5, z := -7 },
        accel := { x := 0, y := 0, z := -1 } } =
      Except.ok (some { x := 130, y := 215 }) ∧
    (72 - 8 - 8 ^ 2 = (0 : ℚ) ∧ 100 + 10 * 8 = (180 : ℚ) ∧ 200 + 5 * 8 = (240 : ℚ)) := by
  refine ⟨?_, ?_, by norm_num⟩
  · have h3 : Int.tdiv 7 2 = 3 := by decide
    simp [trajec_from_positions, for_collect, vel_at, accel_at, aget, usub, vec_div, vec_sub,
      vec_sum, vec_add, bind, Except.bind, pure, Except.pure, h3]
    norm_num
  · rw [intersec_from_trajec_pos_disc sqrtQ _ (by norm_num) (by norm_num)]
    have e : (-7 : ℚ) * (-7) - 2 * (-1) * 60 = 169 := by norm_num
    have hs : sqrtQ 169 = 13 := by norm_num [sqrtQ]
    simp only [e, hs]
    norm_num [cmax, cmin, square]

/-- Reading entry `i` of an array given by a formula. -/
theorem aget_range_map {β : Type} (f : Nat → β) (n i : Nat) (h : i < n) :
    aget ((List.range n).map f) (i : Int) = Except.ok (f i) := by
  unfold aget
  simp [List.getElem?_range h]

/-- A collecting loop whose every iteration succeeds yields the list of the
iteration results. -/
theorem for_collect_eq {β : Type} (body : Nat → Except Fault β) (g : Nat → β) (n : Nat)
    (h : ∀ i, i < n → body i = Except.ok (g i)) :
    for_collect body n = Except.ok ((List.range n).map g) := by
  induction n with
  | zero => rfl
  | succ k ih =>
    rw [for_collect, ih (fun i hi => h i (Nat.lt_succ_of_lt hi)), h k (Nat.lt_succ_self k)]
    simp [List.range_succ]

/-- Summing `k` copies of a vector, starting from `a`. -/
theorem foldl_vec_add_const (v a : vec_3d_t α) (k : Nat) :
    List.foldl vec_add a ((List.range k).map (fun _ => v)) =
      { x := a.x + k * v.x, y := a.y + k * v.y, z := a.z + k * v.z } := by
  induction k with
  | zero => simp
  | succ j ih =>
    rw [List.range_succ, List.map_append, List.foldl_append, ih]
    simp only [List.map_cons, List.map_nil, List.foldl_cons, List.foldl_nil, vec_add,
      Nat.cast_succ]
    congr 1 <;> ring

/-- The difference of two in-range `unsigned` values that are `d` apart. -/
theorem usub_add (a d : Nat) (h : a + d < 2 ^ 32) : usub (a + d) a = d := by
  unfold usub
  omega

/-- C7: for `n >= 3` positions `p_i = p0 + i D` on a straight line at ticks
`t_i = t0 + i T` (`T > 0`, all ticks below `2^32`), `trajec_from_positions`
returns the middle position, velocity `D / T` and acceleration `(0, 0, 0)`. -/
theorem trajec_from_positions_constant_spacing (n : Nat) (hn : 3 ≤ n) (p0 D : vec_3d_t α)
    (t0 T : Nat) (hT : 0 < T) (hfit : t0 + (n - 1) * T < 2 ^ 32) :
    trajec_from_positions
      ((List.range n).map (fun i : Nat =>
        ({ x := p0.x + i * D.x, y := p0.y + i * D.y, z := p0.z + i * D.z } : vec_3d_t α)))
      ((List.range n).map (fun i : Nat => t0 + i * T)) (n : Int) =
    Except.ok
      { pos := { x := p0.x + ((n / 2 : Nat) : α) * D.x, y := p0.y + ((n / 2 : Nat) : α) * D.y,
                 z := p0.z + ((n / 2 : Nat) : α) * D.z },
        vel := { x := D.x / T, y := D.y / T, z := D.z / T },
        accel := { x := 0, y := 0, z := 0 } } := by
  have hTα : (T : α) ≠ 0 := by exact_mod_cast (Nat.pos_iff_ne_zero.mp hT)
  have bound : ∀ i, i ≤ n - 1 → t0 + i * T ≤ t0 + (n - 1) * T := fun i hi =>
    Nat.add_le_add_left (Nat.mul_le_mul_right T hi) t0
  -- velocities
  have hv : ∀ i, i < n - 1 →
      vel_at ((List.range n).map (fun i : Nat =>
        ({ x := p0.x + i * D.x, y := p0.y + i * D.y, z := p0.z + i * D.z } : vec_3d_t α)))
        ((List.range n).map (fun i : Nat => t0 + i * T)) i =
      Except.ok ((fun _ : Nat => ({ x := D.x / T, y := D.y / T, z := D.z / T } : vec_3d_t α)) i) := by
    intro i hi
    have c1 : ((i : Int) + 1) = ((i + 1 : Nat) : Int) := by push_cast; rfl
    have hdt : usub (t0 + (i + 1) * T) (t0 + i * T) = T := by
      have e : t0 + (i + 1) * T = (t0 + i * T) + T := by ring
      rw [e]
      apply usub_add
      rw [← e]
      exact lt_of_le_of_lt (bound (i + 1) (by omega)) hfit
    unfold vel_at
    rw [c1, aget_range_map _ n (i + 1) (by omega), aget_range_map _ n i (by omega),
      aget_range_map _ n (i + 1) (by omega), aget_range_map _ n i (by omega)]
    simp only [bind, Except.bind, hdt, vec_div, hTα, if_false, vec_sub, Nat.cast_add, Nat.cast_one]
    congr 2 <;> ring
  have hvels := for_collect_eq _ _ (n - 1) hv
  -- accelerations
  have ha : ∀ i, i < n - 2 →
      accel_at ((List.range (n - 1)).map
        (fun _ : Nat => ({ x := D.x / T, y := D.y / T, z := D.z / T } : vec_3d_t α)))
        ((List.range n).map (fun i : Nat => t0 + i * T)) i =
      Except.ok ((fun _ : Nat => ({ x := 0, y := 0, z := 0 } : vec_3d_t α)) i) := by
    intro i hi
    have c1 : ((i : Int) + 1) = ((i + 1 : Nat) : Int) := by push_cast; rfl
    have c2 : ((i : Int) + 2) = ((i + 2 : Nat) : Int) := by push_cast; rfl
    have hdt : usub (t0 + (i + 2) * T) (t0 + i * T) = 2 * T := by
      have e : t0 + (i + 2) * T = (t0 + i * T) + 2 * T := by ring
      rw [e]
      apply usub_add
      rw [← e]
      exact lt_of_le_of_lt (bound (i + 2) (by omega)) hfit
    have h2T : ((2 * T : Nat) : α) ≠ 0 := by
      push_cast
      exact mul_ne_zero two_ne_zero hTα
    unfold accel_at
    rw [c1, c2, aget_range_map _ n (i + 2) (by omega), aget_range_map _ n i (by omega),
      aget_range_map _ (n - 1) (i + 1) (by omega), aget_range_map _ (n - 1) i (by omega)]
    simp only [bind, Except.bind, hdt, vec_div, h2T, if_false, vec_sub, sub_self, zero_div]
  have haccels := for_collect_eq _ _ (n - 2) ha
  have n1 : ((n : Int) - 1).toNat = n - 1 := by omega
  have n2 : ((n : Int) - 2).toNat = n - 2 := by omega
  have d1 : (((n : Int) - 1 : Int) : α) ≠ 0 := by
    have : ((n : Int) - 1) ≠ 0 := by omega
    exact_mod_cast this
  have d2 : (((n : Int) - 2 : Int) : α) ≠ 0 := by
    have : ((n : Int) - 2) ≠ 0 := by omega
    exact_mod_cast this
  have e1 : (((n - 1 : Nat) : α)) = (((n : Int) - 1 : Int) : α) := by
    have : (((n - 1 : Nat) : Int)) = (n : Int) - 1 := by omega
    rw [← this]; simp
  have hmid : Int.tdiv (n : Int) 2 = ((n / 2 : Nat) : Int) := by
    simp [Int.tdiv_eq_ediv]
  unfold trajec_from_positions
  simp only [n1, n2, hvels, haccels, bind, Except.bind, vec_sum, foldl_vec_add_const, vec_div,
    d1, d2, if_false, hmid, aget_range_map _ n (n / 2) (by omega), pure, Except.pure]
  rw [e1]
  congr 2
  · congr 1 <;>
    · rw [zero_add]
      exact mul_div_cancel_left₀ _ d1
  · congr 1 <;> simp

/-- Witness of C7: three positions `(1,2,3)`, `(5,7,9)`, `(9,12,15)` at ticks
`1000, 1002, 1004`. -/
theorem trajec_from_positions_constant_spacing_witness :
    3 ≤ 3 ∧ 0 < 2 ∧ 1000 + (3 - 1) * 2 < 2 ^ 32 ∧
    trajec_from_positions
      ((List.range 3).map (fun i : Nat =>
        ({ x := 1 + i * 4, y := 2 + i * 5, z := 3 + i * 6 } : vec_3d_t ℚ)))
      ((List.range 3).map (fun i : Nat => 1000 + i * 2)) ((3 : Nat) : Int) =
    Except.ok
      { pos := { x := 1 + ((3 / 2 : Nat) : ℚ) * 4, y := 2 + ((3 / 2 : Nat) : ℚ) * 5,
                 z := 3 + ((3 / 2 : Nat) : ℚ) * 6 },
        vel := { x := 4 / (2 : Nat), y := 5 / (2 : Nat), z := 6 / (2 : Nat) },
        accel := { x := 0, y := 0, z := 0 } } :=
  ⟨by decide, by decide, by decide,
   trajec_from_positions_constant_spacing 3 (by decide) ({ x := 1, y := 2, z := 3 } : vec_3d_t ℚ)
     { x := 4, y := 5, z := 6 } 1000 2 (by decide) (by decide)⟩

end prediction

section ranging

/-- What a measurement of `sync_measure` holds: the start tick is the one read
right after the trigger pulse; the measurement is timed out exactly when the
tick of the check on line 239 is at least `timeout` after the start; a
timed-out measurement stores the sentinel with the start tick, and any other
stores the distance and the mid-flight tick computed from `elapsed`. -/
theorem sync_measure_spec (fuel : Nat) (st : sonic_config) (i : Nat) (hw hw' : Hardware)
    (m : measurement) (h : sync_measure fuel st i hw = Except.ok (m, hw')) :
    ∃ sensor, aget st.sensors (i : Int) = Except.ok sensor ∧
      m.start = (timer_get_ticks (gpio_write sensor.trigger 0
        (timer_delay_us TRIGGER_DELAY (gpio_write sensor.trigger 1 hw)))).1 ∧
      (m.timed_out = true →
        m.reading = { distance := SONIC_INVALID_READING, timestamp := int_of_unsigned m.start }) ∧
      (m.timed_out = false → 0 ≤ m.reading.distance) ∧
      (m.timed_out = true ↔ st.timeout ≤ m.check_elapsed) ∧
      (m.timed_out = false →
        m.reading = { distance := distance_of_elapsed m.elapsed,
                      timestamp := int_of_unsigned (m.start + m.elapsed / 2) }) := by
  unfold sync_measure at h
  cases hs : aget st.sensors (i : Int) with
  | error e => rw [hs] at h; simp [bind, Except.bind] at h
  | ok sensor =>
    refine ⟨sensor, rfl, ?_⟩
    rw [hs] at h
    simp only [bind, Except.bind] at h
    split at h
    · simp at h
    · split at h
      · simp at h
      · split at h
        · rename_i hd
          simp only [pure, Except.pure, Except.ok.injEq, Prod.mk.injEq] at h
          obtain ⟨rfl, _⟩ := h
          refine ⟨rfl, fun _ => rfl, fun hf => absurd hf (by simp), ?_, fun hf => absurd hf (by simp)⟩
          simp only [did_timeout, ge_iff_le, decide_eq_true_eq] at hd
          simp only [true_iff]
          exact hd
        · rename_i hd
          simp only [pure, Except.pure, Except.ok.injEq, Prod.mk.injEq] at h
          obtain ⟨rfl, _⟩ := h
          refine ⟨rfl, fun hf => absurd hf (by simp), fun _ => ?_, ?_, fun _ => rfl⟩
          · simp only [distance_of_elapsed]
            positivity
          · simp only [did_timeout, ge_iff_le, decide_eq_true_eq] at hd
            simp only [Bool.false_eq_true, false_iff]
            exact hd

/-- A write keeps the length of the array. -/
theorem aset_length {β : Type} (arr arr' : List β) (i : Int) (v : β)
    (h : aset arr i v = Except.ok arr') : arr'.length = arr.length := by
  unfold aset at h
  split at h
  · simp only [Except.ok.injEq] at h
    rw [← h, List.length_set]
  · simp at h

/-- A successful write at a natural index. -/
theorem aset_natCast {β : Type} (arr arr' : List β) (i : Nat) (v : β)
    (h : aset arr (i : Int) v = Except.ok arr') : i < arr.length ∧ arr' = arr.set i v := by
  unfold aset at h
  split at h
  · rename_i hc
    simp only [Except.ok.injEq, Int.toNat_natCast] at h hc
    exact ⟨hc.2, h.symm⟩
  · simp at h

/-- The first `i + 1` entries after a write at `i`. -/
theorem take_succ_set {β : Type} (v : β) :
    ∀ (l : List β) (i : Nat), i < l.length → (l.set i v).take (i + 1) = l.take i ++ [v]
  | [], _, h => by simp at h
  | _ :: _, 0, _ => by simp
  | a :: l, i + 1, h => by
    have := take_succ_set v l i (by simpa using h)
    simp [this]

/-- The `for` loop keeps the length of `result`. -/
theorem sync_pass_length (fuel : Nat) (st : sonic_config) (min_valid : Int) :
    ∀ (remaining i : Nat) (result : List (Option sonic_data_t)) (valid : Int) (hw : Hardware)
      (result' : List (Option sonic_data_t)) (valid' : Int) (hw' : Hardware),
      sync_pass fuel st min_valid remaining i result valid hw = Except.ok (result', valid', hw') →
      result'.length = result.length := by
  intro remaining
  induction remaining with
  | zero =>
    intro i result valid hw result' valid' hw' h
    simp only [sync_pass, Except.ok.injEq, Prod.mk.injEq] at h
    rw [h.1]
  | succ k ih =>
    intro i result valid hw result' valid' hw' h
    rw [sync_pass] at h
    split at h
    · simp at h
    · split at h
      · simp at h
      · rename_i res1 hset
        have hl := aset_length _ _ _ _ hset
        split at h
        · split at h
          · simp only [Except.ok.injEq, Prod.mk.injEq] at h
            rw [← h.1, hl]
          · rw [ih _ _ _ _ _ _ _ h, hl]
        · rw [ih _ _ _ _ _ _ _ h, hl]

/-- A `for` loop that is left with `valid_readings >= min_valid` took no
`break`: it is a complete pass, and it wrote every entry from `i` on. -/
theorem sync_pass_complete (fuel : Nat) (st : sonic_config) (min_valid : Int) :
    ∀ (remaining i : Nat) (result : List (Option sonic_data_t)) (valid : Int) (hw : Hardware)
      (result' : List (Option sonic_data_t)) (valid' : Int) (hw' : Hardware),
      sync_pass fuel st min_valid remaining i result valid hw = Except.ok (result', valid', hw') →
      min_valid ≤ valid' → i + remaining = result.length →
      ∃ ms, complete_pass fuel st remaining i hw = Except.ok (ms, hw') ∧
        result' = result.take i ++ ms.map (fun m => some m.reading) ∧
        valid' = valid - ((ms.filter (fun m => m.timed_out)).length : Int) ∧
        ms.length = remaining := by
  intro remaining
  induction remaining with
  | zero =>
    intro i result valid hw result' valid' hw' h _ hlen
    simp only [sync_pass, Except.ok.injEq, Prod.mk.injEq] at h
    obtain ⟨rfl, rfl, rfl⟩ := h
    refine ⟨[], rfl, ?_, by simp, rfl⟩
    simp only [List.map_nil, List.append_nil]
    rw [List.take_of_length_le (by omega)]
  | succ k ih =>
    intro i result valid hw result' valid' hw' h hmv hlen
    rw [sync_pass] at h
    split at h
    · simp at h
    · rename_i m hw1 hm
      split at h
      · simp at h
      · rename_i res1 hset
        obtain ⟨hi, rfl⟩ := aset_natCast _ _ _ _ hset
        have htake := take_succ_set (some m.reading) result i hi
        split at h
        · rename_i hto
          split at h
          · simp only [Except.ok.injEq, Prod.mk.injEq] at h
            omega
          · obtain ⟨ms, hc, hr, hv, hl⟩ := ih _ _ _ _ _ _ _ h hmv
              (by rw [List.length_set]; omega)
            refine ⟨m :: ms, ?_, ?_, ?_, by simp [hl]⟩
            · simp only [complete_pass, hm, hc]
            · rw [hr, htake]; simp
            · rw [hv]; simp [hto]; omega
        · rename_i hto
          obtain ⟨ms, hc, hr, hv, hl⟩ := ih _ _ _ _ _ _ _ h hmv
            (by rw [List.length_set]; omega)
          refine ⟨m :: ms, ?_, ?_, ?_, by simp [hl]⟩
          · simp only [complete_pass, hm, hc]
          · rw [hr, htake]; simp
          · rw [hv]; simp [hto]

/-- Every measurement of a complete pass is the outcome of `sync_measure` on
some sensor. -/
theorem complete_pass_measurements (fuel : Nat) (st : sonic_config) :
    ∀ (remaining i : Nat) (hw hw' : Hardware) (ms : List measurement),
      complete_pass fuel st remaining i hw = Except.ok (ms, hw') →
      ∀ m ∈ ms, ∃ j hwa hwb, sync_measure fuel st j hwa = Except.ok (m, hwb) := by
  intro remaining
  induction remaining with
  | zero =>
    intro i hw hw' ms h
    simp only [complete_pass, Except.ok.injEq, Prod.mk.injEq] at h
    rw [← h.1]
    simp
  | succ k ih =>
    intro i hw hw' ms h
    rw [complete_pass] at h
    split at h
    · simp at h
    · rename_i m0 hw1 hm
      split at h
      · simp at h
      · rename_i ms1 hw2 hc
        simp only [Except.ok.injEq, Prod.mk.injEq] at h
        rw [← h.1]
        intro m hmem
        rcases List.mem_cons.mp hmem with rfl | hmem
        · exact ⟨i, hw, hw1, hm⟩
        · exact ih _ _ _ _ hc m hmem

/-- The `do ... while` loop ends on a complete pass, whatever `result` held
before. -/
theorem sync_retry_complete (fuel : Nat) (st : sonic_config) (min_valid : Int) :
    ∀ (tries : Nat) (result : List (Option sonic_data_t)) (hw : Hardware)
      (result' : List (Option sonic_data_t)) (hw' : Hardware),
      sync_retry fuel st min_valid tries result hw = Except.ok (result', hw') →
      result.length = st.n_sensors.toNat →
      ∃ hw0 ms, complete_pass fuel st st.n_sensors.toNat 0 hw0 = Except.ok (ms, hw') ∧
        result' = ms.map (fun m => some m.reading) ∧
        min_valid ≤ st.n_sensors - ((ms.filter (fun m => m.timed_out)).length : Int) ∧
        ms.length = st.n_sensors.toNat := by
  intro tries
  induction tries with
  | zero =>
    intro result hw result' hw' h
    simp [sync_retry] at h
  | succ k ih =>
    intro result hw result' hw' h hlen
    rw [sync_retry] at h
    split at h
    · simp at h
    · rename_i res1 valid1 hw1 hp
      split at h
      · exact ih _ _ _ _ h (by rw [sync_pass_length _ _ _ _ _ _ _ _ _ _ _ hp, hlen])
      · rename_i hv
        simp only [Except.ok.injEq, Prod.mk.injEq] at h
        obtain ⟨rfl, rfl⟩ := h
        obtain ⟨ms, hc, hr, hval, hl⟩ :=
          sync_pass_complete _ _ _ _ _ _ _ _ _ _ _ hp (not_lt.mp hv) (by omega)
        refine ⟨hw, ms, hc, ?_, ?_, hl⟩
        · rw [hr]; simp
        · rw [← hval]; exact not_lt.mp hv

/-- In a list of measurements the entries that differ from the sentinel are
the ones that did not time out. -/
theorem valid_plus_timed_out (ms : List measurement)
    (h : ∀ m ∈ ms, (m.timed_out = true → m.reading.distance = SONIC_INVALID_READING) ∧
      (m.timed_out = false → 0 ≤ m.reading.distance)) :
    (ms.filter (fun m => decide (m.reading.distance ≠ SONIC_INVALID_READING))).length +
      (ms.filter (fun m => m.timed_out)).length = ms.length := by
  induction ms with
  | nil => rfl
  | cons m ms ih =>
    have ih := ih (fun m' hm' => h m' (List.mem_cons_of_mem _ hm'))
    have hm := h m (List.mem_cons_self _ _)
    cases hto : m.timed_out with
    | true =>
      have hd := hm.1 hto
      simp only [List.filter_cons, hto, hd, ne_eq, not_true_eq_false, decide_False,
        Bool.false_eq_true, if_false, if_true, List.length_cons]
      simp only [ne_eq] at ih
      omega
    | false =>
      have hd := hm.2 hto
      have hne : m.reading.distance ≠ SONIC_INVALID_READING := by
        unfold SONIC_INVALID_READING; omega
      simp only [List.filter_cons, hto, ne_eq, hne, not_false_eq_true, decide_True,
        Bool.false_eq_true, if_false, if_true, List.length_cons]
      simp only [ne_eq] at ih
      omega

/-- C10: with asynchronous mode off, whenever `sonic_read_sync` returns it
returns true, and the array it hands back is exactly what one complete pass
(all `n_sensors` sensors, in registration order, started from some hardware
state `hw0` and ending in the final one) measured, with at least `min_valid`
entries whose distance is not the sentinel `-1`; nothing of an earlier,
discarded pass is left in it. -/
theorem sonic_read_sync_returns_complete_pass (fuel : Nat) (st : sonic_config)
    (min_valid : Int) (hw hw' : Hardware) (ret : Bool)
    (read_dest : Option (List (Option sonic_data_t)))
    (hoff : st.is_active = false)
    (h : sonic_read_sync fuel st min_valid hw = Except.ok (ret, read_dest, hw')) :
    ret = true ∧
    ∃ hw0 ms, complete_pass fuel st st.n_sensors.toNat 0 hw0 = Except.ok (ms, hw') ∧
      read_dest = some (ms.map (fun m => some m.reading)) ∧
      ms.length = st.n_sensors.toNat ∧
      min_valid ≤
        ((ms.filter (fun m => decide (m.reading.distance ≠ SONIC_INVALID_READING))).length : Int) := by
  unfold sonic_read_sync at h
  rw [hoff] at h
  simp only [Bool.false_eq_true, if_false] at h
  split at h
  · simp at h
  · rename_i result hw1 hr
    simp only [Except.ok.injEq, Prod.mk.injEq] at h
    obtain ⟨rfl, rfl, rfl⟩ := h
    obtain ⟨hw0, ms, hc, hres, hmv, hl⟩ :=
      sync_retry_complete _ _ _ _ _ _ _ _ hr (by simp)
    refine ⟨rfl, hw0, ms, hc, by rw [hres], hl, ?_⟩
    have hall : ∀ m ∈ ms, (m.timed_out = true → m.reading.distance = SONIC_INVALID_READING) ∧
        (m.timed_out = false → 0 ≤ m.reading.distance) := by
      intro m hm
      obtain ⟨j, hwa, hwb, hmeas⟩ := complete_pass_measurements _ _ _ _ _ _ _ hc m hm
      obtain ⟨_, _, _, h1, h2, _⟩ := sync_measure_spec _ _ _ _ _ _ hmeas
      exact ⟨fun ht => by rw [h1 ht], h2⟩
    have hcount := valid_plus_timed_out ms hall
    have : (st.n_sensors.toNat : Int) ≥ st.n_sensors := Int.self_le_toNat _
    omega

/-- `next_sensor` writes neither the in-progress readings nor the awaiting flag. -/
theorem next_sensor_curr_data (s : System) :
    (next_sensor s).state.curr_data = s.state.curr_data ∧
    (next_sensor s).state.awaiting_echo = s.state.awaiting_echo := by
  unfold next_sensor start_timer
  split
  · exact ⟨rfl, rfl⟩
  · split <;> exact ⟨rfl, rfl⟩

/-- A tick is an `unsigned` value. -/
theorem timer_get_ticks_lt (hw : Hardware) : (timer_get_ticks hw).1 < 2 ^ 32 := by
  unfold timer_get_ticks
  exact Nat.mod_lt _ (by norm_num)

/-- Witness of C10: two sensors, `min_valid = 2`.  In the first pass sensor 0
has no echo by tick `20000`, so the pass is left at once; the second pass
measures both sensors and is the one returned. -/
theorem sonic_read_sync_returns_complete_pass_witness :
    (example_config (main_sensors.take 2)).is_active = false ∧
    ∃ hw', sonic_read_sync 3 (example_config (main_sensors.take 2)) 2
        (example_hardware [100, 0, 20000, 0, 20001, 20002,
          30000, 1, 1, 30100, 0, 30600, 30610,
          40000, 1, 0, 41000, 41001]) =
        Except.ok (true, some [some { distance := 102, timestamp := 30300 },
                               some { distance := 171, timestamp := 40500 }], hw') ∧
      ∃ hw0 ms, complete_pass 3 (example_config (main_sensors.take 2))
          (example_config (main_sensors.take 2)).n_sensors.toNat 0 hw0 =
          Except.ok (ms, hw') ∧
        some [some ({ distance := 102, timestamp := 30300 } : sonic_data_t),
              some { distance := 171, timestamp := 40500 }] =
          some (ms.map (fun m => some m.reading)) ∧
        ms.length = (example_config (main_sensors.take 2)).n_sensors.toNat ∧
        (2 : Int) ≤ ((ms.filter
          (fun m => decide (m.reading.distance ≠ SONIC_INVALID_READING))).length : Int) :=
  ⟨rfl, _, rfl,
    (sonic_read_sync_returns_complete_pass 3 (example_config (main_sensors.take 2)) 2
      (example_hardware [100, 0, 20000, 0, 20001, 20002,
        30000, 1, 1, 30100, 0, 30600, 30610,
        40000, 1, 0, 41000, 41001]) _ true _ rfl rfl).2⟩

end ranging

section recentring

variable {α : Type} [LinearOrderedField α]

/-- `pos_from_dists` once both planar stages have a value. -/
theorem pos_from_dists_stages (sqrt : α → α)
    (dists : Fin 4 → sonic_data_t) (dTL dTR dBR dBL x y : α)
    (hTL : ((dists SENSOR_TOP_LEFT).distance : α) = dTL)
    (hTR : ((dists SENSOR_TOP_RIGHT).distance : α) = dTR)
    (hBR : ((dists SENSOR_BOTTOM_RIGHT).distance : α) = dBR)
    (hBL : ((dists SENSOR_BOTTOM_LEFT).distance : α) = dBL)
    (hy : pos_y (xy_sphere_intersect sqrt dTL dBL 1219) (xy_sphere_intersect sqrt dTR dBR 1219) =
      some y)
    (hx : pos_x (xy_sphere_intersect sqrt dTR dTL 1219) (xy_sphere_intersect sqrt dBR dBL 1219) =
      some x) :
    pos_from_dists sqrt dists =
      (true, { x := x, y := y,
               z := pos_z sqrt dTL dTR dBR dBL
                 (xy_sphere_intersect sqrt dTL dBL 1219) (xy_sphere_intersect sqrt dTR dBR 1219)
                 (xy_sphere_intersect sqrt dTR dTL 1219) (xy_sphere_intersect sqrt dBR dBL 1219) }) := by
  have cH : ((RECT_HEIGHT : Int) : α) = 1219 := by simp [RECT_HEIGHT]
  have cW : ((RECT_WIDTH : Int) : α) = 1219 := by simp [RECT_WIDTH]
  simp only [pos_from_dists, hTL, hTR, hBR, hBL, cH, cW, hy, hx]

/-- The entries of a four-sensor array reading. -/
theorem dists_of_reading_four (a b c d : sonic_data_t) :
    dists_of_reading [a, b, c, d] = Except.ok (quad a b c d) := rfl

/-- One iteration of the first loop of `object_vector_predict` on a reading
that yields a position. -/
theorem keep_positions_kept (sqrt : α → α)
    (a b c d : sonic_data_t) (rest : List (List sonic_data_t)) (positions : List (vec_3d_t α))
    (n_positions : Nat) (p : vec_3d_t α) (h : pos_from_dists sqrt (quad a b c d) = (true, p)) :
    keep_positions sqrt ([a, b, c, d] :: rest) positions n_positions =
      keep_positions sqrt rest (positions.take n_positions ++ [p]) (n_positions + 1) := by
  rw [keep_positions, dists_of_reading_four]
  simp only [h, if_true]

/-- `burst_trajec` from its three steps. -/
theorem burst_trajec_of_steps (sqrt : α → α) (burst : List (List sonic_data_t))
    (positions : List (vec_3d_t α)) (n_positions : Nat) (timestamps : List Nat)
    (trajec : kinematic_t α)
    (hk : keep_positions sqrt burst [] 0 = Except.ok (positions, n_positions))
    (ht : assemble_timestamps burst n_positions = Except.ok timestamps)
    (hf : trajec_from_positions positions timestamps (n_positions : Int) = Except.ok trajec) :
    burst_trajec sqrt burst = Except.ok trajec := by
  simp only [burst_trajec, hk, ht, hf, bind, Except.bind]

/-- When the fitted trajectory has the corner-anchored intersection `p`,
`object_vector_predict` subtracts `1219 / 2 = 609` (an `int` division) from
each coordinate. -/
theorem predict_from_burst_of_intersection (sqrt : α → α)
    (burst : List (List sonic_data_t)) (trajec : kinematic_t α) (p : board_pos_t α)
    (hk : burst_trajec sqrt burst = Except.ok trajec)
    (hi : intersec_from_trajec sqrt trajec = Except.ok (some p)) :
    predict_from_burst sqrt burst = Except.ok (some { x := p.x - 609, y := p.y - 609 }) := by
  have hH : (((RECT_HEIGHT / 2 : Int) : Int) : α) = 609 := by norm_num [RECT_HEIGHT]
  have hW : (((RECT_WIDTH / 2 : Int) : Int) : α) = 609 := by norm_num [RECT_WIDTH]
  simp only [predict_from_burst, hk, hi, bind, Except.bind, pure, Except.pure, hH, hW]

/-- `object_vector_predict` from the burst it read. -/
theorem object_vector_predict_of_burst (fuel : Nat)
    (sqrt : α → α) (st : sonic_config) (hw hw' : Hardware)
    (array_readings : List (Option (List (Option sonic_data_t))))
    (burst : List (List sonic_data_t)) (r : Option (board_pos_t α))
    (hr : sonic_read_sync_multiple fuel st (N_BURST_SAMPLES : Int) 3 hw =
      Except.ok (true, array_readings, hw'))
    (hb : array_readings.mapM written_reading = Except.ok burst)
    (hp : predict_from_burst sqrt burst = Except.ok r) :
    object_vector_predict fuel sqrt st hw = Except.ok (r, hw') := by
  simp only [object_vector_predict, hr, hb, hp]

/-- Four distances of 100 mm: the spheres of a pair do not reach each other. -/
theorem xy_sphere_intersect_100 :
    xy_sphere_intersect sqrtQ (100 : ℚ) 100 1219 = { displacement := 1219 / 2, radius := 0 } := by
  norm_num [xy_sphere_intersect]

/-- A degenerate circle is hit by no sphere of radius 100. -/
theorem sphere_circle_hit_100 : sphere_circle_hit (100 : ℚ) 0 609 1219 = false := by
  norm_num [sphere_circle_hit, cabs]

/-- The fallback height of four degenerate circles. -/
theorem z_guess_100 :
    z_guess ({ displacement := 1219 / 2, radius := 0 } : circle_t ℚ)
      { displacement := 1219 / 2, radius := 0 } { displacement := 1219 / 2, radius := 0 }
      { displacement := 1219 / 2, radius := 0 } = 0 := by
  norm_num [z_guess, NO_INTERSECTION, cmin, MAX_SENSE_DEPTH]

/-- The height found for four distances of 100 mm. -/
theorem pos_z_100 :
    pos_z sqrtQ (100 : ℚ) 100 100 100 { displacement := 1219 / 2, radius := 0 }
      { displacement := 1219 / 2, radius := 0 } { displacement := 1219 / 2, radius := 0 }
      { displacement := 1219 / 2, radius := 0 } = 0 := by
  have hH : (((RECT_HEIGHT / 2 : Int) : Int) : ℚ) = 609 := by norm_num [RECT_HEIGHT]
  have hW : (((RECT_WIDTH / 2 : Int) : Int) : ℚ) = 609 := by norm_num [RECT_WIDTH]
  have cH : ((RECT_HEIGHT : Int) : ℚ) = 1219 := by simp [RECT_HEIGHT]
  have cW : ((RECT_WIDTH : Int) : ℚ) = 1219 := by simp [RECT_WIDTH]
  simp only [pos_z, hH, hW, cH, cW, sphere_circle_hit_100, z_guess_100, Bool.false_eq_true,
    if_false]

/-- The `y` stage for four distances of 100 mm. -/
theorem pos_y_100 :
    pos_y ({ displacement := 1219 / 2, radius := 0 } : circle_t ℚ)
      { displacement := 1219 / 2, radius := 0 } = some (1219 / 2) := by
  norm_num [pos_y, NO_INTERSECTION]

/-- The `x` stage for four distances of 100 mm. -/
theorem pos_x_100 :
    pos_x ({ displacement := 1219 / 2, radius := 0 } : circle_t ℚ)
      { displacement := 1219 / 2, radius := 0 } = some (1219 / 2) := by
  norm_num [pos_x, NO_INTERSECTION]

/-- Four distances of 100 mm give the position `(609.5, 609.5, 0)`. -/
theorem pos_from_dists_100 (t0 t1 t2 t3 : Int) :
    pos_from_dists sqrtQ (quad ⟨100, t0⟩ ⟨100, t1⟩ ⟨100, t2⟩ ⟨100, t3⟩) =
      (true, { x := 1219 / 2, y := 1219 / 2, z := 0 }) := by
  rw [pos_from_dists_stages sqrtQ _ 100 100 100 100 (1219 / 2) (1219 / 2)
    (by rw [quad_top_left]; norm_num) (by rw [quad_top_right]; norm_num)
    (by rw [quad_bottom_right]; norm_num) (by rw [quad_bottom_left]; norm_num)
    (by rw [xy_sphere_intersect_100, pos_y_100]) (by rw [xy_sphere_intersect_100, pos_x_100]),
    xy_sphere_intersect_100, pos_z_100]

/-- Four distances of 1000 mm: each pair of spheres meets in a circle. -/
theorem xy_sphere_intersect_1000 :
    xy_sphere_intersect sqrtQ (1000 : ℚ) 1000 1219 =
      { displacement := 1219 / 2, radius := 1585 / 2 } := by
  norm_num [xy_sphere_intersect, sqrtQ, square]

/-- That circle is hit by the spheres of radius 1000. -/
theorem sphere_circle_hit_1000 : sphere_circle_hit (1000 : ℚ) (1585 / 2) 609 1219 = true := by
  norm_num [sphere_circle_hit, cabs]

/-- The height computation has a negative radicand there and gives the
sentinel. -/
theorem z_circle_sphere_intersect_1000 :
    z_circle_sphere_intersect sqrtQ (1000 : ℚ) (1585 / 2) 609 1219 = -1 := by
  norm_num [z_circle_sphere_intersect, sqrtQ, square, NO_INTERSECTION]

/-- The height found for four distances of 1000 mm. -/
theorem pos_z_1000 :
    pos_z sqrtQ (1000 : ℚ) 1000 1000 1000 { displacement := 1219 / 2, radius := 1585 / 2 }
      { displacement := 1219 / 2, radius := 1585 / 2 }
      { displacement := 1219 / 2, radius := 1585 / 2 }
      { displacement := 1219 / 2, radius := 1585 / 2 } = -1 := by
  have hH : (((RECT_HEIGHT / 2 : Int) : Int) : ℚ) = 609 := by norm_num [RECT_HEIGHT]
  have hW : (((RECT_WIDTH / 2 : Int) : Int) : ℚ) = 609 := by norm_num [RECT_WIDTH]
  have cH : ((RECT_HEIGHT : Int) : ℚ) = 1219 := by simp [RECT_HEIGHT]
  have cW : ((RECT_WIDTH : Int) : ℚ) = 1219 := by simp [RECT_WIDTH]
  simp only [pos_z, hH, hW, cH, cW, sphere_circle_hit_1000, z_circle_sphere_intersect_1000,
    if_true]
  norm_num

/-- The `y` stage for four distances of 1000 mm. -/
theorem pos_y_1000 :
    pos_y ({ displacement := 1219 / 2, radius := 1585 / 2 } : circle_t ℚ)
      { displacement := 1219 / 2, radius := 1585 / 2 } = some (1219 / 2) := by
  norm_num [pos_y, NO_INTERSECTION]

/-- The `x` stage for four distances of 1000 mm. -/
theorem pos_x_1000 :
    pos_x ({ displacement := 1219 / 2, radius := 1585 / 2 } : circle_t ℚ)
      { displacement := 1219 / 2, radius := 1585 / 2 } = some (1219 / 2) := by
  norm_num [pos_x, NO_INTERSECTION]

/-- Four distances of 1000 mm give the position `(609.5, 609.5, -1)`. -/
theorem pos_from_dists_1000 (t0 t1 t2 t3 : Int) :
    pos_from_dists sqrtQ (quad ⟨1000, t0⟩ ⟨1000, t1⟩ ⟨1000, t2⟩ ⟨1000, t3⟩) =
      (true, { x := 1219 / 2, y := 1219 / 2, z := -1 }) := by
  rw [pos_from_dists_stages sqrtQ _ 1000 1000 1000 1000 (1219 / 2) (1219 / 2)
    (by rw [quad_top_left]; norm_num) (by rw [quad_top_right]; norm_num)
    (by rw [quad_bottom_right]; norm_num) (by rw [quad_bottom_left]; norm_num)
    (by rw [xy_sphere_intersect_1000, pos_y_1000])
    (by rw [xy_sphere_intersect_1000, pos_x_1000]),
    xy_sphere_intersect_1000, pos_z_1000]

/-- The seven positions kept from the example burst. -/
theorem keep_positions_example :
    keep_positions sqrtQ
      [[⟨100, 1292⟩, ⟨100, 3292⟩, ⟨100, 5292⟩, ⟨100, 7292⟩],
       [⟨100, 11292⟩, ⟨100, 13292⟩, ⟨100, 15292⟩, ⟨100, 17292⟩],
       [⟨100, 21292⟩, ⟨100, 23292⟩, ⟨100, 25292⟩, ⟨100, 27292⟩],
       [⟨100, 31292⟩, ⟨100, 33292⟩, ⟨100, 35292⟩, ⟨100, 37292⟩],
       [⟨100, 41292⟩, ⟨100, 43292⟩, ⟨100, 45292⟩, ⟨100, 47292⟩],
       [⟨100, 51292⟩, ⟨100, 53292⟩, ⟨100, 55292⟩, ⟨100, 57292⟩],
       [⟨1000, 63915⟩, ⟨1000, 65915⟩, ⟨1000, 67915⟩, ⟨1000, 69915⟩]] [] 0 =
      Except.ok ([({ x := 1219 / 2, y := 1219 / 2, z := 0 } : vec_3d_t ℚ),
        { x := 1219 / 2, y := 1219 / 2, z := 0 }, { x := 1219 / 2, y := 1219 / 2, z := 0 },
        { x := 1219 / 2, y := 1219 / 2, z := 0 }, { x := 1219 / 2, y := 1219 / 2, z := 0 },
        { x := 1219 / 2, y := 1219 / 2, z := 0 }, { x := 1219 / 2, y := 1219 / 2, z := -1 }],
        7) := by
  rw [keep_positions_kept sqrtQ _ _ _ _ _ _ _ _ (pos_from_dists_100 _ _ _ _),
    keep_positions_kept sqrtQ _ _ _ _ _ _ _ _ (pos_from_dists_100 _ _ _ _),
    keep_positions_kept sqrtQ _ _ _ _ _ _ _ _ (pos_from_dists_100 _ _ _ _),
    keep_positions_kept sqrtQ _ _ _ _ _ _ _ _ (pos_from_dists_100 _ _ _ _),
    keep_positions_kept sqrtQ _ _ _ _ _ _ _ _ (pos_from_dists_100 _ _ _ _),
    keep_positions_kept sqrtQ _ _ _ _ _ _ _ _ (pos_from_dists_100 _ _ _ _),
    keep_positions_kept sqrtQ _ _ _ _ _ _ _ _ (pos_from_dists_1000 _ _ _ _), keep_positions]
  rfl

/-- The kinematic fit of those seven positions. -/
theorem trajec_from_positions_example :
    trajec_from_positions [({ x := 1219 / 2, y := 1219 / 2, z := 0 } : vec_3d_t ℚ),
        { x := 1219 / 2, y := 1219 / 2, z := 0 }, { x := 1219 / 2, y := 1219 / 2, z := 0 },
        { x := 1219 / 2, y := 1219 / 2, z := 0 }, { x := 1219 / 2, y := 1219 / 2, z := 0 },
        { x := 1219 / 2, y := 1219 / 2, z := 0 }, { x := 1219 / 2, y := 1219 / 2, z := -1 }]
        [5292, 15292, 25292, 35292, 45292, 55292, 67915] ((7 : Nat) : Int) =
      Except.ok { pos := { x := 1219 / 2, y := 1219 / 2, z := 0 },
                  vel := { x := 0, y := 0, z := -1 / 75738 },
                  accel := { x := 0, y := 0, z := -1 / 1427850645 } } := by
  have h3 : Int.tdiv 7 2 = 3 := by decide
  simp [trajec_from_positions, for_collect, vel_at, accel_at, aget, usub, vec_div, vec_sub,
    vec_sum, vec_add, bind, Except.bind, pure, Except.pure, h3]
  norm_num

/-- The kinematic estimate of the example burst. -/
theorem burst_trajec_example :
    burst_trajec sqrtQ
      [[⟨100, 1292⟩, ⟨100, 3292⟩, ⟨100, 5292⟩, ⟨100, 7292⟩],
       [⟨100, 11292⟩, ⟨100, 13292⟩, ⟨100, 15292⟩, ⟨100, 17292⟩],
       [⟨100, 21292⟩, ⟨100, 23292⟩, ⟨100, 25292⟩, ⟨100, 27292⟩],
       [⟨100, 31292⟩, ⟨100, 33292⟩, ⟨100, 35292⟩, ⟨100, 37292⟩],
       [⟨100, 41292⟩, ⟨100, 43292⟩, ⟨100, 45292⟩, ⟨100, 47292⟩],
       [⟨100, 51292⟩, ⟨100, 53292⟩, ⟨100, 55292⟩, ⟨100, 57292⟩],
       [⟨1000, 63915⟩, ⟨1000, 65915⟩, ⟨1000, 67915⟩, ⟨1000, 69915⟩]] =
    Except.ok { pos := { x := 1219 / 2, y := 1219 / 2, z := 0 },
                vel := { x := 0, y := 0, z := -1 / 75738 },
                accel := { x := 0, y := 0, z := -1 / 1427850645 } } :=
  burst_trajec_of_steps sqrtQ _ _ _ _ _ keep_positions_example rfl trajec_from_positions_example

/-- The corner-anchored intersection of that estimate. -/
theorem intersec_from_trajec_example :
    intersec_from_trajec sqrtQ
      { pos := { x := 1219 / 2, y := 1219 / 2, z := 0 },
        vel := { x := 0, y := 0, z := -1 / 75738 },
        accel := { x := 0, y := 0, z := -1 / 1427850645 } } =
    Except.ok (some { x := 1219 / 2, y := 1219 / 2 }) := by
  rw [intersec_from_trajec_pos_disc sqrtQ _ (by norm_num) (by norm_num)]
  have e : (-1 / 75738 : ℚ) * (-1 / 75738) - 2 * (-1 / 1427850645) * 0 = 1 / 5736244644 := by
    norm_num
  have hs : sqrtQ (1 / 5736244644) = 1 / 75738 := by norm_num [sqrtQ]
  simp only [e, hs]
  norm_num [cmax, cmin, square]

/-- The prediction for the example burst. -/
theorem predict_from_burst_example :
    predict_from_burst sqrtQ
      [[⟨100, 1292⟩, ⟨100, 3292⟩, ⟨100, 5292⟩, ⟨100, 7292⟩],
       [⟨100, 11292⟩, ⟨100, 13292⟩, ⟨100, 15292⟩, ⟨100, 17292⟩],
       [⟨100, 21292⟩, ⟨100, 23292⟩, ⟨100, 25292⟩, ⟨100, 27292⟩],
       [⟨100, 31292⟩, ⟨100, 33292⟩, ⟨100, 35292⟩, ⟨100, 37292⟩],
       [⟨100, 41292⟩, ⟨100, 43292⟩, ⟨100, 45292⟩, ⟨100, 47292⟩],
       [⟨100, 51292⟩, ⟨100, 53292⟩, ⟨100, 55292⟩, ⟨100, 57292⟩],
       [⟨1000, 63915⟩, ⟨1000, 65915⟩, ⟨1000, 67915⟩, ⟨1000, 69915⟩]] =
    Except.ok (some { x := 1 / 2, y := 1 / 2 }) := by
  rw [predict_from_burst_of_intersection sqrtQ _ _ _ burst_trajec_example
    intersec_from_trajec_example]
  norm_num

/-- The burst that `sonic_read_sync_multiple` reads from the example hardware:
six cycles in which every echo pulse lasts 584 ticks (100 mm) and a seventh in
which it lasts 5831 ticks (1000 mm). -/
theorem sonic_read_sync_multiple_example : ∃ hw',
    sonic_read_sync_multiple 3 (example_config main_sensors) (N_BURST_SAMPLES : Int) 3
      (example_hardware (cycle_answers 1000 584 ++ cycle_answers 11000 584 ++
        cycle_answers 21000 584 ++ cycle_answers 31000 584 ++ cycle_answers 41000 584 ++
        cycle_answers 51000 584 ++ cycle_answers 61000 5831)) =
    Except.ok (true,
      [some [some ⟨100, 1292⟩, some ⟨100, 3292⟩, some ⟨100, 5292⟩, some ⟨100, 7292⟩],
       some [some ⟨100, 11292⟩, some ⟨100, 13292⟩, some ⟨100, 15292⟩, some ⟨100, 17292⟩],
       some [some ⟨100, 21292⟩, some ⟨100, 23292⟩, some ⟨100, 25292⟩, some ⟨100, 27292⟩],
       some [some ⟨100, 31292⟩, some ⟨100, 33292⟩, some ⟨100, 35292⟩, some ⟨100, 37292⟩],
       some [some ⟨100, 41292⟩, some ⟨100, 43292⟩, some ⟨100, 45292⟩, some ⟨100, 47292⟩],
       some [some ⟨100, 51292⟩, some ⟨100, 53292⟩, some ⟨100, 55292⟩, some ⟨100, 57292⟩],
       some [some ⟨1000, 63915⟩, some ⟨1000, 65915⟩, some ⟨1000, 67915⟩, some ⟨1000, 69915⟩]],
      hw') :=
  ⟨_, rfl⟩

/-- C8 (the code on a burst it can read): six cycles with all four sensors at
100 mm and a seventh with all four at 1000 mm.  The fitted trajectory meets the
plane at the corner-anchored point `(609.5, 609.5)`, the centre of the board;
`object_vector_predict` returns true with `(0.5, 0.5)`, that is
`(X - 609, Y - 609)`, and not `(X - 609.5, Y - 609.5) = (0, 0)`. -/
theorem object_vector_predict_recentres_by_609 :
    (∃ trajec,
      burst_trajec sqrtQ
      [[⟨100, 1292⟩, ⟨100, 3292⟩, ⟨100, 5292⟩, ⟨100, 7292⟩],
       [⟨100, 11292⟩, ⟨100, 13292⟩, ⟨100, 15292⟩, ⟨100, 17292⟩],
       [⟨100, 21292⟩, ⟨100, 23292⟩, ⟨100, 25292⟩, ⟨100, 27292⟩],
       [⟨100, 31292⟩, ⟨100, 33292⟩, ⟨100, 35292⟩, ⟨100, 37292⟩],
       [⟨100, 41292⟩, ⟨100, 43292⟩, ⟨100, 45292⟩, ⟨100, 47292⟩],
       [⟨100, 51292⟩, ⟨100, 53292⟩, ⟨100, 55292⟩, ⟨100, 57292⟩],
       [⟨1000, 63915⟩, ⟨1000, 65915⟩, ⟨1000, 67915⟩, ⟨1000, 69915⟩]] = Except.ok trajec ∧
      intersec_from_trajec sqrtQ trajec = Except.ok (some { x := 1219 / 2, y := 1219 / 2 })) ∧
    (∃ hw',
      object_vector_predict 3 sqrtQ (example_config main_sensors)
        (example_hardware (cycle_answers 1000 584 ++ cycle_answers 11000 584 ++
        cycle_answers 21000 584 ++ cycle_answers 31000 584 ++ cycle_answers 41000 584 ++
        cycle_answers 51000 584 ++ cycle_answers 61000 5831)) =
      Except.ok (some { x := 1219 / 2 - 609, y := 1219 / 2 - 609 }, hw')) ∧
    ((1219 : ℚ) / 2 - 609 = 1 / 2 ∧ (1219 : ℚ) / 2 - 1219 / 2 = 0) := by
  refine ⟨⟨_, burst_trajec_example, intersec_from_trajec_example⟩, ?_, by norm_num⟩
  obtain ⟨hw', hr⟩ := sonic_read_sync_multiple_example
  have hp : predict_from_burst sqrtQ
      [[⟨100, 1292⟩, ⟨100, 3292⟩, ⟨100, 5292⟩, ⟨100, 7292⟩],
       [⟨100, 11292⟩, ⟨100, 13292⟩, ⟨100, 15292⟩, ⟨100, 17292⟩],
       [⟨100, 21292⟩, ⟨100, 23292⟩, ⟨100, 25292⟩, ⟨100, 27292⟩],
       [⟨100, 31292⟩, ⟨100, 33292⟩, ⟨100, 35292⟩, ⟨100, 37292⟩],
       [⟨100, 41292⟩, ⟨100, 43292⟩, ⟨100, 45292⟩, ⟨100, 47292⟩],
       [⟨100, 51292⟩, ⟨100, 53292⟩, ⟨100, 55292⟩, ⟨100, 57292⟩],
       [⟨1000, 63915⟩, ⟨1000, 65915⟩, ⟨1000, 67915⟩, ⟨1000, 69915⟩]] =
      Except.ok (some { x := 1219 / 2 - 609, y := 1219 / 2 - 609 }) := by
    rw [predict_from_burst_example]
    norm_num
  exact ⟨hw', object_vector_predict_of_burst 3 sqrtQ _ _ hw' _ _ _ hr rfl hp⟩

end recentring

section symmetric

variable {α : Type} [LinearOrderedField α]

/-- Two spheres of the same radius around centres 1219 apart: the circle is
valid and sits half way, whether or not the spheres are large enough to
meet. -/
theorem xy_sphere_intersect_equal_radii (sqrt : α → α) (hsqrt : ∀ d : α, 0 ≤ d → 0 ≤ sqrt d)
    (r : α) :
    (xy_sphere_intersect sqrt r r 1219).displacement = 1219 / 2 ∧
    0 ≤ (xy_sphere_intersect sqrt r r 1219).radius := by
  have hdisp : (square (1219 : α) - square r + square r) / (2 * 1219) = 1219 / 2 := by
    unfold square
    field_simp
    ring
  unfold xy_sphere_intersect
  by_cases hmeet : r + r ≥ (1219 : α)
  · have hrad : 0 ≤ square r - square ((square (1219 : α) - square r + square r) / (2 * 1219)) := by
      rw [hdisp]
      unfold square
      nlinarith
    have h := hsqrt _ hrad
    simp only [hmeet, if_true, not_lt.mpr h, if_false]
    exact ⟨hdisp, h⟩
  · simp only [hmeet, if_false]
    constructor
    · ring
    · exact le_refl _

/-- In exact arithmetic, when all four distances handed to `pos_from_dists`
are the same value `r` (any `int`, also one too small for the spheres to
meet), it returns true with `X = 1219 / 2` and `Y = 1219 / 2`, half the width
and height of the board; `sqrt` is any function that is non-negative on
non-negative input. -/
theorem pos_from_dists_symmetric_exact (sqrt : α → α) (hsqrt : ∀ d : α, 0 ≤ d → 0 ≤ sqrt d)
    (r : Int) (dists : Fin 4 → sonic_data_t) (h : ∀ i, (dists i).distance = r) :
    (pos_from_dists sqrt dists).1 = true ∧
    (pos_from_dists sqrt dists).2.x = 1219 / 2 ∧
    (pos_from_dists sqrt dists).2.y = 1219 / 2 := by
  obtain ⟨hd, hr⟩ := xy_sphere_intersect_equal_radii sqrt hsqrt (r : α)
  have hy := pos_y_of_valid _ _ hr hr
  have hx := pos_x_of_valid _ _ hr hr
  rw [hd] at hy hx
  have e : ((1219 : α) / 2 + 1219 / 2) / 2 = 1219 / 2 := by ring
  rw [e] at hy hx
  rw [pos_from_dists_stages sqrt dists (r : α) (r : α) (r : α) (r : α) (1219 / 2) (1219 / 2)
    (by rw [h]) (by rw [h]) (by rw [h]) (by rw [h]) hy hx]
  exact ⟨rfl, rfl, rfl⟩

/-- C15: `pos_from_dists` returns false exactly when the left and the right
pair both yield the no-intersection circle, or the top and the bottom pair
both do; the height stage has no part in the returned value. -/
theorem pos_from_dists_false_iff (sqrt : α → α) (dists : Fin 4 → sonic_data_t) :
    (pos_from_dists sqrt dists).1 = false ↔
      (((xy_sphere_intersect sqrt ((dists SENSOR_TOP_LEFT).distance : α)
            ((dists SENSOR_BOTTOM_LEFT).distance : α) (RECT_HEIGHT : α)).radius
          = NO_INTERSECTION ∧
        (xy_sphere_intersect sqrt ((dists SENSOR_TOP_RIGHT).distance : α)
            ((dists SENSOR_BOTTOM_RIGHT).distance : α) (RECT_HEIGHT : α)).radius
          = NO_INTERSECTION) ∨
       ((xy_sphere_intersect sqrt ((dists SENSOR_TOP_RIGHT).distance : α)
            ((dists SENSOR_TOP_LEFT).distance : α) (RECT_WIDTH : α)).radius
          = NO_INTERSECTION ∧
        (xy_sphere_intersect sqrt ((dists SENSOR_BOTTOM_RIGHT).distance : α)
            ((dists SENSOR_BOTTOM_LEFT).distance : α) (RECT_WIDTH : α)).radius
          = NO_INTERSECTION)) := by
  simp only [pos_from_dists, pos_y, pos_x]
  split_ifs <;> simp_all

end symmetric

section synchronous

/-- C11: while asynchronous ranging is active, `sonic_read_sync` and
`sonic_read_sync_multiple` return false at once: nothing is stored in the
destination and the hardware (its call log and its read cursor) is the one
they were entered with, so no pin was written or read and no delay was made.
Neither function writes the module state, which they only read. -/
theorem sync_reads_fail_fast_while_active (fuel : Nat) (st : sonic_config)
    (n_readings min_valid : Int) (hw : Hardware) (hactive : st.is_active = true) :
    sonic_read_sync fuel st min_valid hw = Except.ok (false, none, hw) ∧
    sonic_read_sync_multiple fuel st n_readings min_valid hw = Except.ok (false, [], hw) := by
  unfold sonic_read_sync sonic_read_sync_multiple
  rw [hactive]
  exact ⟨rfl, rfl⟩

/-- Witness of C11: four registered sensors, asynchronous ranging active. -/
theorem sync_reads_fail_fast_while_active_witness :
    ({ example_config main_sensors with is_active := true }).is_active = true ∧
    sonic_read_sync 5 { example_config main_sensors with is_active := true } 3
        (example_hardware [7, 8, 9]) =
      Except.ok (false, none, example_hardware [7, 8, 9]) ∧
    sonic_read_sync_multiple 5 { example_config main_sensors with is_active := true } 7 3
        (example_hardware [7, 8, 9]) =
      Except.ok (false, [], example_hardware [7, 8, 9]) :=
  ⟨rfl, sync_reads_fail_fast_while_active 5
    { example_config main_sensors with is_active := true } 7 3 (example_hardware [7, 8, 9]) rfl⟩

/-- The distance computed from a round trip shorter than the timeout is at
most the distance of the timeout. -/
theorem distance_of_elapsed_le (elapsed timeout : Nat) (h : elapsed ≤ timeout) :
    distance_of_elapsed elapsed ≤ ((timeout * 343 / 2000 : Nat) : Int) := by
  unfold distance_of_elapsed
  exact Int.ofNat_le.mpr (Nat.div_le_div_right (Nat.mul_le_mul_right 343 h))

end synchronous

section timer

/-- After `countdown_set_ticks(T)` the load reads back as `T`. -/
theorem countdown_get_load_set_ticks (T : Nat) (hT : T < 2 ^ 32) (c : countdown_t) :
    countdown_get_load (countdown_set_ticks T c) = T := by
  unfold countdown_get_load countdown_set_ticks usub
  show (((T % 2 ^ 32 + 2 ^ 32 - 1 % 2 ^ 32) % 2 ^ 32) + 1) % 2 ^ 32 = T
  omega

/-- After `countdown_set_ticks(T)` the reload value reads back as `T`. -/
theorem countdown_get_reload_set_ticks (T : Nat) (hT : T < 2 ^ 32) (c : countdown_t) :
    countdown_get_reload (countdown_set_ticks T c) = T := by
  unfold countdown_get_reload countdown_set_ticks usub
  show (((T % 2 ^ 32 + 2 ^ 32 - 1 % 2 ^ 32) % 2 ^ 32) + 1) % 2 ^ 32 = T
  omega

/-- `countdown_set_ticks` does not write the enable bit. -/
theorem countdown_is_enabled_set_ticks (T : Nat) (c : countdown_t) :
    countdown_is_enabled (countdown_set_ticks T c) = countdown_is_enabled c := by
  unfold countdown_is_enabled countdown_set_ticks
  rfl

/-- `countdown_reset` leaves the timer disabled. -/
theorem countdown_is_enabled_reset (T : Nat) (c : countdown_t) :
    countdown_is_enabled (countdown_reset T c) = false := by
  unfold countdown_is_enabled countdown_reset countdown_set_ticks countdown_disable
  rfl

/-- C18: for every 32-bit tick value `T`, zero included, `countdown_reset(T)`
leaves the timer disabled with `countdown_get_load()` and
`countdown_get_reload()` both returning `T`; `countdown_set_ticks(T)` gives the
same two values and does not touch the enable bit. -/
theorem countdown_reset_loads_ticks (T : Nat) (hT : T < 2 ^ 32) (c : countdown_t) :
    countdown_is_enabled (countdown_reset T c) = false ∧
    countdown_get_load (countdown_reset T c) = T ∧
    countdown_get_reload (countdown_reset T c) = T ∧
    countdown_get_load (countdown_set_ticks T c) = T ∧
    countdown_get_reload (countdown_set_ticks T c) = T ∧
    countdown_is_enabled (countdown_set_ticks T c) = countdown_is_enabled c :=
  ⟨countdown_is_enabled_reset T c,
   countdown_get_load_set_ticks T hT (countdown_disable c),
   countdown_get_reload_set_ticks T hT (countdown_disable c),
   countdown_get_load_set_ticks T hT c, countdown_get_reload_set_ticks T hT c,
   countdown_is_enabled_set_ticks T c⟩

/-- Witness of C18: `T = 0` on a running timer; `ticks - 1` wraps to
`2 ^ 32 - 1` and `load + 1` wraps back to `0`. -/
theorem countdown_reset_loads_ticks_witness :
    (0 : Nat) < 2 ^ 32 ∧
    countdown_is_enabled (countdown_reset 0 (countdown_enable (example_system
      (example_config main_sensors) []).countdown)) = false ∧
    countdown_get_load (countdown_reset 0 (countdown_enable (example_system
      (example_config main_sensors) []).countdown)) = 0 ∧
    countdown_get_reload (countdown_reset 0 (countdown_enable (example_system
      (example_config main_sensors) []).countdown)) = 0 ∧
    countdown_get_load (countdown_set_ticks 0 (countdown_enable (example_system
      (example_config main_sensors) []).countdown)) = 0 ∧
    countdown_get_reload (countdown_set_ticks 0 (countdown_enable (example_system
      (example_config main_sensors) []).countdown)) = 0 ∧
    countdown_is_enabled (countdown_set_ticks 0 (countdown_enable (example_system
      (example_config main_sensors) []).countdown)) =
      countdown_is_enabled (countdown_enable (example_system
        (example_config main_sensors) []).countdown) :=
  ⟨by norm_num, countdown_reset_loads_ticks 0 (by norm_num) _⟩

/-- C19: `countdown_init(COUNTDOWN_MODE_CONTINUOUS, h)` with a handler `h`
that is not null stores no handler: when the timer finishes counting down,
`countdown_done` returns false and calls no function, although
`countdown_get_mode()` does return the mode.  In discontinuous mode the
handler is stored and is the function `countdown_done` calls. -/
theorem countdown_init_continuous_drops_handler (h : handler_fn_t) (s : System) :
    (countdown_init countdown_mode_t.COUNTDOWN_MODE_CONTINUOUS (some h) s).cd_state.handler
      = none ∧
    countdown_done (countdown_init countdown_mode_t.COUNTDOWN_MODE_CONTINUOUS (some h) s)
      = (false, none, countdown_init countdown_mode_t.COUNTDOWN_MODE_CONTINUOUS (some h) s) ∧
    countdown_get_mode
        (countdown_init countdown_mode_t.COUNTDOWN_MODE_CONTINUOUS (some h) s).cd_state
      = countdown_mode_t.COUNTDOWN_MODE_CONTINUOUS ∧
    (countdown_done
        (countdown_init countdown_mode_t.COUNTDOWN_MODE_DISCONTINUOUS (some h) s)).1 = true ∧
    (countdown_done
        (countdown_init countdown_mode_t.COUNTDOWN_MODE_DISCONTINUOUS (some h) s)).2.1
      = some h ∧
    countdown_get_mode
        (countdown_init countdown_mode_t.COUNTDOWN_MODE_DISCONTINUOUS (some h) s).cd_state
      = countdown_mode_t.COUNTDOWN_MODE_DISCONTINUOUS :=
  ⟨rfl, rfl, rfl, rfl, rfl, rfl⟩

end timer

section lifecycle

/-- A read inside the array succeeds. -/
theorem aget_of_lt {β : Type} (arr : List β) (d : β) (i : Nat) (h : i < arr.length) :
    aget arr (i : Int) = Except.ok (arr.getD i d) := by
  unfold aget
  simp [List.getD, List.getElem?_eq_getElem h]

/-- A loop over sensors that are all in the table ends, and only the
hardware the body touches changes. -/
theorem sensor_loop_ok (sensors : List sonic_sensor_t)
    (body : sonic_sensor_t → Hardware → Hardware) :
    ∀ (remaining i : Nat) (hw : Hardware), i + remaining ≤ sensors.length →
      ∃ hw', sensor_loop sensors body remaining i hw = Except.ok hw' := by
  intro remaining
  induction remaining with
  | zero => intro i hw _; exact ⟨hw, rfl⟩
  | succ k ih =>
    intro i hw h
    rw [sensor_loop, aget_of_lt sensors ⟨0, 0⟩ i (by omega)]
    exact ih (i + 1) _ (by omega)

/-- What a successful `sonic_init` leaves in the module state. -/
theorem sonic_init_ok (rb_capacity : Nat) (sensors : List sonic_sensor_t) (n_sensors : Int)
    (s : System) (hpos : 0 < n_sensors) (hmax : n_sensors ≤ SONIC_MAX_SENSORS)
    (hlen : n_sensors.toNat ≤ sensors.length) :
    ∃ hw', sonic_init rb_capacity sensors n_sensors s =
      Except.ok (true,
        { s with hw := hw',
                 state := { s.state with
                            handler_attached := true,
                            sensors := (List.range n_sensors.toNat).map
                              (fun i => sensors.getD i ⟨0, 0⟩),
                            curr_data := List.replicate n_sensors.toNat none,
                            arr_readings := sonic_rb_new rb_capacity,
                            n_sensors := n_sensors,
                            timeout := SONIC_DEFAULT_TIMEOUT,
                            unit_delay := SONIC_MIN_DELAY } }) := by
  unfold sonic_init
  rw [if_neg (by omega)]
  have hc := for_collect_eq (fun i => aget sensors (i : Int)) (fun i => sensors.getD i ⟨0, 0⟩)
    n_sensors.toNat (fun i hi => aget_of_lt sensors ⟨0, 0⟩ i (by omega))
  cases ha : s.state.handler_attached with
  | false =>
    obtain ⟨hw', hl⟩ := sensor_loop_ok sensors
      (fun sensor hw =>
        gpio_set_pulldown sensor.echo (gpio_set_input sensor.echo
          (gpio_set_output sensor.trigger hw)))
      n_sensors.toNat 0
      (interrupts_attach_handler interrupt_source.INTERRUPTS_GPIO3 s.hw) (by omega)
    refine ⟨hw', ?_⟩
    simp only [Bool.not_false, if_true, bind, Except.bind, hl, hc]
    rfl
  | true =>
    obtain ⟨hw', hl⟩ := sensor_loop_ok sensors
      (fun sensor hw =>
        gpio_set_pulldown sensor.echo (gpio_set_input sensor.echo
          (gpio_set_output sensor.trigger hw)))
      n_sensors.toNat 0 s.hw (by omega)
    refine ⟨hw', ?_⟩
    simp only [Bool.not_true, Bool.false_eq_true, if_false, bind, Except.bind, hl, hc]
    simp only [pure, Except.pure, ha]

/-- What `sonic_init` has done whenever it returns: on a bad count nothing,
and otherwise it returns true with the count, the default timeout and the
least unit delay stored; it writes neither the active flag nor the cycle
delay. -/
theorem sonic_init_returns (rb_capacity : Nat) (sensors : List sonic_sensor_t) (n_sensors : Int)
    (s s' : System) (ret : Bool)
    (h : sonic_init rb_capacity sensors n_sensors s = Except.ok (ret, s')) :
    ((n_sensors > SONIC_MAX_SENSORS ∨ n_sensors ≤ 0) ∧ ret = false ∧ s' = s) ∨
    (¬ (n_sensors > SONIC_MAX_SENSORS ∨ n_sensors ≤ 0) ∧ ret = true ∧
      s'.state.n_sensors = n_sensors ∧ s'.state.timeout = SONIC_DEFAULT_TIMEOUT ∧
      s'.state.unit_delay = SONIC_MIN_DELAY ∧ s'.state.cycle_delay = s.state.cycle_delay ∧
      s'.state.is_active = s.state.is_active ∧
      s'.state.sensors.length = n_sensors.toNat) := by
  unfold sonic_init at h
  by_cases hbad : n_sensors > SONIC_MAX_SENSORS ∨ n_sensors ≤ 0
  · rw [if_pos hbad] at h
    simp only [Except.ok.injEq, Prod.mk.injEq] at h
    exact Or.inl ⟨hbad, h.1.symm, h.2.symm⟩
  · rw [if_neg hbad] at h
    refine Or.inr ⟨hbad, ?_⟩
    simp only [bind, Except.bind] at h
    split at h
    · simp at h
    · split at h
      · simp at h
      · rename_i hw1 hl copied hcol
        have hlen : copied.length = n_sensors.toNat := by
          have : ∀ (k : Nat) (xs : List sonic_sensor_t),
              for_collect (fun i => aget sensors (i : Int)) k = Except.ok xs → xs.length = k := by
            intro k
            induction k with
            | zero => intro xs hx; simp only [for_collect, Except.ok.injEq] at hx; rw [← hx]; rfl
            | succ k ih =>
              intro xs hx
              rw [for_collect] at hx
              split at hx
              · simp at hx
              · rename_i ys hy
                split at hx
                · simp at hx
                · simp only [Except.ok.injEq] at hx
                  rw [← hx, List.length_append, ih ys hy]
                  rfl
          exact this _ _ hcol
        simp only [pure, Except.pure, Except.ok.injEq, Prod.mk.injEq] at h
        obtain ⟨rfl, rfl⟩ := h
        cases ha : s.state.handler_attached <;> exact ⟨rfl, rfl, rfl, rfl, rfl, rfl, hlen⟩


/-- Whenever `sonic_on` returns, the module state is the old one with the
active flag set and the sensor index 0. -/
theorem sonic_on_returns (s s' : System) (h : sonic_on s = Except.ok s') :
    s'.state = { s.state with is_active := true, curr_sensor := 0 } := by
  unfold sonic_on at h
  simp only [bind, Except.bind] at h
  split at h
  · simp at h
  · rename_i hw1 hl
    unfold start_trigger at h
    simp only [countdown_set_mode, decide_True, if_true, Bool.not_true, Bool.false_eq_true,
      if_false, bind, Except.bind] at h
    split at h
    · simp at h
    · simp only [pure, Except.pure, Except.ok.injEq] at h
      rw [← h]
      rfl

/-- On a module with at least one sensor whose table holds all `n_sensors`
sensors, `sonic_on` returns. -/
theorem sonic_on_ok (s : System) (hpos : 0 < s.state.n_sensors)
    (hlen : s.state.n_sensors.toNat ≤ s.state.sensors.length) :
    ∃ s', sonic_on s = Except.ok s' := by
  unfold sonic_on
  simp only [bind, Except.bind]
  obtain ⟨hw1, hl⟩ := sensor_loop_ok s.state.sensors
    (fun sensor hw => gpio_enable_event_detection sensor.echo hw) s.state.n_sensors.toNat 0
    s.hw (by omega)
  simp only [countdown_set_mode, decide_True, if_true, hl]
  unfold start_trigger
  have h0 := aget_of_lt s.state.sensors ⟨0, 0⟩ 0 (by omega)
  simp only [Bool.not_true, Bool.false_eq_true, if_false, bind, Except.bind]
  simp only [Nat.cast_zero] at h0
  rw [h0]
  exact ⟨_, rfl⟩

/-- Whenever `sonic_off` returns, the module state is the old one with the
active flag cleared. -/
theorem sonic_off_returns (s s' : System) (h : sonic_off s = Except.ok s') :
    s'.state = { s.state with is_active := false } := by
  unfold sonic_off at h
  simp only [bind, Except.bind] at h
  split at h
  · simp at h
  · simp only [pure, Except.pure, Except.ok.injEq] at h
    rw [← h]

/-- On a module whose table holds all `n_sensors` sensors, `sonic_off`
returns. -/
theorem sonic_off_ok (s : System)
    (hlen : s.state.n_sensors.toNat ≤ s.state.sensors.length) :
    ∃ s', sonic_off s = Except.ok s' := by
  unfold sonic_off
  simp only [bind, Except.bind]
  obtain ⟨hw1, hl⟩ := sensor_loop_ok s.state.sensors
    (fun sensor hw => gpio_disable_event_detection sensor.echo hw) s.state.n_sensors.toNat 0
    s.hw (by omega)
  rw [hl]
  exact ⟨_, rfl⟩

/-- The loop that frees the buffered readings writes no field but the
buffer. -/
theorem free_readings_returns :
    ∀ (fuel : Nat) (st st' : sonic_config), free_readings fuel st = Except.ok st' →
      st' = { st with arr_readings := st'.arr_readings } := by
  intro fuel
  induction fuel with
  | zero => intro st st' h; simp [free_readings] at h
  | succ k ih =>
    intro st st' h
    rw [free_readings] at h
    split at h
    · rename_i st1 hr
      simp only [Except.ok.injEq] at h
      simp only [sonic_read_async, Prod.mk.injEq] at hr
      rw [← h, ← hr.2]
    · rename_i elem st1 hr
      simp only [sonic_read_async, Prod.mk.injEq] at hr
      have := ih _ _ h
      rw [this, ← hr.2]

/-- Whenever `sonic_deinit` returns, it has cleared the active flag and
released the two arrays and the buffer, and every other field of the module
state is what it was. -/
theorem sonic_deinit_returns (fuel : Nat) (s s' : System)
    (h : sonic_deinit fuel s = Except.ok s') :
    s'.state = { s.state with is_active := false, sensors := [], curr_data := [],
                              arr_readings := { capacity := 0, queue := [] } } := by
  unfold sonic_deinit at h
  simp only [bind, Except.bind] at h
  split at h
  · simp at h
  · rename_i s1 hoff
    split at h
    · simp at h
    · rename_i st1 hfree
      simp only [pure, Except.pure, Except.ok.injEq] at h
      have e1 := sonic_off_returns _ _ hoff
      have e2 := free_readings_returns _ _ _ hfree
      rw [← h]
      show { st1 with arr_readings := { capacity := 0, queue := [] } } = _
      rw [e2, e1]

/-- C12: `sonic_init(sensors, n)` returns false, with the whole system (module
state, timer and hardware call log) exactly as before, when `n <= 0` or
`n > SONIC_MAX_SENSORS`; whenever it returns, it returns false only in that
case; and for `0 < n <= 10` with `n` sensors in the caller's array it returns
true with the sensor count `n`, the timeout 17492 and the unit delay 1. -/
theorem sonic_init_fails_exactly_on_bad_count (rb_capacity : Nat)
    (sensors : List sonic_sensor_t) (n_sensors : Int) (s : System) :
    ((n_sensors ≤ 0 ∨ n_sensors > SONIC_MAX_SENSORS) →
      sonic_init rb_capacity sensors n_sensors s = Except.ok (false, s)) ∧
    (∀ ret s', sonic_init rb_capacity sensors n_sensors s = Except.ok (ret, s') →
      (ret = false ↔ (n_sensors ≤ 0 ∨ n_sensors > 10))) ∧
    (0 < n_sensors → n_sensors ≤ 10 → n_sensors.toNat ≤ sensors.length →
      ∃ s', sonic_init rb_capacity sensors n_sensors s = Except.ok (true, s') ∧
        sonic_sensor_count s'.state = n_sensors ∧ s'.state.timeout = 17492 ∧
        s'.state.unit_delay = 1) := by
  refine ⟨?_, ?_, ?_⟩
  · intro hbad
    unfold sonic_init
    rw [if_pos (by omega)]
  · intro ret s' h
    rcases sonic_init_returns _ _ _ _ _ _ h with ⟨hbad, hret, _⟩ | ⟨hgood, hret, _⟩
    · unfold SONIC_MAX_SENSORS at hbad
      exact ⟨fun _ => by omega, fun _ => hret⟩
    · unfold SONIC_MAX_SENSORS at hgood
      rw [hret]
      exact ⟨fun hf => by simp at hf, fun hb => by omega⟩
  · intro hpos hmax hlen
    obtain ⟨hw', h⟩ := sonic_init_ok rb_capacity sensors n_sensors s hpos
      (by unfold SONIC_MAX_SENSORS; omega) hlen
    exact ⟨_, h, rfl, rfl, rfl⟩

/-- Witness of C12: on a module that was never initialised, a count of 11 and
a count of 0 are refused and leave everything as it was; the four sensors of
`main.c` are accepted. -/
theorem sonic_init_fails_exactly_on_bad_count_witness :
    sonic_init 4 main_sensors 11 (fresh_system []) = Except.ok (false, fresh_system []) ∧
    sonic_init 4 main_sensors 0 (fresh_system []) = Except.ok (false, fresh_system []) ∧
    ∃ s', sonic_init 4 main_sensors 4 (fresh_system []) = Except.ok (true, s') ∧
      sonic_sensor_count s'.state = 4 ∧ s'.state.timeout = 17492 ∧ s'.state.unit_delay = 1 :=
  ⟨(sonic_init_fails_exactly_on_bad_count 4 main_sensors 11 (fresh_system [])).1
      (Or.inr (by decide)),
   (sonic_init_fails_exactly_on_bad_count 4 main_sensors 0 (fresh_system [])).1
      (Or.inl (by decide)),
   (sonic_init_fails_exactly_on_bad_count 4 main_sensors 4 (fresh_system [])).2.2
      (by decide) (by decide) (by decide)⟩

/-- C16: whenever `sonic_on` returns, `sonic_is_active()` is true, and
whenever `sonic_off` returns it is false, in every state; on a module with at
least one sensor and all its sensors in the table both do return, also for
on, off, on again; and after `sonic_init` on a module that was never
initialised it is false. -/
theorem sonic_is_active_follows_on_off (s : System) :
    (∀ s', sonic_on s = Except.ok s' → sonic_is_active s'.state = true) ∧
    (∀ s', sonic_off s = Except.ok s' → sonic_is_active s'.state = false) ∧
    (0 < s.state.n_sensors → s.state.n_sensors.toNat ≤ s.state.sensors.length →
      ∃ s1 s2 s3, sonic_on s = Except.ok s1 ∧ sonic_is_active s1.state = true ∧
        sonic_off s1 = Except.ok s2 ∧ sonic_is_active s2.state = false ∧
        sonic_on s2 = Except.ok s3 ∧ sonic_is_active s3.state = true) ∧
    (s.state = initial_state →
      ∀ rb_capacity sensors n_sensors ret s',
        sonic_init rb_capacity sensors n_sensors s = Except.ok (ret, s') →
        sonic_is_active s'.state = false) := by
  refine ⟨?_, ?_, ?_, ?_⟩
  · intro s' h
    rw [sonic_is_active, sonic_on_returns s s' h]
  · intro s' h
    rw [sonic_is_active, sonic_off_returns s s' h]
  · intro hpos hlen
    obtain ⟨s1, h1⟩ := sonic_on_ok s hpos hlen
    have e1 := sonic_on_returns s s1 h1
    obtain ⟨s2, h2⟩ := sonic_off_ok s1 (by rw [e1]; exact hlen)
    have e2 := sonic_off_returns s1 s2 h2
    obtain ⟨s3, h3⟩ := sonic_on_ok s2 (by rw [e2, e1]; exact hpos) (by rw [e2, e1]; exact hlen)
    have e3 := sonic_on_returns s2 s3 h3
    refine ⟨s1, s2, s3, h1, ?_, h2, ?_, h3, ?_⟩
    · rw [sonic_is_active, e1]
    · rw [sonic_is_active, e2]
    · rw [sonic_is_active, e3]
  · intro h0 rb_capacity sensors n_sensors ret s' h
    rcases sonic_init_returns _ _ _ _ _ _ h with ⟨_, _, hs⟩ | ⟨_, _, _, _, _, _, ha, _⟩
    · rw [hs, sonic_is_active, h0]; rfl
    · rw [sonic_is_active, ha, h0]; rfl

/-- Witness of C16: the four sensors of `main.c`, on, off and on again; and
`sonic_init` on a module that was never initialised. -/
theorem sonic_is_active_follows_on_off_witness :
    (∃ s1 s2 s3, sonic_on (example_system (example_config main_sensors) []) = Except.ok s1 ∧
      sonic_is_active s1.state = true ∧
      sonic_off s1 = Except.ok s2 ∧ sonic_is_active s2.state = false ∧
      sonic_on s2 = Except.ok s3 ∧ sonic_is_active s3.state = true) ∧
    ∃ s', sonic_init 4 main_sensors 4 (fresh_system []) = Except.ok (true, s') ∧
      sonic_is_active s'.state = false :=
  ⟨(sonic_is_active_follows_on_off (example_system (example_config main_sensors) [])).2.2.1
      (by decide) (by decide),
   _, rfl,
   (sonic_is_active_follows_on_off (fresh_system [])).2.2.2 rfl 4 main_sensors 4 true _ rfl⟩

/-- C17: after `sonic_init(sensors, n)` on a module that was never
initialised, followed by `sonic_deinit()`, ranging is inactive and the cycle
delay is the initial one, but `sonic_sensor_count()` still returns `n`, which
is not the initial 0, the timeout is still 17492 and the unit delay still 1,
where both were 0 before the first `sonic_init`: `sonic_deinit` writes none
of the three. -/
theorem sonic_deinit_keeps_count_and_timeout (rb_capacity fuel : Nat)
    (sensors : List sonic_sensor_t) (n_sensors : Int) (s0 s1 s2 : System)
    (h0 : s0.state = initial_state)
    (hinit : sonic_init rb_capacity sensors n_sensors s0 = Except.ok (true, s1))
    (hdeinit : sonic_deinit fuel s1 = Except.ok s2) :
    sonic_is_active s2.state = false ∧
    s2.state.cycle_delay = initial_state.cycle_delay ∧
    sonic_sensor_count s2.state = n_sensors ∧ 0 < n_sensors ∧
    sonic_sensor_count initial_state = 0 ∧
    s2.state.timeout = 17492 ∧ initial_state.timeout = 0 ∧
    s2.state.unit_delay = 1 ∧ initial_state.unit_delay = 0 := by
  have e2 := sonic_deinit_returns fuel s1 s2 hdeinit
  rcases sonic_init_returns _ _ _ _ _ _ hinit with ⟨_, hf, _⟩ | ⟨hgood, _, hn, ht, hu, hc, _, _⟩
  · simp at hf
  · refine ⟨?_, ?_, ?_, ?_, rfl, ?_, rfl, ?_, rfl⟩
    · rw [sonic_is_active, e2]
    · rw [e2]
      show s1.state.cycle_delay = _
      rw [hc, h0]
    · rw [sonic_sensor_count, e2]
      exact hn
    · omega
    · rw [e2]
      exact ht
    · rw [e2]
      exact hu

/-- Witness of C17: the four sensors of `main.c`. -/
theorem sonic_deinit_keeps_count_and_timeout_witness :
    ∃ s1 s2, (fresh_system []).state = initial_state ∧
      sonic_init 4 main_sensors 4 (fresh_system []) = Except.ok (true, s1) ∧
      sonic_deinit 1 s1 = Except.ok s2 ∧
      sonic_is_active s2.state = false ∧
      s2.state.cycle_delay = initial_state.cycle_delay ∧
      sonic_sensor_count s2.state = 4 ∧ (0 : Int) < 4 ∧
      sonic_sensor_count initial_state = 0 ∧
      s2.state.timeout = 17492 ∧ initial_state.timeout = 0 ∧
      s2.state.unit_delay = 1 ∧ initial_state.unit_delay = 0 :=
  ⟨_, _, rfl, rfl, rfl,
   sonic_deinit_keeps_count_and_timeout 4 1 main_sensors 4 (fresh_system []) _ _ rfl rfl rfl⟩

end lifecycle

section hoop_facts

variable {α : Type} [LinearOrderedField α]

/-- `get_delta` does not write the hoop position. -/
theorem get_delta_cur (sqrt : α → α) (s s' : hoop_state α) (motor : motor_t)
    (x1 y1 x2 y2 d : α) (h : get_delta sqrt s motor x1 y1 x2 y2 = Except.ok (d, s')) :
    s'.cur = s.cur := by
  unfold get_delta at h
  simp only [bind, Except.bind] at h
  split at h
  · simp at h
  · split at h
    · simp at h
    · simp only [pure, Except.pure, Except.ok.injEq, Prod.mk.injEq] at h
      rw [← h.2]

/-- The loops over `get_delta` do not write the hoop position. -/
theorem get_deltas_cur (sqrt : α → α) (x1 y1 x2 y2 : α) :
    ∀ (remaining i : Nat) (s s' : hoop_state α) (deltas : List α),
      get_deltas sqrt x1 y1 x2 y2 remaining i s = Except.ok (deltas, s') → s'.cur = s.cur := by
  intro remaining
  induction remaining with
  | zero =>
    intro i s s' deltas h
    simp only [get_deltas, Except.ok.injEq, Prod.mk.injEq] at h
    rw [← h.2]
  | succ k ih =>
    intro i s s' deltas h
    rw [get_deltas] at h
    split at h
    · simp at h
    · split at h
      · simp at h
      · rename_i motor hm d s1 hd
        split at h
        · simp at h
        · rename_i ds s2 hds
          simp only [Except.ok.injEq, Prod.mk.injEq] at h
          rw [← h.2, ih _ _ _ _ hds, get_delta_cur sqrt _ _ _ _ _ _ _ _ hd]

/-- `get_time` does not write the hoop position. -/
theorem get_time_cur (fuel : Nat) (sqrt : α → α) (s s' : hoop_state α)
    (destination : board_pos_t α) (t : α)
    (h : get_time fuel sqrt s destination = Except.ok (t, s')) : s'.cur = s.cur := by
  unfold get_time at h
  simp only at h
  split at h
  · simp at h
  · rename_i deltas s1 hd
    split at h
    · simp at h
    · split at h
      · simp at h
      · simp only [Except.ok.injEq, Prod.mk.injEq] at h
        rw [← h.2]
        exact get_deltas_cur sqrt _ _ _ _ _ _ _ _ _ hd

/-- A read at a natural index succeeds exactly on the entries of the list. -/
theorem aget_natCast {β : Type} (arr : List β) (i : Nat) (v : β) :
    aget arr (i : Int) = Except.ok v ↔ arr.get? i = some v := by
  unfold aget
  simp only [Int.natCast_nonneg, if_true, Int.toNat_natCast]
  cases h : arr.get? i with
  | none => simp
  | some w => simp

/-- Reads after a write: the written entry at the written index, the old
entries elsewhere. -/
theorem aget_set_natCast {β : Type} (arr : List β) (i j : Nat) (v w : β)
    (h : aget arr (i : Int) = Except.ok v) :
    aget (arr.set j w) (i : Int) = Except.ok (if j = i then w else v) := by
  rw [aget_natCast] at h ⊢
  rw [List.get?_eq_getElem?] at h ⊢
  rw [List.getElem?_set]
  have hi : i < arr.length := by
    by_contra hc
    rw [List.getElem?_eq_none (by omega)] at h
    simp at h
  by_cases hji : j = i
  · simp [hji, hi]
  · simp [hji, h]

/-- On a motor table in order, `get_delta` for the motor at index `i` returns
`delta_value` for the id `i`, and leaves the table in order and the position
as it was. -/
theorem get_delta_ok (sqrt : α → α) (s : hoop_state α) (x1 y1 x2 y2 : α)
    (hord : motors_in_order s.motors) (i : Nat) (hi : i < 4)
    (motor : motor_t) (hm : aget s.motors (i : Int) = Except.ok motor) :
    ∃ s', get_delta sqrt s motor x1 y1 x2 y2 =
        Except.ok (delta_value sqrt (i : Int) x1 y1 x2 y2, s') ∧
      s'.cur = s.cur ∧ motors_in_order s'.motors := by
  obtain ⟨m, hm', hid⟩ := hord i hi
  rw [hm] at hm'
  simp only [Except.ok.injEq] at hm'
  subst hm'
  have hlen : i < s.motors.length := by
    have := (aget_natCast _ _ _).mp hm
    rw [List.get?_eq_getElem?] at this
    by_contra hc
    rw [List.getElem?_eq_none (by omega)] at this
    simp at this
  unfold get_delta
  simp only [hid, hm, bind, Except.bind, aset, Int.natCast_nonneg, Int.toNat_natCast, hlen,
    and_self, if_true, pure, Except.pure]
  refine ⟨_, rfl, rfl, ?_⟩
  intro k hk
  obtain ⟨mk, hmk, hidk⟩ := hord k hk
  refine ⟨_, aget_set_natCast _ _ _ _ _ hmk, ?_⟩
  by_cases hik : i = k
  · subst hik
    simp only [if_true]
  · simp only [hik, if_false]
    exact hidk

/-- The four calls of `get_delta` in a row. -/
theorem get_deltas_ok (sqrt : α → α) (x1 y1 x2 y2 : α) :
    ∀ (remaining i : Nat) (s : hoop_state α), i + remaining ≤ 4 → motors_in_order s.motors →
      ∃ s', get_deltas sqrt x1 y1 x2 y2 remaining i s =
          Except.ok ((List.range remaining).map
            (fun k => delta_value sqrt ((i + k : Nat) : Int) x1 y1 x2 y2), s') ∧
        s'.cur = s.cur ∧ motors_in_order s'.motors := by
  intro remaining
  induction remaining with
  | zero => intro i s _ hord; exact ⟨s, rfl, rfl, hord⟩
  | succ r ih =>
    intro i s hir hord
    obtain ⟨m, hm, _⟩ := hord i (by omega)
    obtain ⟨s1, hd, hc1, hord1⟩ := get_delta_ok sqrt s x1 y1 x2 y2 hord i (by omega) m hm
    obtain ⟨s2, hds, hc2, hord2⟩ := ih (i + 1) s1 (by omega) hord1
    refine ⟨s2, ?_, by rw [hc2, hc1], hord2⟩
    rw [get_deltas, hm]
    simp only [hd, hds]
    rw [List.range_succ_eq_map]
    simp only [List.map_cons, List.map_map, Nat.add_zero]
    congr 3
    apply List.map_congr_left
    intro k _
    simp only [Function.comp]
    congr 2
    omega

end hoop_facts

section hoop_claims

variable {α : Type} [LinearOrderedField α] [FloorRing α]

/-- When the outer loop of `hoop_move` is left after at least one iteration,
the recorded position is the last `new_x`, `new_y`. -/
theorem hoop_move_loop_cur (sqrt : α → α) (time_step x_step y_step : α) :
    ∀ (remaining : Nat) (new_x new_y : α) (s s' : hoop_state α) (hw hw' : Hardware),
      hoop_move_loop sqrt time_step x_step y_step (remaining + 1) new_x new_y s hw =
        Except.ok (s', hw') →
      s'.cur = { x := new_x + (remaining : α) * x_step, y := new_y + (remaining : α) * y_step } := by
  intro remaining
  induction remaining with
  | zero =>
    intro new_x new_y s s' hw hw' h
    rw [hoop_move_loop] at h
    split at h
    · simp at h
    · split at h
      · simp at h
      · split at h
        · simp at h
        · simp only [hoop_move_loop, Except.ok.injEq, Prod.mk.injEq] at h
          rw [← h.1]
          simp
  | succ k ih =>
    intro new_x new_y s s' hw hw' h
    rw [hoop_move_loop] at h
    split at h
    · simp at h
    · split at h
      · simp at h
      · split at h
        · simp at h
        · rw [ih _ _ _ _ _ _ h]
          congr 1
          · push_cast; ring
          · push_cast; ring

/-- C20: whenever `hoop_move(destination)` returns, the recorded hoop position
is `destination` itself, in both coordinates and for every current position:
the bounds are applied to the copy of `destination` inside `get_time` only, so
a destination outside the bounds is recorded as it was given and not as
`constrain destination`. -/
theorem hoop_move_records_destination_unconstrained (fuel : Nat) (sqrt : α → α)
    (s s' : hoop_state α) (destination : board_pos_t α) (hw hw' : Hardware)
    (h : hoop_move fuel sqrt s destination hw = Except.ok (s', hw')) :
    s'.cur = destination ∧
    ((100 < destination.x ∨ destination.x < -100 ∨ 100 < destination.y ∨ destination.y < -100) →
      s'.cur ≠ constrain destination) := by
  have hcur : s'.cur = destination := by
    unfold hoop_move at h
    split at h
    · simp at h
    · rename_i t s1 ht
      simp only [NUM_STEPS] at h
      rw [hoop_move_loop_cur sqrt _ _ _ 19 _ _ _ _ _ _ h]
      cases destination with
      | mk dx dy =>
        simp only [board_pos_t.mk.injEq]
        constructor
        · push_cast; ring
        · push_cast; ring
  refine ⟨hcur, ?_⟩
  intro hout hcon
  rw [hcur] at hcon
  cases destination with
  | mk dx dy =>
    simp only [constrain, HOOP_BOUND_WIDTH, HOOP_BOUND_HEIGHT, board_pos_t.mk.injEq, cmin, cmax] at hcon
    obtain ⟨hx, hy⟩ := hcon
    push_cast at hx hy
    simp only at hout
    rcases hout with h1 | h1 | h1 | h1
    · split_ifs at hx <;> linarith
    · split_ifs at hx <;> linarith
    · split_ifs at hy <;> linarith
    · split_ifs at hy <;> linarith

end hoop_claims

section hoop_total

variable {α : Type} [LinearOrderedField α]

/-- A division with a divisor that is not zero. -/
theorem fdiv_ok (a b : α) (hb : b ≠ 0) : fdiv a b = Except.ok (a / b) := by
  unfold fdiv
  rw [if_neg hb]

/-- The running maximum of the loops `if (v[i] > m) m = v[i]` is one of the
values it has seen. -/
theorem foldl_max_mem {β : Type} [LinearOrder β] (l : List β) :
    ∀ a : β, l.foldl (fun m d => if d > m then d else m) a ∈ a :: l := by
  induction l with
  | nil => intro a; simp
  | cons x xs ih =>
    intro a
    simp only [List.foldl_cons]
    have := ih (if x > a then x else a)
    rcases List.mem_cons.mp this with h | h
    · rw [h]
      split_ifs <;> simp
    · exact List.mem_cons_of_mem _ (List.mem_cons_of_mem _ h)

/-- The running maximum is at least every value it has seen. -/
theorem foldl_max_ge {β : Type} [LinearOrder β] (l : List β) :
    ∀ a : β, a ≤ l.foldl (fun m d => if d > m then d else m) a ∧
      ∀ x ∈ l, x ≤ l.foldl (fun m d => if d > m then d else m) a := by
  induction l with
  | nil => intro a; simp
  | cons x xs ih =>
    intro a
    simp only [List.foldl_cons]
    obtain ⟨h1, h2⟩ := ih (if x > a then x else a)
    have hxa : x ≤ (if x > a then x else a) ∧ a ≤ (if x > a then x else a) := by
      split_ifs with hc
      · exact ⟨le_refl _, le_of_lt hc⟩
      · exact ⟨not_lt.mp hc, le_refl _⟩
    refine ⟨le_trans hxa.2 h1, ?_⟩
    intro y hy
    rcases List.mem_cons.mp hy with rfl | hy
    · exact le_trans hxa.1 h1
    · exact h2 y hy

/-- The `while` loop of `get_time` ends within `fuel + 1` tests when the
speed for the time `time + 100 * fuel` is within `MAX_SPEED`. -/
theorem get_time_loop_ok (max_delta : α) :
    ∀ (fuel : Nat) (time : α), 0 < time →
      max_delta / (MOTOR_DIAMETER * PI) / (time + 100 * (fuel : α)) ≤ MAX_SPEED →
      ∃ t, get_time_loop max_delta (fuel + 1) time = Except.ok t ∧ time ≤ t := by
  intro fuel
  induction fuel with
  | zero =>
    intro time ht h
    rw [get_time_loop, fdiv_ok _ _ (ne_of_gt ht)]
    simp only [Nat.cast_zero, mul_zero, add_zero] at h
    simp only [gt_iff_lt, not_lt.mpr h, if_false]
    exact ⟨time, rfl, le_refl _⟩
  | succ f ih =>
    intro time ht h
    rw [get_time_loop, fdiv_ok _ _ (ne_of_gt ht)]
    simp only
    split_ifs with hc
    · obtain ⟨t, h1, h2⟩ := ih (time + 100) (by linarith) (by
        have e : time + 100 + 100 * (f : α) = time + 100 * ((f + 1 : Nat) : α) := by
          push_cast; ring
        rw [e]; exact h)
      exact ⟨t, h1, by linarith⟩
    · exact ⟨time, rfl, le_refl _⟩

/-- On a motor table in order, `get_time` returns a time of at least 100 ms
within `fuel + 1` tests when every motor's change of length towards the
constrained destination allows the time `100 + 100 * fuel`. -/
theorem get_time_ok (fuel : Nat) (sqrt : α → α) (s : hoop_state α)
    (destination : board_pos_t α) (hord : motors_in_order s.motors)
    (hfuel : ∀ i : Nat, i < 4 →
      delta_value sqrt (i : Int) s.cur.x s.cur.y (constrain destination).x
          (constrain destination).y / (MOTOR_DIAMETER * PI) / (100 + 100 * (fuel : α))
        ≤ MAX_SPEED) :
    ∃ t s', get_time (fuel + 1) sqrt s destination = Except.ok (t, s') ∧ 100 ≤ t ∧
      s'.cur = s.cur ∧ motors_in_order s'.motors := by
  obtain ⟨s1, hd, hc, hord1⟩ := get_deltas_ok sqrt s.cur.x s.cur.y (constrain destination).x
    (constrain destination).y 4 0 s (by omega) hord
  unfold get_time
  simp only [N_MOTORS, hd]
  have h0 := aget_range_map
    (fun k => delta_value sqrt ((0 + k : Nat) : Int) s.cur.x s.cur.y (constrain destination).x
      (constrain destination).y) 4 0 (by omega)
  simp only [Nat.cast_zero] at h0
  rw [h0]
  simp only
  have hmem := foldl_max_mem
    ((List.range 4).map (fun k => delta_value sqrt ((0 + k : Nat) : Int) s.cur.x s.cur.y
      (constrain destination).x (constrain destination).y))
    (delta_value sqrt ((0 + 0 : Nat) : Int) s.cur.x s.cur.y (constrain destination).x
      (constrain destination).y)
  have hb : ∃ i : Nat, i < 4 ∧
      ((List.range 4).map (fun k => delta_value sqrt ((0 + k : Nat) : Int) s.cur.x s.cur.y
        (constrain destination).x (constrain destination).y)).foldl
        (fun m d => if d > m then d else m)
        (delta_value sqrt ((0 + 0 : Nat) : Int) s.cur.x s.cur.y (constrain destination).x
          (constrain destination).y) =
      delta_value sqrt (i : Int) s.cur.x s.cur.y (constrain destination).x
        (constrain destination).y := by
    rcases List.mem_cons.mp hmem with h | h
    · exact ⟨0, by omega, by rw [h]⟩
    · obtain ⟨k, hk, hkv⟩ := List.mem_map.mp h
      exact ⟨k, List.mem_range.mp hk, by rw [← hkv, Nat.zero_add]⟩
  obtain ⟨i, hi, hmax⟩ := hb
  obtain ⟨t, ht, hge⟩ := get_time_loop_ok
    (delta_value sqrt (i : Int) s.cur.x s.cur.y (constrain destination).x
      (constrain destination).y) fuel 100 (by norm_num) (hfuel i hi)
  rw [hmax, ht]
  exact ⟨t, s1, rfl, hge, hc, hord1⟩

end hoop_total

section motor_total

/-- A read below the length of the list succeeds. -/
theorem aget_lt_length {β : Type} (arr : List β) (i : Nat) (h : i < arr.length) :
    ∃ v, aget arr (i : Int) = Except.ok v := by
  unfold aget
  simp [List.getElem?_eq_getElem h]

/-- A collecting loop whose every iteration succeeds returns a list with one
entry per iteration. -/
theorem for_collect_ok {β : Type} (body : Nat → Except Fault β) :
    ∀ n : Nat, (∀ i, i < n → ∃ x, body i = Except.ok x) →
      ∃ xs, for_collect body n = Except.ok xs ∧ xs.length = n := by
  intro n
  induction n with
  | zero => intro _; exact ⟨[], rfl, rfl⟩
  | succ k ih =>
    intro h
    obtain ⟨xs, hxs, hlen⟩ := ih (fun i hi => h i (Nat.lt_succ_of_lt hi))
    obtain ⟨x, hx⟩ := h k (Nat.lt_succ_self k)
    refine ⟨xs ++ [x], ?_, by simp [hlen]⟩
    rw [for_collect, hxs, hx]

/-- The loop that writes the direction pins ends on a motor table in
order. -/
theorem write_directions_ok (motors : List motor_t) (hord : motors_in_order motors) :
    ∀ (remaining i : Nat) (hw : Hardware), i + remaining ≤ 4 →
      ∃ hw', write_directions motors remaining i hw = Except.ok hw' := by
  intro remaining
  induction remaining with
  | zero => intro i hw _; exact ⟨hw, rfl⟩
  | succ r ih =>
    intro i hw h
    obtain ⟨m, hm, _⟩ := hord i (by omega)
    rw [write_directions, hm]
    exact ih (i + 1) _ (by omega)

/-- With at least one step to make, the skip computation divides by no
zero. -/
theorem skip_of_ok (steps_i max_steps : Int) (h1 : 1 ≤ steps_i) :
    ∃ skip, skip_of steps_i max_steps = Except.ok skip := by
  unfold skip_of
  split_ifs with ha hb
  · simp only [cdiv, bind, Except.bind]
    rw [if_neg (by omega)]
    exact ⟨_, rfl⟩
  · simp only [cdiv, bind, Except.bind]
    rw [if_neg (by omega)]
    exact ⟨_, rfl⟩
  · exact ⟨_, rfl⟩

/-- The inner pulse loop ends when there is a skip for each motor. -/
theorem pulse_motors_ok (motors : List motor_t) (hord : motors_in_order motors)
    (skips : List Int) (hlen : skips.length = 4) (cycle_time_us : Int) (i : Nat) :
    ∀ (remaining j : Nat) (hw : Hardware), j + remaining ≤ 4 →
      ∃ hw', pulse_motors motors skips cycle_time_us i remaining j hw = Except.ok hw' := by
  intro remaining
  induction remaining with
  | zero => intro j hw _; exact ⟨hw, rfl⟩
  | succ r ih =>
    intro j hw h
    obtain ⟨skip, hs⟩ := aget_lt_length skips j (by omega)
    obtain ⟨m, hm, _⟩ := hord j (by omega)
    rw [pulse_motors, hs]
    simp only [hm]
    split_ifs
    · exact ih (j + 1) _ (by omega)
    · exact ih (j + 1) _ (by omega)

/-- The outer pulse loop ends when there is a skip for each motor. -/
theorem pulse_steps_ok (motors : List motor_t) (hord : motors_in_order motors)
    (skips : List Int) (hlen : skips.length = 4) (cycle_time_us : Int) :
    ∀ (remaining i : Nat) (hw : Hardware),
      ∃ hw', pulse_steps motors skips cycle_time_us remaining i hw = Except.ok hw' := by
  intro remaining
  induction remaining with
  | zero => intro i hw; exact ⟨hw, rfl⟩
  | succ r ih =>
    intro i hw
    obtain ⟨hw1, h1⟩ := pulse_motors_ok motors hord skips hlen cycle_time_us i 4 0 hw (by omega)
    rw [pulse_steps, h1]
    exact ih (i + 1) hw1

variable {α : Type} [LinearOrderedField α] [FloorRing α]

/-- On a motor table in order, `motor_turn_multiple` returns when each of the
four motors has at least one step to make. -/
theorem motor_turn_multiple_ok (motors : List motor_t) (hord : motors_in_order motors)
    (v : Nat → α) (time_ms : α) (hw : Hardware)
    (hsteps : ∀ k : Nat, k < 4 → 1 ≤ int_of_float (v k * time_ms * 360 / STEP_ANGLE)) :
    ∃ hw', motor_turn_multiple motors ((List.range 4).map v) time_ms hw = Except.ok hw' := by
  obtain ⟨hw1, hdir⟩ := write_directions_ok motors hord 4 0 hw (by omega)
  have hst : motor_steps ((List.range 4).map v) time_ms =
      Except.ok ((List.range 4).map (fun k => int_of_float (v k * time_ms * 360 / STEP_ANGLE))) := by
    unfold motor_steps
    apply for_collect_eq
    intro i hi
    rw [aget_range_map v 4 i hi]
    rfl
  have h0 := aget_range_map (fun k => int_of_float (v k * time_ms * 360 / STEP_ANGLE)) 4 0
    (by omega)
  simp only [Nat.cast_zero] at h0
  obtain ⟨hge0, hge⟩ := foldl_max_ge
    ((List.range 4).map (fun k => int_of_float (v k * time_ms * 360 / STEP_ANGLE)))
    (int_of_float (v 0 * time_ms * 360 / STEP_ANGLE))
  have hpos := hsteps 0 (by omega)
  obtain ⟨skips, hskips, hlen⟩ := for_collect_ok
    (fun i => do
      let s ← aget ((List.range 4).map
        (fun k => int_of_float (v k * time_ms * 360 / STEP_ANGLE))) (i : Int)
      skip_of s (((List.range 4).map
        (fun k => int_of_float (v k * time_ms * 360 / STEP_ANGLE))).foldl
        (fun max_steps s => if s > max_steps then s else max_steps)
        (int_of_float (v 0 * time_ms * 360 / STEP_ANGLE)))) 4
    (by
      intro i hi
      simp only [bind, Except.bind]
      rw [aget_range_map _ 4 i hi]
      exact skip_of_ok _ _ (hsteps i hi))
  have hne : (((((List.range 4).map
      (fun k => int_of_float (v k * time_ms * 360 / STEP_ANGLE))).foldl
      (fun max_steps s => if s > max_steps then s else max_steps)
      (int_of_float (v 0 * time_ms * 360 / STEP_ANGLE)) : Int)) : α) ≠ 0 := by
    have : (0 : Int) < ((List.range 4).map
      (fun k => int_of_float (v k * time_ms * 360 / STEP_ANGLE))).foldl
      (fun max_steps s => if s > max_steps then s else max_steps)
      (int_of_float (v 0 * time_ms * 360 / STEP_ANGLE)) := by omega
    exact_mod_cast ne_of_gt this
  unfold motor_turn_multiple
  simp only [bind, Except.bind, hdir, hst, max_of_steps, h0, pure, Except.pure]
  simp only [bind, Except.bind] at hskips
  rw [hskips, fdiv_ok _ _ hne]
  exact pulse_steps_ok motors hord skips hlen _ _ _ _

end motor_total

section hoop_speed_facts

variable {α : Type} [LinearOrderedField α]

/-- The speeds of `hoop_move` for a time step that is not zero. -/
theorem hoop_speeds_ok (d : Nat → α) (time_step : α) (ht : time_step ≠ 0) :
    hoop_speeds ((List.range 4).map d) time_step =
      Except.ok ((List.range 4).map (fun k => d k / (MOTOR_DIAMETER * PI) / time_step)) := by
  unfold hoop_speeds
  apply for_collect_eq
  intro i hi
  simp only [bind, Except.bind]
  rw [aget_range_map d 4 i hi]
  exact fdiv_ok _ _ ht

end hoop_speed_facts

section hoop_move_total

variable {α : Type} [LinearOrderedField α] [FloorRing α]

/-- A change of length of at least 1 mm makes at least one step, whatever the
time step. -/
theorem int_of_float_speed (d time_step : α) (hd : 1 ≤ d) (ht : 0 < time_step) :
    1 ≤ int_of_float (d / (MOTOR_DIAMETER * PI) / time_step * time_step * 360 / STEP_ANGLE) := by
  have e : d / (MOTOR_DIAMETER * PI) / time_step * time_step * 360 / STEP_ANGLE =
      d * (2000000 / 722545) := by
    unfold MOTOR_DIAMETER PI STEP_ANGLE
    field_simp
    ring
  have h1 : (1 : α) ≤ d * (2000000 / 722545) := by
    have : (1 : α) ≤ 2000000 / 722545 := by norm_num
    nlinarith
  rw [e]
  unfold int_of_float
  rw [if_pos (by linarith)]
  exact Int.le_floor.mpr (by exact_mod_cast h1)

/-- The outer loop of `hoop_move` runs to its end when the motor table is in
order, the time step is positive and in each remaining iteration every motor's
length changes by at least 1 mm.  The positions are `(cx, cy)` plus multiples
of the step. -/
theorem hoop_move_loop_ok (sqrt : α → α) (time_step x_step y_step cx cy : α)
    (ht : 0 < time_step) :
    ∀ (remaining j : Nat) (new_x new_y : α) (s : hoop_state α) (hw : Hardware),
      motors_in_order s.motors →
      s.cur = { x := cx + (j : α) * x_step, y := cy + (j : α) * y_step } →
      new_x = cx + ((j : α) + 1) * x_step → new_y = cy + ((j : α) + 1) * y_step →
      (∀ k : Nat, j ≤ k → k < j + remaining → ∀ i : Nat, i < 4 →
        1 ≤ delta_value sqrt (i : Int) (cx + (k : α) * x_step) (cy + (k : α) * y_step)
          (cx + ((k : α) + 1) * x_step) (cy + ((k : α) + 1) * y_step)) →
      ∃ s' hw', hoop_move_loop sqrt time_step x_step y_step remaining new_x new_y s hw =
        Except.ok (s', hw') := by
  intro remaining
  induction remaining with
  | zero => intro j new_x new_y s hw _ _ _ _ _; exact ⟨s, hw, rfl⟩
  | succ r ih =>
    intro j new_x new_y s hw hord hcur hnx hny hmove
    obtain ⟨s1, hd, hc1, hord1⟩ := get_deltas_ok sqrt s.cur.x s.cur.y new_x new_y 4 0 s
      (by omega) hord
    have hsp := hoop_speeds_ok
      (fun k => delta_value sqrt ((0 + k : Nat) : Int) s.cur.x s.cur.y new_x new_y) time_step
      (ne_of_gt ht)
    obtain ⟨hw1, hturn⟩ := motor_turn_multiple_ok s1.motors hord1
      (fun k => delta_value sqrt ((0 + k : Nat) : Int) s.cur.x s.cur.y new_x new_y /
        (MOTOR_DIAMETER * PI) / time_step) time_step hw
      (by
        intro k hk
        apply int_of_float_speed _ _ _ ht
        have := hmove j (le_refl j) (by omega) k hk
        rw [hcur, hnx, hny, Nat.zero_add]
        exact this)
    rw [hoop_move_loop]
    simp only [N_MOTORS, hd, hsp, hturn]
    apply ih (j + 1)
    · exact hord1
    · simp only [hnx, hny]
      push_cast
      rfl
    · rw [hnx]; push_cast; ring
    · rw [hny]; push_cast; ring
    · intro k hk1 hk2 i hi
      exact hmove k (by omega) (by omega) i hi

/-- `hoop_move` returns when the motor table is in order, the `while` loop of
`get_time` has fuel for the largest change of length towards the constrained
destination, and in each of the 20 steps every motor's length changes by at
least 1 mm. -/
theorem hoop_move_ok (fuel : Nat) (sqrt : α → α) (s : hoop_state α)
    (destination : board_pos_t α) (hw : Hardware) (hord : motors_in_order s.motors)
    (hfuel : ∀ i : Nat, i < 4 →
      delta_value sqrt (i : Int) s.cur.x s.cur.y (constrain destination).x
          (constrain destination).y / (MOTOR_DIAMETER * PI) / (100 + 100 * (fuel : α))
        ≤ MAX_SPEED)
    (hmove : ∀ k : Nat, k < 20 → ∀ i : Nat, i < 4 →
      1 ≤ delta_value sqrt (i : Int)
        (s.cur.x + (k : α) * ((destination.x - s.cur.x) / 20))
        (s.cur.y + (k : α) * ((destination.y - s.cur.y) / 20))
        (s.cur.x + ((k : α) + 1) * ((destination.x - s.cur.x) / 20))
        (s.cur.y + ((k : α) + 1) * ((destination.y - s.cur.y) / 20))) :
    ∃ s' hw', hoop_move (fuel + 1) sqrt s destination hw = Except.ok (s', hw') := by
  obtain ⟨t, s1, hgt, ht, hc, hord1⟩ := get_time_ok fuel sqrt s destination hord hfuel
  unfold hoop_move
  simp only [hgt, NUM_STEPS]
  have e20 : ((20 : Nat) : α) = 20 := by norm_num
  rw [e20, hc]
  apply hoop_move_loop_ok sqrt (t / 20) _ _ s.cur.x s.cur.y (by linarith) 20 0 _ _ s1 hw hord1
  · rw [hc]; simp
  · simp
  · simp
  · intro k _ hk i hi
    exact hmove k (by omega) i hi

end hoop_move_total

section hoop_witness

/-- The example motor table is in order. -/
theorem example_hoop_in_order : motors_in_order example_hoop.motors := by
  intro i hi
  interval_cases i <;> exact ⟨_, rfl, rfl⟩

/-- From `(0, -550)` towards the constrained destination `(0, 100)` no motor's
length changes by more than 516 mm, which 51 tests of the `while` loop of
`get_time` cover. -/
theorem example_hoop_fuel : ∀ i : Nat, i < 4 →
    delta_value sqrtQ (i : Int) example_hoop.cur.x example_hoop.cur.y
        (constrain ({ x := 0, y := 450 } : board_pos_t ℚ)).x
        (constrain ({ x := 0, y := 450 } : board_pos_t ℚ)).y /
      (MOTOR_DIAMETER * PI) / (100 + 100 * ((50 : Nat) : ℚ)) ≤ MAX_SPEED := by
  intro i hi
  interval_cases i <;>
    norm_num [delta_value, motor_offset, constrain, cmin, cmax, sqrtQ, example_hoop,
      X1, Y1, X2, Y2, X3, Y3, X4, Y4, MOTOR_DIAMETER, PI, MAX_SPEED, HOOP_BOUND_WIDTH,
      HOOP_BOUND_HEIGHT]

set_option maxHeartbeats 4000000 in
/-- In each of the 20 steps from `(0, -550)` to `(0, 450)` every motor's
length changes by at least 1 mm. -/
theorem example_hoop_moves : ∀ k : Nat, k < 20 → ∀ i : Nat, i < 4 →
    1 ≤ delta_value sqrtQ (i : Int)
      (example_hoop.cur.x + (k : ℚ) * ((({ x := 0, y := 450 } : board_pos_t ℚ).x -
        example_hoop.cur.x) / 20))
      (example_hoop.cur.y + (k : ℚ) * ((({ x := 0, y := 450 } : board_pos_t ℚ).y -
        example_hoop.cur.y) / 20))
      (example_hoop.cur.x + ((k : ℚ) + 1) * ((({ x := 0, y := 450 } : board_pos_t ℚ).x -
        example_hoop.cur.x) / 20))
      (example_hoop.cur.y + ((k : ℚ) + 1) * ((({ x := 0, y := 450 } : board_pos_t ℚ).y -
        example_hoop.cur.y) / 20)) := by
  intro k hk i hi
  interval_cases k <;> interval_cases i <;>
    norm_num [delta_value, motor_offset, sqrtQ, example_hoop, X1, Y1, X2, Y2, X3, Y3, X4, Y4]

/-- Witness of C20: the hoop at `(0, -550)` as `hoop_init` leaves it, sent
to `(0, 450)`.  `hoop_move` returns and records `(0, 450)`; the destination
constrained to the bounds is `(0, 100)`. -/
theorem hoop_move_records_destination_unconstrained_witness :
    ∃ s' hw', hoop_move 51 sqrtQ example_hoop { x := 0, y := 450 } (example_hardware []) =
        Except.ok (s', hw') ∧
      s'.cur = { x := 0, y := 450 } ∧
      s'.cur ≠ constrain ({ x := 0, y := 450 } : board_pos_t ℚ) ∧
      constrain ({ x := 0, y := 450 } : board_pos_t ℚ) = { x := 0, y := 100 } :=
  let ⟨s', hw', h⟩ := hoop_move_ok 50 sqrtQ example_hoop { x := 0, y := 450 }
    (example_hardware []) example_hoop_in_order example_hoop_fuel example_hoop_moves
  ⟨s', hw', h,
   (hoop_move_records_destination_unconstrained 51 sqrtQ example_hoop s' { x := 0, y := 450 }
      (example_hardware []) hw' h).1,
   (hoop_move_records_destination_unconstrained 51 sqrtQ example_hoop s' { x := 0, y := 450 }
      (example_hardware []) hw' h).2 (Or.inr (Or.inr (Or.inl (by norm_num)))),
   by norm_num [constrain, cmin, cmax, HOOP_BOUND_WIDTH, HOOP_BOUND_HEIGHT]⟩

end hoop_witness

section advance

/-- `countdown_enable` does not write the load. -/
theorem countdown_get_load_enable (c : countdown_t) :
    countdown_get_load (countdown_enable c) = countdown_get_load c := by
  unfold countdown_get_load countdown_enable
  rfl

/-- C21: with ranging active, when the sensor that just completed is the last
one and `sonic_rb_enqueue` returns false for the snapshot, `next_sensor`
leaves the buffered readings as they were, sets the sensor index to 0 and
still schedules `start_trigger`: it is the handler, the timer is enabled and
`countdown_get_load` reads the cycle delay, or the unit delay when the cycle
delay is below `SONIC_MIN_DELAY`; the buffer after the last sensor is in any
case what `sonic_rb_enqueue` returns for the snapshot; when the sensor is not
the last one, nothing is handed to the buffer, the index advances by exactly
one and `start_trigger` is scheduled after the unit delay: it is the handler,
the timer is enabled, and `countdown_get_load` and `countdown_get_reload` read
the unit delay. -/
theorem next_sensor_full_buffer_discards_snapshot (s : System)
    (hactive : s.state.is_active = true) :
    (s.state.curr_sensor = s.state.n_sensors - 1 →
      (sonic_rb_enqueue s.state.arr_readings
        (s.state.curr_data.take s.state.n_sensors.toNat)).1 = false →
      (next_sensor s).state.arr_readings = s.state.arr_readings ∧
      (next_sensor s).state.curr_sensor = 0 ∧
      (next_sensor s).cd_state.handler = some handler_fn_t.start_trigger ∧
      countdown_is_enabled (next_sensor s).countdown = true ∧
      (s.state.cycle_delay < 2 ^ 32 → s.state.unit_delay < 2 ^ 32 →
        countdown_get_load (next_sensor s).countdown =
          if s.state.cycle_delay < SONIC_MIN_DELAY then s.state.unit_delay
          else s.state.cycle_delay)) ∧
    (s.state.curr_sensor = s.state.n_sensors - 1 →
      (next_sensor s).state.arr_readings =
        (sonic_rb_enqueue s.state.arr_readings
          (s.state.curr_data.take s.state.n_sensors.toNat)).2) ∧
    (s.state.curr_sensor ≠ s.state.n_sensors - 1 →
      (next_sensor s).state.arr_readings = s.state.arr_readings ∧
      (next_sensor s).state.curr_sensor = s.state.curr_sensor + 1 ∧
      (next_sensor s).cd_state.handler = some handler_fn_t.start_trigger ∧
      (next_sensor s).countdown =
        countdown_enable (countdown_set_ticks s.state.unit_delay s.countdown) ∧
      countdown_is_enabled (next_sensor s).countdown = true ∧
      (s.state.unit_delay < 2 ^ 32 →
        countdown_get_load (next_sensor s).countdown = s.state.unit_delay ∧
        countdown_get_reload (next_sensor s).countdown = s.state.unit_delay)) := by
  refine ⟨?_, ?_, ?_⟩
  · intro hlast hfull
    have hrb : (sonic_rb_enqueue s.state.arr_readings
        (s.state.curr_data.take s.state.n_sensors.toNat)).2 = s.state.arr_readings := by
      unfold sonic_rb_enqueue at hfull ⊢
      by_cases hc : s.state.arr_readings.queue.length ≥ s.state.arr_readings.capacity
      · rw [if_pos hc]
      · rw [if_neg hc] at hfull
        simp at hfull
    have hc : (next_sensor s).countdown =
        countdown_enable (countdown_set_ticks
          (if s.state.cycle_delay < SONIC_MIN_DELAY then s.state.unit_delay
           else s.state.cycle_delay) s.countdown) := by
      unfold next_sensor
      simp only [hactive, Bool.not_true, Bool.false_eq_true, if_false, hlast, if_true]
      rfl
    refine ⟨?_, ?_, ?_, ?_, ?_⟩
    · unfold next_sensor
      simp only [hactive, Bool.not_true, Bool.false_eq_true, if_false, hlast, if_true]
      exact hrb
    · unfold next_sensor
      simp only [hactive, Bool.not_true, Bool.false_eq_true, if_false, hlast, if_true]
      rfl
    · unfold next_sensor
      simp only [hactive, Bool.not_true, Bool.false_eq_true, if_false, hlast, if_true]
      rfl
    · rw [hc]; rfl
    · intro h1 h2
      rw [hc, countdown_get_load_enable]
      split
      · exact countdown_get_load_set_ticks _ h2 _
      · exact countdown_get_load_set_ticks _ h1 _
  · intro hlast
    unfold next_sensor
    simp only [hactive, Bool.not_true, Bool.false_eq_true, if_false, hlast, if_true]
    rfl
  · intro hnot
    have hc : (next_sensor s).countdown =
        countdown_enable (countdown_set_ticks s.state.unit_delay s.countdown) := by
      unfold next_sensor
      simp only [hactive, Bool.not_true, Bool.false_eq_true, if_false, hnot]
      rfl
    refine ⟨?_, ?_, ?_, hc, by rw [hc]; rfl, ?_⟩
    · unfold next_sensor
      simp only [hactive, Bool.not_true, Bool.false_eq_true, if_false, hnot]
      rfl
    · unfold next_sensor
      simp only [hactive, Bool.not_true, Bool.false_eq_true, if_false, hnot]
      rfl
    · unfold next_sensor
      simp only [hactive, Bool.not_true, Bool.false_eq_true, if_false, hnot]
      rfl
    · intro h
      rw [hc]
      exact ⟨by rw [countdown_get_load_enable]; exact countdown_get_load_set_ticks _ h _,
        by
          unfold countdown_get_reload countdown_enable countdown_set_ticks usub
          show (((s.state.unit_delay % 2 ^ 32 + 2 ^ 32 - 1 % 2 ^ 32) % 2 ^ 32) + 1) % 2 ^ 32 = _
          omega⟩

/-- Witness of C21: four sensors and a buffer of capacity 1 that holds one
cycle; once with the last sensor (index 3) just completed, cycle delay 5000
and unit delay 700, once with sensor 1 just completed and unit delay 700. -/
theorem next_sensor_full_buffer_discards_snapshot_witness :
    ((next_sensor (example_system (cycle_end_config 3 5000 700) [])).state.arr_readings =
        (example_system (cycle_end_config 3 5000 700) []).state.arr_readings ∧
      (next_sensor (example_system (cycle_end_config 3 5000 700) [])).state.curr_sensor = 0 ∧
      (next_sensor (example_system (cycle_end_config 3 5000 700) [])).cd_state.handler =
        some handler_fn_t.start_trigger ∧
      countdown_is_enabled (next_sensor (example_system (cycle_end_config 3 5000 700) [])).countdown
        = true ∧
      countdown_get_load (next_sensor (example_system (cycle_end_config 3 5000 700) [])).countdown
        = 5000) ∧
    ((next_sensor (example_system (cycle_end_config 1 0 700) [])).state.arr_readings =
        (example_system (cycle_end_config 1 0 700) []).state.arr_readings ∧
      (next_sensor (example_system (cycle_end_config 1 0 700) [])).state.curr_sensor = 2 ∧
      (next_sensor (example_system (cycle_end_config 1 0 700) [])).cd_state.handler =
        some handler_fn_t.start_trigger ∧
      countdown_is_enabled (next_sensor (example_system (cycle_end_config 1 0 700) [])).countdown
        = true ∧
      countdown_get_load (next_sensor (example_system (cycle_end_config 1 0 700) [])).countdown
        = 700) := by
  obtain ⟨h1, h2, h3, h4, h5⟩ :=
    (next_sensor_full_buffer_discards_snapshot
      (example_system (cycle_end_config 3 5000 700) []) rfl).1 rfl rfl
  obtain ⟨k1, k2, k3, _, k5, k6⟩ :=
    (next_sensor_full_buffer_discards_snapshot
      (example_system (cycle_end_config 1 0 700) []) rfl).2.2 (by decide)
  exact ⟨⟨h1, h2, h3, h4, h5 (by norm_num [example_system, cycle_end_config])
      (by norm_num [example_system, cycle_end_config, example_config, SONIC_MIN_DELAY])⟩,
    ⟨k1, k2, k3, k5, (k6 (by norm_num [example_system, cycle_end_config])).1⟩⟩

/-- Counterexample to C26 as stated: with `cycle_delay = 0` and
`unit_delay = 1000`, at the end of a cycle `next_sensor` schedules
`start_trigger` after 1000 microseconds, where the larger of the cycle delay
and `SONIC_MIN_DELAY` is 1. -/
theorem next_sensor_cycle_delay_not_max :
    countdown_get_load (next_sensor (example_system (cycle_end_config 3 0 1000) [])).countdown
      = 1000 ∧
    (next_sensor (example_system (cycle_end_config 3 0 1000) [])).cd_state.handler =
      some handler_fn_t.start_trigger ∧
    max (cycle_end_config 3 0 1000).cycle_delay SONIC_MIN_DELAY = 1 :=
  ⟨rfl, rfl, rfl⟩

/-- C26, amended: with ranging active, when the last sensor of a cycle
completes, `next_sensor` schedules `start_trigger` after the cycle delay when
that is at least `SONIC_MIN_DELAY`, and after the unit delay otherwise, as
`sonic.h` documents for `sonic_set_unit_delay`. -/
theorem next_sensor_cycle_delay_or_unit_delay (s : System)
    (hactive : s.state.is_active = true)
    (hlast : s.state.curr_sensor = s.state.n_sensors - 1) :
    (next_sensor s).cd_state.handler = some handler_fn_t.start_trigger ∧
    (next_sensor s).countdown =
      countdown_enable (countdown_set_ticks
        (if s.state.cycle_delay < SONIC_MIN_DELAY then s.state.unit_delay
         else s.state.cycle_delay) s.countdown) ∧
    (SONIC_MIN_DELAY ≤ s.state.cycle_delay → s.state.cycle_delay < 2 ^ 32 →
      countdown_get_load (next_sensor s).countdown = s.state.cycle_delay) ∧
    (s.state.cycle_delay < SONIC_MIN_DELAY → s.state.unit_delay < 2 ^ 32 →
      countdown_get_load (next_sensor s).countdown = s.state.unit_delay) := by
  have hc : (next_sensor s).countdown =
      countdown_enable (countdown_set_ticks
        (if s.state.cycle_delay < SONIC_MIN_DELAY then s.state.unit_delay
         else s.state.cycle_delay) s.countdown) := by
    unfold next_sensor
    simp only [hactive, Bool.not_true, Bool.false_eq_true, if_false, hlast, if_true]
    rfl
  refine ⟨?_, hc, ?_, ?_⟩
  · unfold next_sensor
    simp only [hactive, Bool.not_true, Bool.false_eq_true, if_false, hlast, if_true]
    rfl
  · intro hge hlt
    rw [hc, countdown_get_load_enable, if_neg (by omega),
      countdown_get_load_set_ticks _ hlt]
  · intro hsmall hlt
    rw [hc, countdown_get_load_enable, if_pos hsmall, countdown_get_load_set_ticks _ hlt]

/-- Witness of C26: a cycle delay of 5000 is used as it is; a cycle delay of
0 gives the unit delay 1000. -/
theorem next_sensor_cycle_delay_or_unit_delay_witness :
    countdown_get_load (next_sensor (example_system (cycle_end_config 3 5000 1000) [])).countdown
      = (example_system (cycle_end_config 3 5000 1000) []).state.cycle_delay ∧
    countdown_get_load (next_sensor (example_system (cycle_end_config 3 0 1000) [])).countdown
      = (example_system (cycle_end_config 3 0 1000) []).state.unit_delay :=
  ⟨(next_sensor_cycle_delay_or_unit_delay (example_system (cycle_end_config 3 5000 1000) [])
      rfl rfl).2.2.1 (by decide) (by norm_num [example_system, cycle_end_config]),
   (next_sensor_cycle_delay_or_unit_delay (example_system (cycle_end_config 3 0 1000) [])
      rfl rfl).2.2.2 (by decide) (by norm_num [example_system, cycle_end_config])⟩

end advance

section handlers

/-- A successful write is the list with the entry replaced, at an index
inside the list. -/
theorem aset_ok {β : Type} (arr arr' : List β) (i : Int) (v : β)
    (h : aset arr i v = Except.ok arr') :
    0 ≤ i ∧ i.toNat < arr.length ∧ arr' = arr.set i.toNat v := by
  unfold aset at h
  split at h
  · rename_i hc
    simp only [Except.ok.injEq] at h
    exact ⟨hc.1, hc.2, h.symm⟩
  · simp at h

/-- The `timeout` callback while an echo is awaited, with the sensor index
inside the array of in-progress readings. -/
theorem timeout_awaiting (s : System) (hawait : s.state.awaiting_echo = true)
    (h0 : 0 ≤ s.state.curr_sensor) (hlt : s.state.curr_sensor.toNat < s.state.curr_data.length) :
    timeout s = Except.ok (next_sensor
      { s with state := { s.state with
          awaiting_echo := false,
          curr_data := s.state.curr_data.set s.state.curr_sensor.toNat
            (some { distance := SONIC_INVALID_READING,
                    timestamp := int_of_unsigned s.state.curr_trigger_timestamp }) } }) := by
  unfold timeout
  simp only [hawait, Bool.not_true, Bool.false_eq_true, if_false, aset, h0, hlt, and_self,
    if_true, bind, Except.bind, pure, Except.pure]

/-- Whenever the `timeout` callback returns while an echo is awaited, it has
done the write above. -/
theorem timeout_awaiting_returns (s s' : System) (hawait : s.state.awaiting_echo = true)
    (h : timeout s = Except.ok s') :
    0 ≤ s.state.curr_sensor ∧ s.state.curr_sensor.toNat < s.state.curr_data.length ∧
    s' = next_sensor
      { s with state := { s.state with
          awaiting_echo := false,
          curr_data := s.state.curr_data.set s.state.curr_sensor.toNat
            (some { distance := SONIC_INVALID_READING,
                    timestamp := int_of_unsigned s.state.curr_trigger_timestamp }) } } := by
  have hr : 0 ≤ s.state.curr_sensor ∧ s.state.curr_sensor.toNat < s.state.curr_data.length := by
    by_contra hc
    unfold timeout at h
    simp only [hawait, Bool.not_true, Bool.false_eq_true, if_false, aset, hc, if_false, bind,
      Except.bind] at h
    simp at h
  rw [timeout_awaiting s hawait hr.1 hr.2] at h
  simp only [Except.ok.injEq] at h
  exact ⟨hr.1, hr.2, h.symm⟩

/-- `process_echo` on an awaited echo, with the sensor index inside both
arrays. -/
theorem process_echo_awaiting (s : System) (sensor : sonic_sensor_t)
    (hactive : s.state.is_active = true) (hawait : s.state.awaiting_echo = true)
    (h0 : 0 ≤ s.state.curr_sensor) (hlt : s.state.curr_sensor.toNat < s.state.curr_data.length)
    (hs : aget s.state.sensors s.state.curr_sensor = Except.ok sensor) :
    process_echo s = Except.ok (true, next_sensor
      { s with
        hw := gpio_clear_event sensor.echo (timer_get_ticks s.hw).2,
        state := { s.state with
          awaiting_echo := false,
          curr_data := s.state.curr_data.set s.state.curr_sensor.toNat
            (some { distance := distance_of_elapsed
                      (usub (timer_get_ticks s.hw).1 s.state.curr_trigger_timestamp),
                    timestamp := int_of_unsigned (s.state.curr_trigger_timestamp +
                      usub (timer_get_ticks s.hw).1 s.state.curr_trigger_timestamp / 2) }) } }) := by
  unfold process_echo
  simp only [hactive, hawait, Bool.not_true, Bool.false_eq_true, if_false, aset, h0, hlt,
    and_self, if_true, bind, Except.bind, hs, pure, Except.pure]

/-- Whenever `process_echo` returns on an awaited echo, it has returned true
after the write above. -/
theorem process_echo_awaiting_returns (s s' : System) (ret : Bool)
    (hactive : s.state.is_active = true) (hawait : s.state.awaiting_echo = true)
    (h : process_echo s = Except.ok (ret, s')) :
    ret = true ∧ 0 ≤ s.state.curr_sensor ∧
    s.state.curr_sensor.toNat < s.state.curr_data.length ∧
    ∃ sensor, aget s.state.sensors s.state.curr_sensor = Except.ok sensor ∧
    s' = next_sensor
      { s with
        hw := gpio_clear_event sensor.echo (timer_get_ticks s.hw).2,
        state := { s.state with
          awaiting_echo := false,
          curr_data := s.state.curr_data.set s.state.curr_sensor.toNat
            (some { distance := distance_of_elapsed
                      (usub (timer_get_ticks s.hw).1 s.state.curr_trigger_timestamp),
                    timestamp := int_of_unsigned (s.state.curr_trigger_timestamp +
                      usub (timer_get_ticks s.hw).1 s.state.curr_trigger_timestamp / 2) }) } } := by
  have hr : 0 ≤ s.state.curr_sensor ∧ s.state.curr_sensor.toNat < s.state.curr_data.length := by
    by_contra hc
    unfold process_echo at h
    simp only [hactive, hawait, Bool.not_true, Bool.false_eq_true, if_false, aset, hc, bind,
      Except.bind] at h
    simp at h
  cases hs : aget s.state.sensors s.state.curr_sensor with
  | error e =>
    unfold process_echo at h
    simp only [hactive, hawait, Bool.not_true, Bool.false_eq_true, if_false, aset, hr.1, hr.2,
      and_self, if_true, bind, Except.bind, hs] at h
    simp at h
  | ok sensor =>
    rw [process_echo_awaiting s sensor hactive hawait hr.1 hr.2 hs] at h
    simp only [Except.ok.injEq, Prod.mk.injEq] at h
    exact ⟨h.1.symm, hr.1, hr.2, sensor, rfl, h.2.symm⟩

/-- The entry at an index inside the list after a write there. -/
theorem aget_set_self {β : Type} (arr : List β) (i : Int) (v : β) (h0 : 0 ≤ i)
    (hlt : i.toNat < arr.length) : aget (arr.set i.toNat v) i = Except.ok v := by
  unfold aget
  rw [if_pos h0]
  simp [hlt]

/-- With ranging active `next_sensor` moves the index on by one, or back to
0 after the last sensor. -/
theorem next_sensor_curr_sensor (s : System) (hactive : s.state.is_active = true) :
    (next_sensor s).state.curr_sensor =
      if s.state.curr_sensor = s.state.n_sensors - 1 then 0 else s.state.curr_sensor + 1 := by
  unfold next_sensor
  simp only [hactive, Bool.not_true, Bool.false_eq_true, if_false]
  split <;> rfl

/-- A loop that clears the pending events of the echo pins makes no read and
adds only `gpio_clear_event` calls to the call log. -/
theorem sensor_loop_clear_events (sensors : List sonic_sensor_t) :
    ∀ (remaining i : Nat) (hw hw' : Hardware),
      sensor_loop sensors (fun sensor hw => gpio_clear_event sensor.echo hw) remaining i hw =
        Except.ok hw' →
      hw'.input = hw.input ∧ hw'.cursor = hw.cursor ∧
      ∃ evs, hw'.log = hw.log ++ evs ∧ ∀ e ∈ evs, ∃ pin, e = IOEvent.gpio_clear_event pin := by
  intro remaining
  induction remaining with
  | zero =>
    intro i hw hw' h
    simp only [sensor_loop, Except.ok.injEq] at h
    rw [← h]
    exact ⟨rfl, rfl, [], by simp, by simp⟩
  | succ r ih =>
    intro i hw hw' h
    rw [sensor_loop] at h
    split at h
    · simp at h
    · rename_i sensor hs
      obtain ⟨h1, h2, evs, h3, h4⟩ := ih _ _ _ h
      refine ⟨h1, h2, IOEvent.gpio_clear_event sensor.echo :: evs, ?_, ?_⟩
      · rw [h3]
        simp [gpio_clear_event]
      · intro e he
        rcases List.mem_cons.mp he with rfl | he
        · exact ⟨_, rfl⟩
        · exact h4 e he

end handlers

section handler_claims

/-- C24: in every state where `awaiting_echo` is false, the `timeout` callback
returns the system as it was, and `process_echo`, whenever it returns, leaves
the module state (readings, sensor index, awaiting flag, buffer) and the timer
as they were, makes no read, and adds only `gpio_clear_event` calls to the
call log.  In a state where `awaiting_echo` is true, whichever of the two runs
(with ranging active) writes the reading of the current sensor, moves the
index on and clears the flag, so that the other one finds the flag false. -/
theorem awaiting_echo_makes_race_single_claim (s : System) :
    (s.state.awaiting_echo = false →
      timeout s = Except.ok s ∧
      ∀ ret s', process_echo s = Except.ok (ret, s') →
        s'.state = s.state ∧ s'.cd_state = s.cd_state ∧ s'.countdown = s.countdown ∧
        s'.hw.input = s.hw.input ∧ s'.hw.cursor = s.hw.cursor ∧
        ∃ evs, s'.hw.log = s.hw.log ++ evs ∧
          ∀ e ∈ evs, ∃ pin, e = IOEvent.gpio_clear_event pin) ∧
    (s.state.awaiting_echo = true → s.state.is_active = true →
      (∀ s', timeout s = Except.ok s' →
        s'.state.awaiting_echo = false ∧
        aget s'.state.curr_data s.state.curr_sensor =
          Except.ok (some { distance := SONIC_INVALID_READING,
                            timestamp := int_of_unsigned s.state.curr_trigger_timestamp }) ∧
        s'.state.curr_sensor =
          (if s.state.curr_sensor = s.state.n_sensors - 1 then 0
           else s.state.curr_sensor + 1)) ∧
      (∀ ret s', process_echo s = Except.ok (ret, s') →
        s'.state.awaiting_echo = false ∧
        aget s'.state.curr_data s.state.curr_sensor =
          Except.ok (some { distance := distance_of_elapsed
                              (usub (timer_get_ticks s.hw).1 s.state.curr_trigger_timestamp),
                            timestamp := int_of_unsigned (s.state.curr_trigger_timestamp +
                              usub (timer_get_ticks s.hw).1 s.state.curr_trigger_timestamp / 2) }) ∧
        s'.state.curr_sensor =
          (if s.state.curr_sensor = s.state.n_sensors - 1 then 0
           else s.state.curr_sensor + 1))) := by
  refine ⟨?_, ?_⟩
  · intro hno
    refine ⟨?_, ?_⟩
    · unfold timeout
      simp only [hno, Bool.not_false, if_true]
    · intro ret s' h
      unfold process_echo at h
      cases hact : s.state.is_active with
      | false =>
        simp only [hact, Bool.not_false, if_true, Except.ok.injEq, Prod.mk.injEq] at h
        rw [← h.2]
        exact ⟨rfl, rfl, rfl, rfl, rfl, [], by simp, by simp⟩
      | true =>
        simp only [hact, hno, Bool.not_true, Bool.false_eq_true, if_false, Bool.not_false, if_true,
          bind, Except.bind] at h
        split at h
        · simp at h
        · rename_i hw1 hl
          simp only [pure, Except.pure, Except.ok.injEq, Prod.mk.injEq] at h
          rw [← h.2]
          obtain ⟨h1, h2, h3⟩ := sensor_loop_clear_events _ _ _ _ _ hl
          exact ⟨rfl, rfl, rfl, h1, h2, h3⟩
  · intro hawait hactive
    refine ⟨?_, ?_⟩
    · intro s' h
      obtain ⟨h0, hlt, hs'⟩ := timeout_awaiting_returns s s' hawait h
      rw [hs']
      refine ⟨?_, ?_, ?_⟩
      · rw [(next_sensor_curr_data _).2]
      · rw [(next_sensor_curr_data _).1]
        exact aget_set_self _ _ _ h0 hlt
      · exact next_sensor_curr_sensor _ hactive
    · intro ret s' h
      obtain ⟨_, h0, hlt, sensor, _, hs'⟩ := process_echo_awaiting_returns s s' ret hactive hawait h
      rw [hs']
      refine ⟨?_, ?_, ?_⟩
      · rw [(next_sensor_curr_data _).2]
      · rw [(next_sensor_curr_data _).1]
        exact aget_set_self _ _ _ h0 hlt
      · exact next_sensor_curr_sensor _ hactive

end handler_claims

section handler_witnesses

/-- Witness of C24: with no echo awaited, `timeout` and `process_echo` leave
the state alone; with the echo of sensor 1 awaited, each of them writes the
reading of sensor 1, moves on to sensor 2 and clears the flag. -/
theorem awaiting_echo_makes_race_single_claim_witness :
    (timeout (example_system (cycle_end_config 3 0 1) []) =
        Except.ok (example_system (cycle_end_config 3 0 1) []) ∧
      ∃ s', process_echo (example_system (cycle_end_config 3 0 1) []) = Except.ok (true, s') ∧
        s'.state = (example_system (cycle_end_config 3 0 1) []).state ∧
        s'.cd_state = (example_system (cycle_end_config 3 0 1) []).cd_state ∧
        s'.countdown = (example_system (cycle_end_config 3 0 1) []).countdown) ∧
    (∃ s', timeout (example_system (awaiting_config true 1) [1010]) = Except.ok s' ∧
      s'.state.awaiting_echo = false ∧
      aget s'.state.curr_data 1 = Except.ok (some { distance := -1, timestamp := 1000 }) ∧
      s'.state.curr_sensor = 2) ∧
    (∃ s', process_echo (example_system (awaiting_config true 1) [1010]) = Except.ok (true, s') ∧
      s'.state.awaiting_echo = false ∧
      aget s'.state.curr_data 1 = Except.ok (some { distance := 1, timestamp := 1005 }) ∧
      s'.state.curr_sensor = 2) :=
  ⟨⟨((awaiting_echo_makes_race_single_claim
        (example_system (cycle_end_config 3 0 1) [])).1 rfl).1,
    _, rfl,
    (((awaiting_echo_makes_race_single_claim
        (example_system (cycle_end_config 3 0 1) [])).1 rfl).2 true _ rfl).1,
    (((awaiting_echo_makes_race_single_claim
        (example_system (cycle_end_config 3 0 1) [])).1 rfl).2 true _ rfl).2.1,
    (((awaiting_echo_makes_race_single_claim
        (example_system (cycle_end_config 3 0 1) [])).1 rfl).2 true _ rfl).2.2.1⟩,
   ⟨_, rfl,
    ((awaiting_echo_makes_race_single_claim
        (example_system (awaiting_config true 1) [1010])).2 rfl rfl).1 _ rfl⟩,
   ⟨_, rfl,
    ((awaiting_echo_makes_race_single_claim
        (example_system (awaiting_config true 1) [1010])).2 rfl rfl).2 true _ rfl⟩⟩

/-- The stored distance is `elapsed * 0.343 / 2` rounded down. -/
theorem distance_of_elapsed_floor (elapsed : Nat) :
    distance_of_elapsed elapsed = ⌊(elapsed : ℚ) * (343 / 1000) / 2⌋ := by
  unfold distance_of_elapsed
  symm
  rw [Int.floor_eq_iff]
  have hdm := Nat.div_add_mod (elapsed * 343) 2000
  have hlt := Nat.mod_lt (elapsed * 343) (by norm_num : 2000 > 0)
  have hq : (2000 : ℚ) * ((elapsed * 343 / 2000 : Nat) : ℚ) + ((elapsed * 343 % 2000 : Nat) : ℚ)
      = (elapsed : ℚ) * 343 := by exact_mod_cast hdm
  have hr : ((elapsed * 343 % 2000 : Nat) : ℚ) < 2000 := by exact_mod_cast hlt
  have hr0 : (0 : ℚ) ≤ ((elapsed * 343 % 2000 : Nat) : ℚ) := Nat.cast_nonneg _
  constructor
  · simp only [Int.cast_natCast]
    linarith
  · simp only [Int.cast_natCast]
    linarith

end handler_witnesses

section totality

variable {α : Type} [LinearOrderedField α]

/-- The difference of two ticks in order, without wrap-around, is not zero. -/
theorem usub_pos (a b : Nat) (hab : a < b) (hb : b < 2 ^ 32) : usub b a ≠ 0 := by
  unfold usub
  omega

/-- A division by a scalar that is not zero. -/
theorem vec_div_ok (v : vec_3d_t α) (scalar : α) (h : scalar ≠ 0) :
    ∃ w, vec_div v scalar = Except.ok w := by
  unfold vec_div
  rw [if_neg h]
  exact ⟨_, rfl⟩

/-- One iteration of the velocity loop succeeds on ticks in order. -/
theorem vel_at_ok (positions : List (vec_3d_t α)) (timestamps : List Nat) (n i : Nat)
    (hp : positions.length = n) (ht : timestamps.length = n)
    (hinc : timestamps.Pairwise (fun a b => a < b)) (hwrap : ∀ t ∈ timestamps, t < 2 ^ 32)
    (hi : i + 1 < n) : ∃ v, vel_at positions timestamps i = Except.ok v := by
  have e1 : ((i : Int) + 1) = ((i + 1 : Nat) : Int) := by push_cast; rfl
  unfold vel_at
  rw [e1, aget_of_lt timestamps 0 (i + 1) (by omega), aget_of_lt timestamps 0 i (by omega),
    aget_of_lt positions ⟨0, 0, 0⟩ (i + 1) (by omega), aget_of_lt positions ⟨0, 0, 0⟩ i (by omega)]
  simp only [bind, Except.bind]
  apply vec_div_ok
  have h1 : timestamps.getD i 0 < timestamps.getD (i + 1) 0 := by
    rw [List.getD_eq_getElem _ _ (by omega), List.getD_eq_getElem _ _ (by omega)]
    exact List.pairwise_iff_getElem.mp hinc i (i + 1) (by omega) (by omega) (by omega)
  have h2 : timestamps.getD (i + 1) 0 < 2 ^ 32 := by
    rw [List.getD_eq_getElem _ _ (by omega)]
    exact hwrap _ (List.getElem_mem _)
  exact Nat.cast_ne_zero.mpr (usub_pos _ _ h1 h2)

/-- One iteration of the acceleration loop succeeds on ticks in order. -/
theorem accel_at_ok (vels : List (vec_3d_t α)) (timestamps : List Nat) (n i : Nat)
    (hv : vels.length = n - 1) (ht : timestamps.length = n)
    (hinc : timestamps.Pairwise (fun a b => a < b)) (hwrap : ∀ t ∈ timestamps, t < 2 ^ 32)
    (hi : i + 2 < n) : ∃ a, accel_at vels timestamps i = Except.ok a := by
  have e1 : ((i : Int) + 1) = ((i + 1 : Nat) : Int) := by push_cast; rfl
  have e2 : ((i : Int) + 2) = ((i + 2 : Nat) : Int) := by push_cast; rfl
  unfold accel_at
  rw [e1, e2, aget_of_lt timestamps 0 (i + 2) (by omega), aget_of_lt timestamps 0 i (by omega),
    aget_of_lt vels ⟨0, 0, 0⟩ (i + 1) (by omega), aget_of_lt vels ⟨0, 0, 0⟩ i (by omega)]
  simp only [bind, Except.bind]
  apply vec_div_ok
  have h1 : timestamps.getD i 0 < timestamps.getD (i + 2) 0 := by
    rw [List.getD_eq_getElem _ _ (by omega), List.getD_eq_getElem _ _ (by omega)]
    exact List.pairwise_iff_getElem.mp hinc i (i + 2) (by omega) (by omega) (by omega)
  have h2 : timestamps.getD (i + 2) 0 < 2 ^ 32 := by
    rw [List.getD_eq_getElem _ _ (by omega)]
    exact hwrap _ (List.getElem_mem _)
  exact Nat.cast_ne_zero.mpr (usub_pos _ _ h1 h2)

/-- C27: for positions and timestamps of length `n_positions` with strictly
increasing ticks below `2 ^ 32` (no wrap-around), `trajec_from_positions`
returns a result when `n_positions >= 3`: no read is out of range and no
divisor is zero.  With `n_positions = 2` it ends in a division by zero, the
one by the number of accelerations. -/
theorem trajec_from_positions_total (n : Nat) (positions : List (vec_3d_t α))
    (timestamps : List Nat) (hp : positions.length = n) (ht : timestamps.length = n)
    (hinc : timestamps.Pairwise (fun a b => a < b)) (hwrap : ∀ t ∈ timestamps, t < 2 ^ 32) :
    (3 ≤ n → ∃ trajec, trajec_from_positions positions timestamps (n : Int) = Except.ok trajec) ∧
    (n = 2 → trajec_from_positions positions timestamps (n : Int) =
      Except.error Fault.div_by_zero) := by
  have hvels : 2 ≤ n → ∃ vels, for_collect (vel_at positions timestamps) (n - 1) = Except.ok vels ∧
      vels.length = n - 1 := fun h2 =>
    for_collect_ok _ _ (fun i hi => vel_at_ok positions timestamps n i hp ht hinc hwrap (by omega))
  have e1 : ((n : Int) - 1).toNat = n - 1 := by omega
  have e2 : ((n : Int) - 2).toNat = n - 2 := by omega
  refine ⟨?_, ?_⟩
  · intro h3
    obtain ⟨vels, hv, hvl⟩ := hvels (by omega)
    obtain ⟨accels, ha, _⟩ := for_collect_ok (accel_at vels timestamps) (n - 2)
      (fun i hi => accel_at_ok vels timestamps n i hvl ht hinc hwrap (by omega))
    have hn1 : (((n : Int) - 1 : Int) : α) ≠ 0 := by
      have : ((n : Int) - 1) ≠ 0 := by omega
      exact_mod_cast this
    have hn2 : (((n : Int) - 2 : Int) : α) ≠ 0 := by
      have : ((n : Int) - 2) ≠ 0 := by omega
      exact_mod_cast this
    obtain ⟨va, hva⟩ := vec_div_ok (vec_sum vels) _ hn1
    obtain ⟨aa, haa⟩ := vec_div_ok (vec_sum accels) _ hn2
    have hmid : Int.tdiv (n : Int) 2 = ((n / 2 : Nat) : Int) := by
      rw [Int.tdiv_eq_ediv (by omega) (by norm_num)]
      norm_cast
    unfold trajec_from_positions
    simp only [e1, e2, hv, ha, hva, haa, bind, Except.bind, hmid]
    rw [aget_of_lt positions ⟨0, 0, 0⟩ (n / 2) (by omega)]
    exact ⟨_, rfl⟩
  · intro h2
    subst h2
    obtain ⟨vels, hv, _⟩ := hvels (le_refl 2)
    have hn1 : ((((2 : Nat) : Int) - 1 : Int) : α) ≠ 0 := by norm_num
    obtain ⟨va, hva⟩ := vec_div_ok (vec_sum vels) _ hn1
    unfold trajec_from_positions
    simp only [e1, e2, hv, hva, bind, Except.bind]
    simp [for_collect, vec_div]

/-- Witness of C27: three samples at ticks 1000, 2000, 3500 give an estimate;
the first two alone end in the division by zero. -/
theorem trajec_from_positions_total_witness :
    (∃ trajec, trajec_from_positions
        [({ x := 1, y := 2, z := 30 } : vec_3d_t ℚ), { x := 2, y := 2, z := 20 },
         { x := 3, y := 2, z := 5 }] [1000, 2000, 3500] ((3 : Nat) : Int) = Except.ok trajec) ∧
    trajec_from_positions
        [({ x := 1, y := 2, z := 30 } : vec_3d_t ℚ), { x := 2, y := 2, z := 20 }]
        [1000, 2000] ((2 : Nat) : Int) = Except.error Fault.div_by_zero :=
  ⟨(trajec_from_positions_total 3
      [({ x := 1, y := 2, z := 30 } : vec_3d_t ℚ), { x := 2, y := 2, z := 20 },
       { x := 3, y := 2, z := 5 }] [1000, 2000, 3500] rfl rfl (by decide) (by decide)).1
      (by decide),
   (trajec_from_positions_total 2
      [({ x := 1, y := 2, z := 30 } : vec_3d_t ℚ), { x := 2, y := 2, z := 20 }]
      [1000, 2000] rfl rfl (by decide) (by decide)).2 rfl⟩

end totality

section pairing

variable {α : Type} [LinearOrderedField α]

/-- A cycle for which `pos_from_dists` fails leaves `n_positions` as it was. -/
theorem keep_positions_dropped (sqrt : α → α)
    (a b c d : sonic_data_t) (rest : List (List sonic_data_t)) (positions : List (vec_3d_t α))
    (n_positions : Nat) (p : vec_3d_t α) (h : pos_from_dists sqrt (quad a b c d) = (false, p)) :
    keep_positions sqrt ([a, b, c, d] :: rest) positions n_positions =
      keep_positions sqrt rest (positions.take n_positions ++ [p]) n_positions := by
  rw [keep_positions, dists_of_reading_four]
  simp only [h, Bool.false_eq_true, if_false]

/-- The loop that keeps positions never rewrites an entry below
`n_positions`, and `n_positions` never decreases. -/
theorem keep_positions_prefix (sqrt : α → α) :
    ∀ (burst : List (List sonic_data_t)) (positions positions' : List (vec_3d_t α))
      (n n' : Nat), n ≤ positions.length →
      keep_positions sqrt burst positions n = Except.ok (positions', n') →
      n ≤ n' ∧ n' ≤ positions'.length ∧ positions'.take n = positions.take n := by
  intro burst
  induction burst with
  | nil =>
    intro positions positions' n n' hn h
    simp only [keep_positions, Except.ok.injEq, Prod.mk.injEq] at h
    rw [← h.1, ← h.2]
    exact ⟨le_refl _, hn, rfl⟩
  | cons reading rest ih =>
    intro positions positions' n n' hn h
    rw [keep_positions] at h
    split at h
    · simp at h
    · rename_i dists hd
      simp only at h
      have hlen : (positions.take n ++ [(pos_from_dists sqrt dists).2]).length = n + 1 := by
        simp [hn]
      obtain ⟨h1, h2, h3⟩ := ih _ _ _ _ (by rw [hlen]; split <;> omega) h
      have hle : n ≤ if (pos_from_dists sqrt dists).1 = true then n + 1 else n := by
        split <;> omega
      refine ⟨le_trans hle h1, h2, ?_⟩
      have := congrArg (List.take n) h3
      rw [List.take_take, List.take_take, min_eq_left hle] at this
      rw [this, List.take_append_of_le_length (by simp [hn]), List.take_take, min_self]

/-- The first timestamp that the second loop of `object_vector_predict`
assembles is the one of the first cycle of the burst. -/
theorem assemble_timestamps_first (burst : List (List sonic_data_t)) (n : Nat)
    (timestamps : List Nat) (reading : List sonic_data_t) (d : sonic_data_t)
    (hn : 1 ≤ n) (h : assemble_timestamps burst n = Except.ok timestamps)
    (hr : aget burst 0 = Except.ok reading) (hd : aget reading 2 = Except.ok d) :
    aget timestamps 0 = Except.ok (unsigned_of_int d.timestamp) := by
  have key : ∀ (body : Nat → Except Fault Nat) (k : Nat) (xs : List Nat) (x : Nat),
      for_collect body (k + 1) = Except.ok xs → body 0 = Except.ok x →
      aget xs 0 = Except.ok x := by
    intro body k
    induction k with
    | zero =>
      intro xs x hx hb
      simp only [for_collect, hb, List.nil_append, Except.ok.injEq] at hx
      rw [← hx]
      rfl
    | succ k ih =>
      intro xs x hx hb
      rw [for_collect] at hx
      split at hx
      · simp at hx
      · rename_i ys hy
        split at hx
        · simp at hx
        · simp only [Except.ok.injEq] at hx
          have h0 := ih ys x hy hb
          rw [← hx]
          unfold aget at h0 ⊢
          simp only [le_refl, if_true, Int.toNat_zero] at h0 ⊢
          cases ys with
          | nil => simp at h0
          | cons y ys' => simpa using h0
  obtain ⟨k, rfl⟩ : ∃ k, n = k + 1 := ⟨n - 1, by omega⟩
  unfold assemble_timestamps at h
  apply key _ k timestamps _ h
  simp only [Nat.cast_zero, hr, bind, Except.bind, N_SENSORS]
  have : (((4 / 2 : Nat) : Nat) : Int) = 2 := by norm_num
  rw [this, hd]
  rfl

/-- C22: when `pos_from_dists` fails for the first cycle of a burst and
succeeds for the second, the first position that `object_vector_predict`
keeps is the one of the second cycle, and the timestamp it is paired with
(index 0 of both arrays) is the one of the middle sensor of the first cycle,
the cycle that was dropped. -/
theorem kept_position_paired_with_dropped_cycle (sqrt : α → α)
    (c0 c1 : List sonic_data_t) (rest : List (List sonic_data_t))
    (d0 d1 : Fin 4 → sonic_data_t) (m0 : sonic_data_t)
    (positions : List (vec_3d_t α)) (n_positions : Nat) (timestamps : List Nat)
    (hd0 : dists_of_reading c0 = Except.ok d0) (hfail : (pos_from_dists sqrt d0).1 = false)
    (hd1 : dists_of_reading c1 = Except.ok d1) (hok : (pos_from_dists sqrt d1).1 = true)
    (hm0 : aget c0 ((N_SENSORS / 2 : Nat) : Int) = Except.ok m0)
    (hk : keep_positions sqrt (c0 :: c1 :: rest) [] 0 = Except.ok (positions, n_positions))
    (ht : assemble_timestamps (c0 :: c1 :: rest) n_positions = Except.ok timestamps) :
    1 ≤ n_positions ∧
    aget positions 0 = Except.ok (pos_from_dists sqrt d1).2 ∧
    aget timestamps 0 = Except.ok (unsigned_of_int m0.timestamp) := by
  rw [keep_positions, hd0] at hk
  simp only [hfail, Bool.false_eq_true, if_false, List.take_zero, List.nil_append] at hk
  rw [keep_positions, hd1] at hk
  simp only [hok, if_true, List.take_zero, List.nil_append, Nat.zero_add] at hk
  obtain ⟨h1, h2, h3⟩ := keep_positions_prefix sqrt rest _ _ _ _ (by simp) hk
  refine ⟨h1, ?_, ?_⟩
  · simp only [List.take_succ, List.take_zero, List.nil_append] at h3
    unfold aget
    simp only [le_refl, if_true, Int.toNat_zero]
    cases positions with
    | nil => simp at h2; omega
    | cons p ps =>
      simp at h3
      simp [h3]
  · have hm : aget c0 2 = Except.ok m0 := by
      have : (((N_SENSORS / 2 : Nat) : Nat) : Int) = 2 := by norm_num [N_SENSORS]
      rw [this] at hm0
      exact hm0
    exact assemble_timestamps_first _ _ _ c0 m0 h1 ht rfl hm

end pairing

section pairing_witness

/-- `pos_from_dists` when the `y` stage has no value. -/
theorem pos_from_dists_no_y {α : Type} [LinearOrderedField α] (sqrt : α → α)
    (dists : Fin 4 → sonic_data_t) (dTL dTR dBR dBL : α)
    (hTL : ((dists SENSOR_TOP_LEFT).distance : α) = dTL)
    (hTR : ((dists SENSOR_TOP_RIGHT).distance : α) = dTR)
    (hBR : ((dists SENSOR_BOTTOM_RIGHT).distance : α) = dBR)
    (hBL : ((dists SENSOR_BOTTOM_LEFT).distance : α) = dBL)
    (hy : pos_y (xy_sphere_intersect sqrt dTL dBL 1219) (xy_sphere_intersect sqrt dTR dBR 1219) =
      none) :
    pos_from_dists sqrt dists =
      (false, { x := NO_INTERSECTION, y := NO_INTERSECTION, z := NO_INTERSECTION }) := by
  have cH : ((RECT_HEIGHT : Int) : α) = 1219 := by simp [RECT_HEIGHT]
  have cW : ((RECT_WIDTH : Int) : α) = 1219 := by simp [RECT_WIDTH]
  simp only [pos_from_dists, hTL, hTR, hBR, hBL, cH, cW, hy]

/-- Spheres of 2000 mm and 100 mm around sensors 1219 mm apart: one encloses
the other and there is no circle. -/
theorem xy_sphere_intersect_2000_100 :
    xy_sphere_intersect sqrtQ (2000 : ℚ) 100 1219 = { displacement := 0, radius := -1 } := by
  norm_num [xy_sphere_intersect, sqrtQ, square]

/-- The first cycle of the example burst has no position. -/
theorem pos_from_dists_2000_100 (t0 t1 t2 t3 : Int) :
    pos_from_dists sqrtQ (quad ⟨2000, t0⟩ ⟨2000, t1⟩ ⟨100, t2⟩ ⟨100, t3⟩) =
      (false, { x := -1, y := -1, z := -1 }) := by
  rw [pos_from_dists_no_y sqrtQ _ 2000 2000 100 100
    (by rw [quad_top_left]; norm_num) (by rw [quad_top_right]; norm_num)
    (by rw [quad_bottom_right]; norm_num) (by rw [quad_bottom_left]; norm_num)
    (by rw [xy_sphere_intersect_2000_100]; norm_num [pos_y, NO_INTERSECTION])]
  rfl

/-- The positions kept from the example burst: the six of cycles 1 to 6. -/
theorem keep_positions_dropped_example :
    keep_positions sqrtQ dropped_cycle_burst [] 0 =
      Except.ok ([({ x := 1219 / 2, y := 1219 / 2, z := 0 } : vec_3d_t ℚ),
        { x := 1219 / 2, y := 1219 / 2, z := 0 }, { x := 1219 / 2, y := 1219 / 2, z := 0 },
        { x := 1219 / 2, y := 1219 / 2, z := 0 }, { x := 1219 / 2, y := 1219 / 2, z := 0 },
        { x := 1219 / 2, y := 1219 / 2, z := 0 }], 6) := by
  unfold dropped_cycle_burst
  rw [keep_positions_dropped sqrtQ _ _ _ _ _ _ _ _ (pos_from_dists_2000_100 _ _ _ _),
    keep_positions_kept sqrtQ _ _ _ _ _ _ _ _ (pos_from_dists_100 _ _ _ _),
    keep_positions_kept sqrtQ _ _ _ _ _ _ _ _ (pos_from_dists_100 _ _ _ _),
    keep_positions_kept sqrtQ _ _ _ _ _ _ _ _ (pos_from_dists_100 _ _ _ _),
    keep_positions_kept sqrtQ _ _ _ _ _ _ _ _ (pos_from_dists_100 _ _ _ _),
    keep_positions_kept sqrtQ _ _ _ _ _ _ _ _ (pos_from_dists_100 _ _ _ _),
    keep_positions_kept sqrtQ _ _ _ _ _ _ _ _ (pos_from_dists_100 _ _ _ _), keep_positions]
  rfl

/-- Witness of C22: in the example burst the first kept position is the one of
cycle 1, whose middle sensor has timestamp 15292, and it is paired with 5292,
the timestamp of the middle sensor of the dropped cycle 0; all six kept
positions are paired with the timestamps of cycles 0 to 5. -/
theorem kept_position_paired_with_dropped_cycle_witness :
    ∃ positions timestamps,
      keep_positions sqrtQ dropped_cycle_burst [] 0 = Except.ok (positions, 6) ∧
      assemble_timestamps dropped_cycle_burst 6 = Except.ok timestamps ∧
      timestamps = [5292, 15292, 25292, 35292, 45292, 55292] ∧
      1 ≤ 6 ∧
      aget positions 0 = Except.ok (pos_from_dists sqrtQ
        (quad ⟨100, 11292⟩ ⟨100, 13292⟩ ⟨100, 15292⟩ ⟨100, 17292⟩)).2 ∧
      aget timestamps 0 =
        Except.ok (unsigned_of_int ({ distance := 100, timestamp := 5292 } : sonic_data_t).timestamp) :=
  ⟨_, _, keep_positions_dropped_example, rfl, rfl,
    kept_position_paired_with_dropped_cycle sqrtQ
      [⟨2000, 1292⟩, ⟨2000, 3292⟩, ⟨100, 5292⟩, ⟨100, 7292⟩]
      [⟨100, 11292⟩, ⟨100, 13292⟩, ⟨100, 15292⟩, ⟨100, 17292⟩]
      [[⟨100, 21292⟩, ⟨100, 23292⟩, ⟨100, 25292⟩, ⟨100, 27292⟩],
       [⟨100, 31292⟩, ⟨100, 33292⟩, ⟨100, 35292⟩, ⟨100, 37292⟩],
       [⟨100, 41292⟩, ⟨100, 43292⟩, ⟨100, 45292⟩, ⟨100, 47292⟩],
       [⟨100, 51292⟩, ⟨100, 53292⟩, ⟨100, 55292⟩, ⟨100, 57292⟩],
       [⟨100, 61292⟩, ⟨100, 63292⟩, ⟨100, 65292⟩, ⟨100, 67292⟩]]
      (quad ⟨2000, 1292⟩ ⟨2000, 3292⟩ ⟨100, 5292⟩ ⟨100, 7292⟩)
      (quad ⟨100, 11292⟩ ⟨100, 13292⟩ ⟨100, 15292⟩ ⟨100, 17292⟩)
      ⟨100, 5292⟩ _ 6 _ rfl (by rw [pos_from_dists_2000_100])
      rfl (by rw [pos_from_dists_100]) rfl keep_positions_dropped_example rfl⟩

end pairing_witness

section height

variable {α : Type} [LinearOrderedField α]

/-- The stand-in square root is `-1` on negative input, as `utils.h` says of
`sqrt`. -/
theorem sqrtQ_neg (d : ℚ) (h : d < 0) : sqrtQ d = -1 := by
  unfold sqrtQ
  rw [if_pos h]

/-- The fallback height lies between 0 and `MAX_SENSE_DEPTH` when every valid
circle has a radius that is not negative. -/
theorem z_guess_bounds (left right top bottom : circle_t α)
    (hl : left.radius ≠ NO_INTERSECTION → 0 ≤ left.radius)
    (hr : right.radius ≠ NO_INTERSECTION → 0 ≤ right.radius)
    (ht : top.radius ≠ NO_INTERSECTION → 0 ≤ top.radius)
    (hb : bottom.radius ≠ NO_INTERSECTION → 0 ≤ bottom.radius) :
    0 ≤ z_guess left right top bottom ∧ z_guess left right top bottom ≤ 3000 := by
  have h3 : ((MAX_SENSE_DEPTH : Int) : α) = 3000 := by simp [MAX_SENSE_DEPTH]
  have step : ∀ (c : circle_t α) (g : α), (c.radius ≠ NO_INTERSECTION → 0 ≤ c.radius) →
      0 ≤ g ∧ g ≤ 3000 →
      0 ≤ (if c.radius ≠ NO_INTERSECTION then cmin c.radius g else g) ∧
      (if c.radius ≠ NO_INTERSECTION then cmin c.radius g else g) ≤ 3000 := by
    intro c g hc hg
    by_cases hv : c.radius ≠ NO_INTERSECTION
    · rw [if_pos hv]
      unfold cmin
      have := hc hv
      split_ifs <;> constructor <;> linarith [hg.1, hg.2]
    · rw [if_neg hv]
      exact hg
  unfold z_guess
  simp only [h3]
  exact step bottom _ hb (step top _ ht (step right _ hr (step left _ hl
    ⟨by norm_num, le_refl _⟩)))

/-- C30: four distances of 1000 mm (an object about 507 mm above the centre
of the board) make `pos_from_dists` return true with the height `-1`, the
`NO_INTERSECTION` sentinel: two sphere and circle pairs pass
`sphere_circle_hit`, `z_circle_sphere_intersect` has a negative radicand for
both and returns the sentinel, and the two sentinels are averaged.  This holds
for every `sqrt` that returns `-1` on negative input and a value between 219
and 828 for `sqrt(628509.75)`, which is about 792.8.  In the fallback branch
the height is between 0 and 3000 whenever the valid radii are not negative. -/
theorem pos_from_dists_reports_sentinel_height (sqrt : α → α)
    (hneg : ∀ d : α, d < 0 → sqrt d = -1)
    (hlo : 219 < sqrt (2514039 / 4)) (hhi : sqrt (2514039 / 4) < 828)
    (t0 t1 t2 t3 : Int) (left right top bottom : circle_t α)
    (hl : left.radius ≠ NO_INTERSECTION → 0 ≤ left.radius)
    (hr : right.radius ≠ NO_INTERSECTION → 0 ≤ right.radius)
    (ht : top.radius ≠ NO_INTERSECTION → 0 ≤ top.radius)
    (hb : bottom.radius ≠ NO_INTERSECTION → 0 ≤ bottom.radius) :
    pos_from_dists sqrt (quad ⟨1000, t0⟩ ⟨1000, t1⟩ ⟨1000, t2⟩ ⟨1000, t3⟩) =
      (true, { x := 1219 / 2, y := 1219 / 2, z := -1 }) ∧
    (0 ≤ z_guess left right top bottom ∧ z_guess left right top bottom ≤ 3000) := by
  refine ⟨?_, z_guess_bounds left right top bottom hl hr ht hb⟩
  have hrad : square (1000 : α) - square (1219 / 2) = 2514039 / 4 := by
    unfold square
    norm_num
  have hdisp : (square (1219 : α) - square 1000 + square 1000) / (2 * 1219) = 1219 / 2 := by
    unfold square
    norm_num
  have hxy : xy_sphere_intersect sqrt (1000 : α) 1000 1219 =
      { displacement := 1219 / 2, radius := sqrt (2514039 / 4) } := by
    unfold xy_sphere_intersect
    rw [if_pos (by norm_num)]
    simp only [hdisp, hrad]
    rw [if_neg (by linarith)]
  have hhit : sphere_circle_hit (1000 : α) (sqrt (2514039 / 4)) 609 1219 = true := by
    unfold sphere_circle_hit cabs
    rw [if_neg (by norm_num), if_neg (by norm_num)]
    simp only [Bool.and_eq_true, decide_eq_true_eq]
    constructor <;> linarith
  have hz : z_circle_sphere_intersect sqrt (1000 : α) (sqrt (2514039 / 4)) 609 1219 = -1 := by
    unfold z_circle_sphere_intersect
    have hneg' : square (sqrt (2514039 / 4)) -
        square ((square (1219 : α) - square (1000 - 609) + square (sqrt (2514039 / 4))) /
          (2 * 1219)) < 0 := by
      unfold square
      have e : ((1219 : α) * 1219 - (1000 - 609) * (1000 - 609) +
          sqrt (2514039 / 4) * sqrt (2514039 / 4)) / (2 * 1219) =
          sqrt (2514039 / 4) + (828 - sqrt (2514039 / 4)) * (1610 - sqrt (2514039 / 4)) / 2438 := by
        field_simp
        ring
      rw [e]
      have hp : 0 < (828 - sqrt (2514039 / 4)) * (1610 - sqrt (2514039 / 4)) / 2438 := by
        apply div_pos
        · apply mul_pos <;> linarith
        · norm_num
      nlinarith
    simp only [hneg _ hneg']
    rw [if_pos (by norm_num)]
    rfl
  have hr0 : (0 : α) ≤ sqrt (2514039 / 4) := by linarith
  have hy := pos_y_of_valid
    ({ displacement := 1219 / 2, radius := sqrt (2514039 / 4) } : circle_t α)
    { displacement := 1219 / 2, radius := sqrt (2514039 / 4) } hr0 hr0
  have hx := pos_x_of_valid
    ({ displacement := 1219 / 2, radius := sqrt (2514039 / 4) } : circle_t α)
    { displacement := 1219 / 2, radius := sqrt (2514039 / 4) } hr0 hr0
  have e : ((1219 : α) / 2 + 1219 / 2) / 2 = 1219 / 2 := by ring
  simp only [e] at hy hx
  rw [pos_from_dists_stages sqrt _ 1000 1000 1000 1000 (1219 / 2) (1219 / 2)
    (by rw [quad_top_left]; norm_num) (by rw [quad_top_right]; norm_num)
    (by rw [quad_bottom_right]; norm_num) (by rw [quad_bottom_left]; norm_num)
    (by rw [hxy]; exact hy) (by rw [hxy]; exact hx)]
  have hH : (((RECT_HEIGHT / 2 : Int) : Int) : α) = 609 := by norm_num [RECT_HEIGHT]
  have hW : (((RECT_WIDTH / 2 : Int) : Int) : α) = 609 := by norm_num [RECT_WIDTH]
  have cH : ((RECT_HEIGHT : Int) : α) = 1219 := by simp [RECT_HEIGHT]
  have cW : ((RECT_WIDTH : Int) : α) = 1219 := by simp [RECT_WIDTH]
  have hpz : pos_z sqrt (1000 : α) 1000 1000 1000
      { displacement := 1219 / 2, radius := sqrt (2514039 / 4) }
      { displacement := 1219 / 2, radius := sqrt (2514039 / 4) }
      { displacement := 1219 / 2, radius := sqrt (2514039 / 4) }
      { displacement := 1219 / 2, radius := sqrt (2514039 / 4) } = -1 := by
    simp only [pos_z, hH, hW, cH, cW, hhit, hz, if_true]
    norm_num
  rw [hxy, hpz]

/-- Witness of C30: the rational stand-in for `sqrt`, which gives 792.5 for
`sqrt(628509.75)`; four circles of radius 0 for the fallback. -/
theorem pos_from_dists_reports_sentinel_height_witness :
    pos_from_dists sqrtQ (quad ⟨1000, 1⟩ ⟨1000, 2⟩ ⟨1000, 3⟩ ⟨1000, 4⟩) =
      (true, { x := 1219 / 2, y := 1219 / 2, z := -1 }) ∧
    (0 ≤ z_guess ({ displacement := 1219 / 2, radius := 0 } : circle_t ℚ)
        { displacement := 1219 / 2, radius := 0 } { displacement := 1219 / 2, radius := 0 }
        { displacement := 1219 / 2, radius := 0 } ∧
      z_guess ({ displacement := 1219 / 2, radius := 0 } : circle_t ℚ)
        { displacement := 1219 / 2, radius := 0 } { displacement := 1219 / 2, radius := 0 }
        { displacement := 1219 / 2, radius := 0 } ≤ 3000) :=
  pos_from_dists_reports_sentinel_height sqrtQ sqrtQ_neg (by norm_num [sqrtQ])
    (by norm_num [sqrtQ]) 1 2 3 4 _ _ _ _ (fun _ => le_refl _) (fun _ => le_refl _)
    (fun _ => le_refl _) (fun _ => le_refl _)

end height

section stepping

/-- `motor_turn_multiple` once the step counts, their maximum, the skips and
the cycle time have values: what is left is the pulse loop. -/
theorem motor_turn_multiple_of_steps {α : Type} [LinearOrderedField α] [FloorRing α]
    (motors : List motor_t) (speeds_rpms : List α) (time_ms : α) (hw hw1 : Hardware)
    (steps skips : List Int) (max_steps : Int) (q : α)
    (hdir : write_directions motors 4 0 hw = Except.ok hw1)
    (hst : motor_steps speeds_rpms time_ms = Except.ok steps)
    (hmax : max_of_steps steps = Except.ok max_steps)
    (hsk : for_collect (fun i => do
      let s ← aget steps (i : Int)
      skip_of s max_steps) 4 = Except.ok skips)
    (hq : fdiv (time_ms * 1000) (max_steps : α) = Except.ok q) :
    motor_turn_multiple motors speeds_rpms time_ms hw =
      pulse_steps motors skips (int_of_float (q / 2)) max_steps.toNat 0 hw1 := by
  unfold motor_turn_multiple
  simp only [bind, Except.bind, hdir, hst, hmax] at hsk ⊢
  rw [hsk, hq]

/-- `motor_turn_multiple` when the skip computation ends in a fault. -/
theorem motor_turn_multiple_of_skip_fault {α : Type} [LinearOrderedField α] [FloorRing α]
    (motors : List motor_t) (speeds_rpms : List α) (time_ms : α) (hw hw1 : Hardware)
    (steps : List Int) (max_steps : Int) (e : Fault)
    (hdir : write_directions motors 4 0 hw = Except.ok hw1)
    (hst : motor_steps speeds_rpms time_ms = Except.ok steps)
    (hmax : max_of_steps steps = Except.ok max_steps)
    (hsk : for_collect (fun i => do
      let s ← aget steps (i : Int)
      skip_of s max_steps) 4 = Except.error e) :
    motor_turn_multiple motors speeds_rpms time_ms hw = Except.error e := by
  unfold motor_turn_multiple
  simp only [bind, Except.bind, hdir, hst, hmax] at hsk ⊢
  rw [hsk]

/-- The step counts when each `speed * time_ms * 360 / 1.8` is a whole
number that is not negative. -/
theorem motor_steps_of_counts {α : Type} [LinearOrderedField α] [FloorRing α]
    (v0 v1 v2 v3 time_ms : α) (k0 k1 k2 k3 : Int)
    (h0 : 0 ≤ k0) (h1 : 0 ≤ k1) (h2 : 0 ≤ k2) (h3 : 0 ≤ k3)
    (e0 : v0 * time_ms * 360 / STEP_ANGLE = (k0 : α))
    (e1 : v1 * time_ms * 360 / STEP_ANGLE = (k1 : α))
    (e2 : v2 * time_ms * 360 / STEP_ANGLE = (k2 : α))
    (e3 : v3 * time_ms * 360 / STEP_ANGLE = (k3 : α)) :
    motor_steps [v0, v1, v2, v3] time_ms = Except.ok [k0, k1, k2, k3] := by
  have key : ∀ (v : α) (k : Int), 0 ≤ k → v * time_ms * 360 / STEP_ANGLE = (k : α) →
      int_of_float (v * time_ms * 360 / STEP_ANGLE) = k := by
    intro v k hk e
    rw [e, int_of_float, if_pos (by exact_mod_cast hk), Int.floor_intCast]
  have h := for_collect_eq
    (fun i => do
      let speed ← aget [v0, v1, v2, v3] (i : Int)
      pure (int_of_float (speed * time_ms * 360 / STEP_ANGLE)))
    (fun i => [k0, k1, k2, k3].getD i 0) 4
    (by
      intro i hi
      interval_cases i
      · exact congrArg Except.ok (key v0 k0 h0 e0)
      · exact congrArg Except.ok (key v1 k1 h1 e1)
      · exact congrArg Except.ok (key v2 k2 h2 e2)
      · exact congrArg Except.ok (key v3 k3 h3 e3))
  unfold motor_steps
  rw [h]
  rfl

/-- C28: with the speeds 1/20, 3/100, 1/50 and 3/200 rotations per ms over
1 ms the step counts are 10, 6, 4 and 3, and `motor_turn_multiple` gives the
four motors (step pins 2, 10, 25, 5) 10, 5, 5 and 3 step pulses: the second
motor one too few, the third one too many.  With the second speed 0 the step
counts are 10, 0, 4 and 3 and the skip computation divides by zero. -/
theorem motor_turn_multiple_miscounts_steps :
    motor_steps [(1 / 20 : ℚ), 3 / 100, 1 / 50, 3 / 200] 1 = Except.ok [10, 6, 4, 3] ∧
    (∃ hw', motor_turn_multiple example_hoop.motors [(1 / 20 : ℚ), 3 / 100, 1 / 50, 3 / 200] 1
        (example_hardware []) = Except.ok hw' ∧
      step_pulses 2 hw' = 10 ∧ step_pulses 10 hw' = 5 ∧ step_pulses 25 hw' = 5 ∧
      step_pulses 5 hw' = 3) ∧
    motor_steps [(1 / 20 : ℚ), 0, 1 / 50, 3 / 200] 1 = Except.ok [10, 0, 4, 3] ∧
    motor_turn_multiple example_hoop.motors [(1 / 20 : ℚ), 0, 1 / 50, 3 / 200] 1
      (example_hardware []) = Except.error Fault.div_by_zero := by
  have hst : motor_steps [(1 / 20 : ℚ), 3 / 100, 1 / 50, 3 / 200] 1 = Except.ok [10, 6, 4, 3] :=
    motor_steps_of_counts _ _ _ _ _ 10 6 4 3 (by norm_num) (by norm_num) (by norm_num)
      (by norm_num) (by norm_num [STEP_ANGLE]) (by norm_num [STEP_ANGLE])
      (by norm_num [STEP_ANGLE]) (by norm_num [STEP_ANGLE])
  have hst0 : motor_steps [(1 / 20 : ℚ), 0, 1 / 50, 3 / 200] 1 = Except.ok [10, 0, 4, 3] :=
    motor_steps_of_counts _ _ _ _ _ 10 0 4 3 (by norm_num) (by norm_num) (by norm_num)
      (by norm_num) (by norm_num [STEP_ANGLE]) (by norm_num [STEP_ANGLE])
      (by norm_num [STEP_ANGLE]) (by norm_num [STEP_ANGLE])
  have hq : fdiv ((1 : ℚ) * 1000) (((10 : Int) : Int) : ℚ) = Except.ok 100 := by
    norm_num [fdiv]
  have hc : int_of_float ((100 : ℚ) / 2) = 50 := by
    have : ((100 : ℚ) / 2) = ((50 : Int) : ℚ) := by norm_num
    rw [this, int_of_float, if_pos (by norm_num), Int.floor_intCast]
  refine ⟨hst, ?_, hst0, ?_⟩
  · rw [motor_turn_multiple_of_steps example_hoop.motors _ 1 (example_hardware []) _
      [10, 6, 4, 3] _ 10 100 rfl hst rfl rfl hq, hc]
    exact ⟨_, rfl, rfl, rfl, rfl, rfl⟩
  · exact motor_turn_multiple_of_skip_fault example_hoop.motors _ 1 (example_hardware []) _
      [10, 0, 4, 3] 10 Fault.div_by_zero rfl hst0 rfl rfl

end stepping

section index_invariant

/-- A read at an `int` index inside the list succeeds. -/
theorem aget_int_ok {β : Type} (arr : List β) (i : Int) (h0 : 0 ≤ i) (hlt : i.toNat < arr.length) :
    ∃ v, aget arr i = Except.ok v := by
  unfold aget
  rw [if_pos h0]
  simp [List.getElem?_eq_getElem hlt]

/-- `sonic_init` allocates one in-progress reading per sensor. -/
theorem sonic_init_curr_data (rb_capacity : Nat) (sensors : List sonic_sensor_t)
    (n_sensors : Int) (s s' : System)
    (h : sonic_init rb_capacity sensors n_sensors s = Except.ok (true, s')) :
    s'.state.curr_data.length = n_sensors.toNat := by
  unfold sonic_init at h
  by_cases hbad : n_sensors > SONIC_MAX_SENSORS ∨ n_sensors ≤ 0
  · rw [if_pos hbad] at h
    simp at h
  · rw [if_neg hbad] at h
    simp only [bind, Except.bind] at h
    split at h
    · simp at h
    · split at h
      · simp at h
      · simp only [pure, Except.pure, Except.ok.injEq, Prod.mk.injEq, true_and] at h
        rw [← h]
        simp

/-- `next_sensor` keeps the invariant. -/
theorem next_sensor_index_in_range (n : Int) (s : System) (h : index_in_range n s) :
    index_in_range n (next_sensor s) := by
  obtain ⟨h1, h2, h3, h4, h5⟩ := h
  unfold next_sensor
  cases hact : s.state.is_active with
  | false => simp only [Bool.not_false, if_true]; exact ⟨h1, h2, h3, h4, h5⟩
  | true =>
    simp only [Bool.not_true, Bool.false_eq_true, if_false]
    split
    · exact ⟨h1, h2, h3, le_refl _, by show (0 : Int) < n; omega⟩
    · rename_i hne
      refine ⟨h1, h2, h3, ?_, ?_⟩
      · show 0 ≤ s.state.curr_sensor + 1
        omega
      · show s.state.curr_sensor + 1 < n
        omega

/-- Each event returns, with every access in range, and keeps the
invariant. -/
theorem apply_event_index_in_range (n : Int) (s : System) (event : sonic_event)
    (h : index_in_range n s) :
    ∃ s', apply_event s event = Except.ok s' ∧ index_in_range n s' := by
  obtain ⟨h1, h2, h3, h4, h5⟩ := h
  have hs : s.state.curr_sensor.toNat < s.state.sensors.length := by omega
  have hd : s.state.curr_sensor.toNat < s.state.curr_data.length := by omega
  obtain ⟨sensor, hsensor⟩ := aget_int_ok s.state.sensors s.state.curr_sensor h4 hs
  cases event with
  | start_trigger =>
    unfold apply_event start_trigger
    cases hact : s.state.is_active with
    | false => exact ⟨s, by simp, h1, h2, h3, h4, h5⟩
    | true =>
      simp only [Bool.not_true, Bool.false_eq_true, if_false, hsensor, bind, Except.bind, pure,
        Except.pure]
      exact ⟨_, rfl, h1, h2, h3, h4, h5⟩
  | finish_trigger =>
    unfold apply_event finish_trigger
    cases hact : s.state.is_active with
    | false => exact ⟨s, by simp, h1, h2, h3, h4, h5⟩
    | true =>
      simp only [Bool.not_true, Bool.false_eq_true, if_false, hsensor, bind, Except.bind, pure,
        Except.pure]
      exact ⟨_, rfl, h1, h2, h3, h4, h5⟩
  | timeout =>
    unfold apply_event
    cases hawait : s.state.awaiting_echo with
    | false =>
      refine ⟨s, ?_, h1, h2, h3, h4, h5⟩
      unfold timeout
      simp only [hawait, Bool.not_false, if_true]
    | true =>
      refine ⟨_, timeout_awaiting s hawait h4 hd, ?_⟩
      apply next_sensor_index_in_range
      exact ⟨h1, h2, by simp [h3], h4, h5⟩
  | process_echo =>
    unfold apply_event
    cases hact : s.state.is_active with
    | false =>
      refine ⟨s, ?_, h1, h2, h3, h4, h5⟩
      unfold process_echo
      simp only [hact, Bool.not_false, if_true]
    | true =>
      cases hawait : s.state.awaiting_echo with
      | false =>
        obtain ⟨hw1, hl⟩ := sensor_loop_ok s.state.sensors
          (fun sensor hw => gpio_clear_event sensor.echo hw) s.state.n_sensors.toNat 0 s.hw
          (by omega)
        refine ⟨{ s with hw := hw1 }, ?_, h1, h2, h3, h4, h5⟩
        unfold process_echo
        simp only [hact, hawait, Bool.not_true, Bool.false_eq_true, if_false, Bool.not_false,
          if_true, bind, Except.bind, hl, pure, Except.pure]
      | true =>
        rw [process_echo_awaiting s sensor hact hawait h4 hd hsensor]
        refine ⟨_, rfl, ?_⟩
        apply next_sensor_index_in_range
        exact ⟨h1, h2, by simp [h3], h4, h5⟩
  | sonic_set_unit_delay micros =>
    refine ⟨_, rfl, ?_⟩
    unfold sonic_set_unit_delay
    split <;> exact ⟨h1, h2, h3, h4, h5⟩
  | sonic_set_cycle_delay micros => exact ⟨_, rfl, h1, h2, h3, h4, h5⟩
  | sonic_set_timeout micros => exact ⟨_, rfl, h1, h2, h3, h4, h5⟩
  | sonic_off =>
    obtain ⟨s', hoff⟩ := sonic_off_ok s (by omega)
    have e := sonic_off_returns s s' hoff
    refine ⟨s', hoff, ?_⟩
    unfold index_in_range
    rw [e]
    exact ⟨h1, h2, h3, h4, h5⟩
  | sonic_on =>
    obtain ⟨s', hon⟩ := sonic_on_ok s (by omega) (by omega)
    have e := sonic_on_returns s s' hon
    refine ⟨s', hon, ?_⟩
    unfold index_in_range
    rw [e]
    exact ⟨h1, h2, h3, le_refl _, by show (0 : Int) < n; omega⟩

/-- Every sequence of events returns and keeps the invariant. -/
theorem run_events_index_in_range (n : Int) :
    ∀ (events : List sonic_event) (s : System), index_in_range n s →
      ∃ s', run_events events s = Except.ok s' ∧ index_in_range n s' := by
  intro events
  induction events with
  | nil => intro s h; exact ⟨s, rfl, h⟩
  | cons event rest ih =>
    intro s h
    obtain ⟨s1, h1, hinv⟩ := apply_event_index_in_range n s event h
    obtain ⟨s2, h2, hinv2⟩ := ih s1 hinv
    refine ⟨s2, ?_, hinv2⟩
    rw [run_events, h1]
    exact h2

/-- C29: after a successful `sonic_init` with `n` sensors and `sonic_on`,
every sequence of handler runs (`start_trigger`, `finish_trigger`, `timeout`,
`process_echo`), setter calls and `sonic_off` / `sonic_on` calls runs to its
end without an access outside the sensor table or the array of in-progress
readings, and afterwards `0 <= curr_sensor < n`, with both arrays still of
length `n`. -/
theorem sensor_index_stays_in_range (rb_capacity : Nat) (sensors : List sonic_sensor_t)
    (n : Int) (s0 s1 s2 : System)
    (hinit : sonic_init rb_capacity sensors n s0 = Except.ok (true, s1))
    (hon : sonic_on s1 = Except.ok s2) (events : List sonic_event) :
    ∃ s3, run_events events s2 = Except.ok s3 ∧
      0 ≤ s3.state.curr_sensor ∧ s3.state.curr_sensor < n ∧
      s3.state.sensors.length = n.toNat ∧ s3.state.curr_data.length = n.toNat := by
  have hcd := sonic_init_curr_data _ _ _ _ _ hinit
  rcases sonic_init_returns _ _ _ _ _ _ hinit with ⟨_, hf, _⟩ | ⟨hgood, _, hn, _, _, _, _, hlen⟩
  · simp at hf
  · have e := sonic_on_returns s1 s2 hon
    have hinv : index_in_range n s2 := by
      unfold index_in_range
      rw [e]
      have hpos : (0 : Int) < n := by omega
      exact ⟨hn, hlen, hcd, le_refl _, hpos⟩
    obtain ⟨s3, hrun, _, h2, h3, h4, h5⟩ := run_events_index_in_range n events s2 hinv
    exact ⟨s3, hrun, h4, h5, h2, h3⟩

/-- Witness of C29: the four sensors of `main.c`; two sensors time out, one
echo arrives, a setter runs, ranging is turned off and on again, and the cycle
goes on past the last sensor. -/
theorem sensor_index_stays_in_range_witness :
    ∃ s1 s2, sonic_init 4 main_sensors 4 (fresh_system [100, 200, 900, 1000]) =
        Except.ok (true, s1) ∧
      sonic_on s1 = Except.ok s2 ∧
      ∃ s3, run_events
          [sonic_event.finish_trigger, sonic_event.timeout, sonic_event.start_trigger,
           sonic_event.finish_trigger, sonic_event.process_echo, sonic_event.timeout,
           sonic_event.sonic_set_unit_delay 50, sonic_event.sonic_off, sonic_event.timeout,
           sonic_event.sonic_on, sonic_event.finish_trigger, sonic_event.timeout,
           sonic_event.start_trigger, sonic_event.finish_trigger, sonic_event.timeout,
           sonic_event.start_trigger, sonic_event.finish_trigger, sonic_event.timeout,
           sonic_event.start_trigger, sonic_event.finish_trigger, sonic_event.timeout] s2 =
          Except.ok s3 ∧
        0 ≤ s3.state.curr_sensor ∧ s3.state.curr_sensor < 4 ∧
        s3.state.sensors.length = (4 : Int).toNat ∧
        s3.state.curr_data.length = (4 : Int).toNat :=
  ⟨_, _, rfl, rfl,
    sensor_index_stays_in_range 4 main_sensors 4 (fresh_system [100, 200, 900, 1000]) _ _
      rfl rfl _⟩

end index_invariant

section run_log

/-- The busy wait only adds calls to the log. -/
theorem wait_while_level_log (level echo start timeout : Nat) :
    ∀ (fuel : Nat) (hw hw' : Hardware),
      wait_while_level level echo start timeout fuel hw = Except.ok hw' →
      hw.log <+: hw'.log := by
  intro fuel
  induction fuel with
  | zero =>
    intro hw hw' h
    simp [wait_while_level] at h
  | succ k ih =>
    intro hw hw' h
    rw [wait_while_level] at h
    simp only at h
    split at h
    · split at h
      · have := ih _ _ h
        refine List.IsPrefix.trans ?_ this
        simp only [did_timeout, timer_get_ticks, gpio_read]
        exact ⟨_, by rw [List.append_assoc]⟩
      · simp only [Except.ok.injEq] at h
        rw [← h]
        simp only [did_timeout, timer_get_ticks, gpio_read]
        exact ⟨_, by rw [List.append_assoc]⟩
    · simp only [Except.ok.injEq] at h
      rw [← h]
      simp only [gpio_read]
      exact ⟨_, rfl⟩

/-- The calls of one synchronous measurement: the trigger pulse, the read of
the start tick, the two busy waits, and then the read of the tick from which
`elapsed` is computed followed by the read of the tick of the timeout check. -/
theorem sync_measure_log (fuel : Nat) (st : sonic_config) (i : Nat) (hw hw' : Hardware)
    (m : measurement) (h : sync_measure fuel st i hw = Except.ok (m, hw')) :
    ∃ (sensor : sonic_sensor_t) (waits : List IOEvent) (t1 t2 : Nat),
      aget st.sensors (i : Int) = Except.ok sensor ∧
      hw'.log = hw.log ++ [IOEvent.gpio_write sensor.trigger 1,
          IOEvent.timer_delay_us TRIGGER_DELAY, IOEvent.gpio_write sensor.trigger 0,
          IOEvent.timer_get_ticks m.start] ++ waits ++
        [IOEvent.timer_get_ticks t1, IOEvent.timer_get_ticks t2] ∧
      m.start < 2 ^ 32 ∧ t1 < 2 ^ 32 ∧ t2 < 2 ^ 32 ∧
      m.elapsed = usub t1 m.start ∧ m.check_elapsed = usub t2 m.start := by
  unfold sync_measure at h
  cases hs : aget st.sensors (i : Int) with
  | error e => rw [hs] at h; simp [bind, Except.bind] at h
  | ok sensor =>
    rw [hs] at h
    simp only [bind, Except.bind] at h
    split at h
    · simp at h
    · rename_i hw1 hwait1
      split at h
      · simp at h
      · rename_i hw2 hwait2
        obtain ⟨w1, hw1log⟩ := wait_while_level_log _ _ _ _ _ _ _ hwait1
        obtain ⟨w2, hw2log⟩ := wait_while_level_log _ _ _ _ _ _ _ hwait2
        have hlog : (did_timeout (timer_get_ticks (gpio_write sensor.trigger 0
              (timer_delay_us TRIGGER_DELAY (gpio_write sensor.trigger 1 hw)))).1 st.timeout
              (timer_get_ticks hw2).2).2.log =
            hw.log ++ [IOEvent.gpio_write sensor.trigger 1,
              IOEvent.timer_delay_us TRIGGER_DELAY, IOEvent.gpio_write sensor.trigger 0,
              IOEvent.timer_get_ticks (timer_get_ticks (gpio_write sensor.trigger 0
                (timer_delay_us TRIGGER_DELAY (gpio_write sensor.trigger 1 hw)))).1] ++
              (w1 ++ w2) ++
            [IOEvent.timer_get_ticks (timer_get_ticks hw2).1,
             IOEvent.timer_get_ticks (timer_get_ticks (timer_get_ticks hw2).2).1] := by
          have e1 : (did_timeout (timer_get_ticks (gpio_write sensor.trigger 0
              (timer_delay_us TRIGGER_DELAY (gpio_write sensor.trigger 1 hw)))).1 st.timeout
              (timer_get_ticks hw2).2).2.log =
              hw2.log ++ [IOEvent.timer_get_ticks (timer_get_ticks hw2).1,
                IOEvent.timer_get_ticks (timer_get_ticks (timer_get_ticks hw2).2).1] := by
            simp only [did_timeout, timer_get_ticks, List.append_assoc, List.singleton_append]
          rw [e1, ← hw2log, ← hw1log]
          simp only [timer_get_ticks, gpio_write, timer_delay_us, List.append_assoc,
            List.singleton_append, List.cons_append, List.nil_append]
        split at h
        all_goals
          simp only [pure, Except.pure, Except.ok.injEq, Prod.mk.injEq] at h
          obtain ⟨rfl, rfl⟩ := h
          exact ⟨sensor, w1 ++ w2, _, _, rfl, hlog, timer_get_ticks_lt _, timer_get_ticks_lt _,
            timer_get_ticks_lt _, rfl, rfl⟩

/-- A measurement only adds calls to the log. -/
theorem sync_measure_extends (fuel : Nat) (st : sonic_config) (i : Nat) (hw hw' : Hardware)
    (m : measurement) (h : sync_measure fuel st i hw = Except.ok (m, hw')) :
    hw.log <+: hw'.log := by
  obtain ⟨_, _, _, _, _, hlog, _⟩ := sync_measure_log _ _ _ _ _ _ h
  rw [hlog, List.append_assoc, List.append_assoc]
  exact ⟨_, rfl⟩

/-- The measurement at position `k` of a complete pass that starts at sensor
`i` is the outcome of `sync_measure` on sensor `i + k`, and its calls are part
of the log the pass ends with. -/
theorem complete_pass_entries (fuel : Nat) (st : sonic_config) :
    ∀ (remaining i : Nat) (hw hw' : Hardware) (ms : List measurement),
      complete_pass fuel st remaining i hw = Except.ok (ms, hw') →
      hw.log <+: hw'.log ∧
      ∀ (k : Nat) (m : measurement), ms[k]? = some m →
        ∃ hwa hwb, sync_measure fuel st (i + k) hwa = Except.ok (m, hwb) ∧
          hw.log <+: hwa.log ∧ hwb.log <+: hw'.log := by
  intro remaining
  induction remaining with
  | zero =>
    intro i hw hw' ms h
    simp only [complete_pass, Except.ok.injEq, Prod.mk.injEq] at h
    obtain ⟨rfl, rfl⟩ := h
    exact ⟨⟨[], List.append_nil _⟩, fun k m hk => by simp at hk⟩
  | succ r ih =>
    intro i hw hw' ms h
    rw [complete_pass] at h
    split at h
    · simp at h
    · rename_i m0 hw1 hm
      split at h
      · simp at h
      · rename_i ms1 hw2 hc
        simp only [Except.ok.injEq, Prod.mk.injEq] at h
        obtain ⟨rfl, rfl⟩ := h
        obtain ⟨hpre, hent⟩ := ih _ _ _ _ hc
        have h01 := sync_measure_extends _ _ _ _ _ _ hm
        have h1d : hw1.log <+: (timer_delay_us st.unit_delay hw1).log := ⟨_, rfl⟩
        refine ⟨h01.trans (h1d.trans hpre), ?_⟩
        intro k m hk
        cases k with
        | zero =>
          simp only [List.getElem?_cons_zero, Option.some.injEq] at hk
          subst hk
          exact ⟨hw, hw1, hm, ⟨[], List.append_nil _⟩, h1d.trans hpre⟩
        | succ k =>
          simp only [List.getElem?_cons_succ] at hk
          obtain ⟨hwa, hwb, hmeas, ha, hb⟩ := hent k m hk
          refine ⟨hwa, hwb, ?_, (h01.trans h1d).trans ha, hb⟩
          rw [show i + (k + 1) = i + 1 + k by omega]
          exact hmeas

/-- The `for` loop only adds calls to the log, however it is left. -/
theorem sync_pass_extends (fuel : Nat) (st : sonic_config) (min_valid : Int) :
    ∀ (remaining i : Nat) (result : List (Option sonic_data_t)) (valid : Int) (hw : Hardware)
      (result' : List (Option sonic_data_t)) (valid' : Int) (hw' : Hardware),
      sync_pass fuel st min_valid remaining i result valid hw = Except.ok (result', valid', hw') →
      hw.log <+: hw'.log := by
  intro remaining
  induction remaining with
  | zero =>
    intro i result valid hw result' valid' hw' h
    simp only [sync_pass, Except.ok.injEq, Prod.mk.injEq] at h
    rw [← h.2.2]
  | succ k ih =>
    intro i result valid hw result' valid' hw' h
    rw [sync_pass] at h
    split at h
    · simp at h
    · rename_i m hw1 hm
      have h01 := sync_measure_extends _ _ _ _ _ _ hm
      have h1d : hw1.log <+: (timer_delay_us st.unit_delay hw1).log := ⟨_, rfl⟩
      split at h
      · simp at h
      · split at h
        · split at h
          · simp only [Except.ok.injEq, Prod.mk.injEq] at h
            rw [← h.2.2]
            exact h01
          · exact (h01.trans h1d).trans (ih _ _ _ _ _ _ _ h)
        · exact (h01.trans h1d).trans (ih _ _ _ _ _ _ _ h)

/-- The `do ... while` loop ends on a complete pass whose calls come after
those logged before the loop. -/
theorem sync_retry_final_pass (fuel : Nat) (st : sonic_config) (min_valid : Int) :
    ∀ (tries : Nat) (result : List (Option sonic_data_t)) (hw : Hardware)
      (result' : List (Option sonic_data_t)) (hw' : Hardware),
      sync_retry fuel st min_valid tries result hw = Except.ok (result', hw') →
      result.length = st.n_sensors.toNat →
      ∃ hw0 ms, complete_pass fuel st st.n_sensors.toNat 0 hw0 = Except.ok (ms, hw') ∧
        result' = ms.map (fun m => some m.reading) ∧
        ms.length = st.n_sensors.toNat ∧ hw.log <+: hw0.log := by
  intro tries
  induction tries with
  | zero =>
    intro result hw result' hw' h
    simp [sync_retry] at h
  | succ k ih =>
    intro result hw result' hw' h hlen
    rw [sync_retry] at h
    split at h
    · simp at h
    · rename_i res1 valid1 hw1 hp
      split at h
      · obtain ⟨hw0, ms, hc, hr, hl, hpre⟩ :=
          ih _ _ _ _ h (by rw [sync_pass_length _ _ _ _ _ _ _ _ _ _ _ hp, hlen])
        exact ⟨hw0, ms, hc, hr, hl, (sync_pass_extends _ _ _ _ _ _ _ _ _ _ _ hp).trans hpre⟩
      · rename_i hv
        simp only [Except.ok.injEq, Prod.mk.injEq] at h
        obtain ⟨rfl, rfl⟩ := h
        obtain ⟨ms, hc, hr, _, hl⟩ :=
          sync_pass_complete _ _ _ _ _ _ _ _ _ _ _ hp (not_lt.mp hv) (by omega)
        refine ⟨hw, ms, hc, ?_, hl, ⟨[], List.append_nil _⟩⟩
        rw [hr]; simp

/-- A tick source that was monotonic over a stretch of the run was monotonic
over every part of that stretch. -/
theorem ticks_monotonic_between_part (hw hwa hwb hw' : Hardware)
    (ha : hw.log <+: hwa.log) (hab : hwa.log <+: hwb.log) (hb : hwb.log <+: hw'.log)
    (hmono : ticks_monotonic_between hw hw') : ticks_monotonic_between hwa hwb := by
  obtain ⟨x, hx⟩ := ha
  obtain ⟨y, hy⟩ := hab
  obtain ⟨z, hz⟩ := hb
  unfold ticks_monotonic_between at hmono ⊢
  have e1 : hw'.log.drop hw.log.length = x ++ y ++ z := by
    rw [← hz, ← hy, ← hx]
    simp only [List.append_assoc, List.drop_left]
  have e2 : hwb.log.drop hwa.log.length = y := by
    rw [← hy]
    simp only [List.drop_left]
  rw [e1] at hmono
  rw [e2]
  refine List.Pairwise.sublist (List.Sublist.filterMap _ ?_) hmono
  exact (List.sublist_append_right x y).trans (List.sublist_append_left (x ++ y) z)

/-- With a tick source that was monotonic during a measurement, the tick of
its timeout check is not before the tick from which `elapsed` was computed. -/
theorem sync_measure_monotonic (fuel : Nat) (st : sonic_config) (i : Nat) (hwa hwb : Hardware)
    (m : measurement) (h : sync_measure fuel st i hwa = Except.ok (m, hwb))
    (hmono : ticks_monotonic_between hwa hwb) :
    m.elapsed ≤ m.check_elapsed := by
  obtain ⟨sensor, waits, t1, t2, _, hlog, hs, h1, h2, he, hc⟩ := sync_measure_log _ _ _ _ _ _ h
  unfold ticks_monotonic_between at hmono
  rw [hlog] at hmono
  simp only [List.append_assoc, List.drop_left, ticks_read, List.filterMap_append,
    List.filterMap_cons, List.filterMap_nil, List.singleton_append, List.cons_append,
    List.nil_append] at hmono
  have hsub : [m.start, t1, t2].Sublist
      (m.start :: (List.filterMap (fun e =>
        match e with
        | IOEvent.timer_get_ticks val => some val
        | _ => none) waits ++ [t1, t2])) :=
    List.Sublist.cons₂ _ (List.sublist_append_right _ _)
  have hp := List.Pairwise.sublist hsub hmono
  simp only [List.pairwise_cons, List.mem_cons, List.mem_singleton, forall_eq_or_imp, forall_eq,
    List.not_mem_nil, false_implies, implies_true, List.Pairwise.nil, and_true] at hp
  rw [he, hc]
  unfold usub
  omega

end run_log

section synchronous_run

/-- C13: the array that `sonic_read_sync` returns has one written entry per
sensor, each with distance `-1` or a distance that is not negative; when the
tick source was monotonic during the call (no tick read was less than an
earlier one, no wrap), every entry has distance `-1` or a distance between `0`
and `floor(timeout * 0.343 / 2)`.  Entry `i` is the reading of the measurement
that the pass which ended the call made on sensor `i`: its distance is `-1`
exactly when its timeout check fired and otherwise the distance computed from
`elapsed`, so a measured distance is never taken for the sentinel; and it is
within the bound as soon as the tick source was monotonic during that one
measurement. -/
theorem sonic_read_sync_distance_bounded (fuel : Nat) (st : sonic_config)
    (min_valid : Int) (hw hw' : Hardware) (ret : Bool) (result : List (Option sonic_data_t))
    (hoff : st.is_active = false)
    (h : sonic_read_sync fuel st min_valid hw = Except.ok (ret, some result, hw')) :
    result.length = st.n_sensors.toNat ∧
    (∀ entry ∈ result, ∃ d : sonic_data_t, entry = some d ∧
      (d.distance = -1 ∨ 0 ≤ d.distance)) ∧
    (ticks_monotonic_between hw hw' →
      ∀ entry ∈ result, ∃ d : sonic_data_t, entry = some d ∧
        (d.distance = -1 ∨
          (0 ≤ d.distance ∧ d.distance ≤ ⌊(st.timeout : ℚ) * (343 / 1000) / 2⌋))) ∧
    (∃ hw0 ms, hw.log <+: hw0.log ∧
      complete_pass fuel st st.n_sensors.toNat 0 hw0 = Except.ok (ms, hw') ∧
      result = ms.map (fun m => some m.reading) ∧
      ∀ (i : Nat) (m : measurement), ms[i]? = some m →
        ∃ hwa hwb, sync_measure fuel st i hwa = Except.ok (m, hwb) ∧
          hw0.log <+: hwa.log ∧ hwa.log <+: hwb.log ∧ hwb.log <+: hw'.log ∧
          (m.reading.distance = SONIC_INVALID_READING ↔ m.timed_out = true) ∧
          (m.timed_out = false →
            m.reading.distance = distance_of_elapsed m.elapsed ∧ 0 ≤ m.reading.distance) ∧
          (ticks_monotonic_between hwa hwb →
            m.reading.distance = -1 ∨
              (0 ≤ m.reading.distance ∧
                m.reading.distance ≤ ⌊(st.timeout : ℚ) * (343 / 1000) / 2⌋))) := by
  unfold sonic_read_sync at h
  rw [hoff] at h
  simp only [Bool.false_eq_true, if_false] at h
  split at h
  · simp at h
  · rename_i res hw1 hr
    simp only [Except.ok.injEq, Prod.mk.injEq, Option.some.injEq] at h
    obtain ⟨_, rfl, rfl⟩ := h
    obtain ⟨hw0, ms, hc, hres, hlen, hpre0⟩ :=
      sync_retry_final_pass _ _ _ _ _ _ _ _ hr (by simp)
    obtain ⟨_, hent⟩ := complete_pass_entries _ _ _ _ _ _ _ hc
    have hall : ∀ (i : Nat) (m : measurement), ms[i]? = some m →
        ∃ hwa hwb, sync_measure fuel st i hwa = Except.ok (m, hwb) ∧
          hw0.log <+: hwa.log ∧ hwa.log <+: hwb.log ∧ hwb.log <+: hw1.log ∧
          (m.reading.distance = SONIC_INVALID_READING ↔ m.timed_out = true) ∧
          (m.timed_out = false →
            m.reading.distance = distance_of_elapsed m.elapsed ∧ 0 ≤ m.reading.distance) ∧
          (ticks_monotonic_between hwa hwb →
            m.reading.distance = -1 ∨
              (0 ≤ m.reading.distance ∧
                m.reading.distance ≤ ⌊(st.timeout : ℚ) * (343 / 1000) / 2⌋)) := by
      intro i m hm
      obtain ⟨hwa, hwb, hmeas, hpa, hpb⟩ := hent i m hm
      rw [Nat.zero_add] at hmeas
      refine ⟨hwa, hwb, hmeas, hpa, sync_measure_extends _ _ _ _ _ _ hmeas, hpb, ?_⟩
      obtain ⟨_, _, _, h1, h2, h3, h4⟩ := sync_measure_spec _ _ _ _ _ _ hmeas
      cases hto : m.timed_out with
      | true =>
        have hd : m.reading.distance = SONIC_INVALID_READING := by rw [h1 hto]
        exact ⟨⟨fun _ => rfl, fun _ => hd⟩, fun hf => by simp at hf, fun _ => Or.inl hd⟩
      | false =>
        have hd := h2 hto
        have hlt : m.check_elapsed < st.timeout := by
          by_contra hge
          have := h3.mpr (not_lt.mp hge)
          rw [hto] at this
          exact Bool.false_ne_true this
        refine ⟨⟨fun he => ?_, fun hf => by simp at hf⟩, fun _ => ⟨by rw [h4 hto], hd⟩,
          fun hmono => Or.inr ⟨hd, ?_⟩⟩
        · unfold SONIC_INVALID_READING at he
          omega
        · have hle := sync_measure_monotonic _ _ _ _ _ _ hmeas hmono
          rw [← distance_of_elapsed_floor, h4 hto]
          exact distance_of_elapsed_le _ _ (by omega)
    refine ⟨by rw [hres, List.length_map, hlen], ?_, ?_, ⟨hw0, ms, hpre0, hc, hres, hall⟩⟩
    · intro entry he
      rw [hres, List.mem_map] at he
      obtain ⟨m, hm, rfl⟩ := he
      obtain ⟨i, hi⟩ := List.getElem?_of_mem hm
      obtain ⟨_, _, _, _, _, _, h5, h6, _⟩ := hall i m hi
      refine ⟨m.reading, rfl, ?_⟩
      cases hto : m.timed_out with
      | true => exact Or.inl (h5.mpr hto)
      | false => exact Or.inr (h6 hto).2
    · intro hmono entry he
      rw [hres, List.mem_map] at he
      obtain ⟨m, hm, rfl⟩ := he
      obtain ⟨i, hi⟩ := List.getElem?_of_mem hm
      obtain ⟨hwa, hwb, _, hpa, hab, hpb, _, _, h7⟩ := hall i m hi
      exact ⟨m.reading, rfl,
        h7 (ticks_monotonic_between_part _ _ _ _ (hpre0.trans hpa) hab hpb hmono)⟩

/-- Witness of C13: two sensors with timeout 17492 and `min_valid = 2`; the
first pass is abandoned when sensor 0 has no echo by tick 20000, the pass that
is returned measured round trips of 600 and 1000 ticks.  The ticks read never
decrease, and the distances 102 and 171 are at most
`floor(17492 * 0.343 / 2) = 2999`. -/
theorem sonic_read_sync_distance_bounded_witness :
    (example_config (main_sensors.take 2)).is_active = false ∧
    ∃ hw', sonic_read_sync 3 (example_config (main_sensors.take 2)) 2
        (example_hardware [100, 0, 20000, 0, 20001, 20002,
          30000, 1, 1, 30100, 0, 30600, 30610,
          40000, 1, 0, 41000, 41001]) =
        Except.ok (true, some [some { distance := 102, timestamp := 30300 },
                               some { distance := 171, timestamp := 40500 }], hw') ∧
      ticks_monotonic_between (example_hardware [100, 0, 20000, 0, 20001, 20002,
          30000, 1, 1, 30100, 0, 30600, 30610,
          40000, 1, 0, 41000, 41001]) hw' ∧
      ∀ entry ∈ [some ({ distance := 102, timestamp := 30300 } : sonic_data_t),
                 some { distance := 171, timestamp := 40500 }],
        ∃ d : sonic_data_t, entry = some d ∧
          (d.distance = -1 ∨
            (0 ≤ d.distance ∧
              d.distance ≤
                ⌊((example_config (main_sensors.take 2)).timeout : ℚ) * (343 / 1000) / 2⌋)) := by
  refine ⟨rfl, _, rfl, ?_, ?_⟩
  · show List.Pairwise _ _
    decide
  · refine (sonic_read_sync_distance_bounded 3 (example_config (main_sensors.take 2)) 2
      (example_hardware [100, 0, 20000, 0, 20001, 20002,
        30000, 1, 1, 30100, 0, 30600, 30610,
        40000, 1, 0, 41000, 41001]) _ true _ rfl rfl).2.2.1 ?_
    show List.Pairwise _ _
    decide

end synchronous_run

section sentinel

end sentinel

section float_rounding

/-- With the identity as rounding, the `float` embedding is the exact one. -/
theorem pos_from_dists_float_id {α : Type} [LinearOrderedField α] (sqrt : α → α)
    (dists : Fin 4 → sonic_data_t) :
    pos_from_dists_float id sqrt dists = pos_from_dists sqrt dists := rfl

end float_rounding

section float_symmetric

variable {α : Type} [LinearOrderedField α]

end float_symmetric

section float_symmetric_claim

end float_symmetric_claim

section float_counterexample

end float_counterexample

end PiShot
